import Mathlib

/-! # OGRE GL render system: hardware pixel buffers

A shallow embedding of `RenderSystems/GL/src/OgreGLHardwarePixelBuffer.cpp`.

* Every member function becomes a Lean function that passes the world explicitly.
* The world has two logs.  `World.calls` records, in program order, the calls a member
  function makes to other engine code (`allocateBuffer`, `Image::scale`, `upload`, ...).
  `GLWorld.commands` records the native GL calls and the calls to the GL state cache.
* A C++ exception is a `Failure` stored beside the world reached when it was thrown, so
  that every side effect issued before the `throw` stays observable.
* Tables and capabilities that live in other files of the engine (pixel format tables,
  GLEW capability flags, the FBO manager, values the driver reports) are the fields of `Env`.
-/

namespace Ogre

/-! ## Basic types -/

abbrev PixelFormat := Nat
abbrev GLenum := Nat
abbrev GLuint := Nat
abbrev Pixel := Nat

/-! ### Usage flags (`HardwareBuffer::Usage`, `TextureUsage`)

The flags are declared in headers of the engine core; each is a single bit of the usage
word, and `HBU_STATIC_WRITE_ONLY` is the union of `HBU_STATIC` and `HBU_WRITE_ONLY`. -/

abbrev HBU_STATIC : Nat := 1
abbrev HBU_WRITE_ONLY : Nat := 4
abbrev HBU_STATIC_WRITE_ONLY : Nat := 5
abbrev TU_AUTOMIPMAP : Nat := 16
abbrev TU_RENDERTARGET : Nat := 32

/-! ### GL enumerants used by the file -/

abbrev GL_TEXTURE_1D : GLenum := 0x0DE0
abbrev GL_TEXTURE_2D : GLenum := 0x0DE1
abbrev GL_TEXTURE_3D : GLenum := 0x806F
abbrev GL_TEXTURE_CUBE_MAP : GLenum := 0x8513
abbrev GL_TEXTURE_CUBE_MAP_POSITIVE_X : GLenum := 0x8515
abbrev GL_TEXTURE_2D_ARRAY_EXT : GLenum := 0x8C1A
abbrev GL_TEXTURE_WIDTH : GLenum := 0x1000
abbrev GL_TEXTURE_HEIGHT : GLenum := 0x1001
abbrev GL_TEXTURE_INTERNAL_FORMAT : GLenum := 0x1003
abbrev GL_TEXTURE_DEPTH : GLenum := 0x8071
abbrev GL_UNPACK_ROW_LENGTH : GLenum := 0x0CF2
abbrev GL_UNPACK_SKIP_PIXELS : GLenum := 0x0CF4
abbrev GL_UNPACK_ALIGNMENT : GLenum := 0x0CF5
abbrev GL_UNPACK_IMAGE_HEIGHT : GLenum := 0x806E
abbrev GL_PACK_ROW_LENGTH : GLenum := 0x0D02
abbrev GL_PACK_SKIP_PIXELS : GLenum := 0x0D04
abbrev GL_PACK_ALIGNMENT : GLenum := 0x0D05
abbrev GL_PACK_IMAGE_HEIGHT : GLenum := 0x806C
abbrev GL_CURRENT_BIT : Nat := 0x00000001
abbrev GL_POLYGON_BIT : Nat := 0x00000008
abbrev GL_LIGHTING_BIT : Nat := 0x00000040
abbrev GL_FOG_BIT : Nat := 0x00000080
abbrev GL_DEPTH_BUFFER_BIT : Nat := 0x00000100
abbrev GL_STENCIL_BUFFER_BIT : Nat := 0x00000400
abbrev GL_VIEWPORT_BIT : Nat := 0x00000800
abbrev GL_ENABLE_BIT : Nat := 0x00002000
abbrev GL_COLOR_BUFFER_BIT : Nat := 0x00004000
abbrev GL_TEXTURE_BIT : Nat := 0x00040000
abbrev GL_SCISSOR_BIT : Nat := 0x00080000
/-- The mask `blitFromTexture` passes to `glPushAttrib`. -/
abbrev GL_ATTRIB_BITS : Nat :=
  GL_COLOR_BUFFER_BIT ||| GL_CURRENT_BIT ||| GL_DEPTH_BUFFER_BIT ||| GL_ENABLE_BIT |||
  GL_FOG_BIT ||| GL_LIGHTING_BIT ||| GL_POLYGON_BIT ||| GL_SCISSOR_BIT |||
  GL_STENCIL_BUFFER_BIT ||| GL_TEXTURE_BIT ||| GL_VIEWPORT_BIT
abbrev GL_ALPHA_TEST : GLenum := 0x0BC0
abbrev GL_DEPTH_TEST : GLenum := 0x0B71
abbrev GL_SCISSOR_TEST : GLenum := 0x0C11
abbrev GL_BLEND : GLenum := 0x0BE2
abbrev GL_CULL_FACE : GLenum := 0x0B44
abbrev GL_LIGHTING : GLenum := 0x0B50
abbrev GL_FOG : GLenum := 0x0B60
abbrev GL_MODELVIEW : GLenum := 0x1700
abbrev GL_PROJECTION : GLenum := 0x1701
abbrev GL_TEXTURE : GLenum := 0x1702
abbrev GL_TEXTURE_MAG_FILTER : GLenum := 0x2800
abbrev GL_TEXTURE_MIN_FILTER : GLenum := 0x2801
abbrev GL_TEXTURE_WRAP_S : GLenum := 0x2802
abbrev GL_TEXTURE_WRAP_T : GLenum := 0x2803
abbrev GL_TEXTURE_WRAP_R : GLenum := 0x8072
abbrev GL_NEAREST : Nat := 0x2600
abbrev GL_LINEAR : Nat := 0x2601
abbrev GL_LINEAR_MIPMAP_LINEAR : Nat := 0x2703
abbrev GL_CLAMP_TO_EDGE : Nat := 0x812F
abbrev GL_TEXTURE_BASE_LEVEL : GLenum := 0x813C
abbrev GL_TEXTURE_MAX_LEVEL : GLenum := 0x813D
abbrev GL_GENERATE_MIPMAP : GLenum := 0x8191
abbrev GL_TRUE : Nat := 1
abbrev GL_FRAMEBUFFER_EXT : GLenum := 0x8D40
abbrev GL_RENDERBUFFER_EXT : GLenum := 0x8D41
abbrev GL_COLOR_ATTACHMENT0_EXT : GLenum := 0x8CE0
abbrev GL_RGBA : GLenum := 0x1908
abbrev GL_UNSIGNED_BYTE : GLenum := 0x1401
abbrev GL_QUADS : GLenum := 0x0007
abbrev GL_FRAMEBUFFER_BINDING_EXT : GLenum := 0x8CA6

/-! ## Pixel region model

`Box` and `PixelBox` are declared in headers of the engine core.  Their fields and the three
operations the file uses are written here as section 4.1 of the specification gives them. -/

/-- Modelled from the spec: the 3D region `Box` (left/top/front inclusive, right/bottom/back
exclusive).  The coordinates are unsigned; the constructor of the engine requires
`left <= right`, `top <= bottom` and `front <= back`. -/
structure Box where
  left : Nat
  top : Nat
  right : Nat
  bottom : Nat
  front : Nat
  back : Nat
deriving DecidableEq, Repr

/-- Modelled from the spec: constructor `Box(l, t, ff, r, b, bb)`, in the argument order
the file uses (`Box tempTarget(0, 0, 0, width, height, depth)`). -/
def Box.ofCorners (l t ff r b bb : Nat) : Box :=
  { left := l, top := t, right := r, bottom := b, front := ff, back := bb }

/-- Modelled from the spec: width of the region, `right - left`. -/
def Box.getWidth (b : Box) : Nat := b.right - b.left

/-- Modelled from the spec: height of the region, `bottom - top`. -/
def Box.getHeight (b : Box) : Nat := b.bottom - b.top

/-- Modelled from the spec: depth of the region, `back - front`. -/
def Box.getDepth (b : Box) : Nat := b.back - b.front

/-- Modelled from the spec: `contains(box)`, the region `d` lies within `b` on every axis. -/
def Box.contains (b d : Box) : Bool :=
  decide (d.left ≥ b.left) && decide (d.top ≥ b.top) && decide (d.front ≥ b.front) &&
  decide (d.right ≤ b.right) && decide (d.bottom ≤ b.bottom) && decide (d.back ≤ b.back)

/-- A pointer into pixel memory: a memory block and the pixel of that block it points at.
Pixel memory is addressed by pixel coordinates inside a block; the byte layout that
the pitches describe is not modelled.  Block `0` is the null pointer, block `1` is the CPU
shadow buffer of the pixel buffer under consideration, block `2` is the conversion buffer
of `GLTextureBuffer::blitFromMemory`; the blocks from `3` on belong to the caller. -/
structure Pointer where
  block : Nat
  x : Nat
  y : Nat
  z : Nat
deriving DecidableEq, Repr

def Pointer.null : Pointer := { block := 0, x := 0, y := 0, z := 0 }

def Pointer.shadow : Pointer := { block := 1, x := 0, y := 0, z := 0 }

/-- Modelled from the spec: `PixelBox`, a `Box` plus a pixel format, a base data pointer and
row/slice pitch (in pixels). -/
structure PixelBox extends Box where
  data : Pointer
  format : PixelFormat
  rowPitch : Nat
  slicePitch : Nat
deriving DecidableEq, Repr

def PixelBox.getWidth (p : PixelBox) : Nat := p.toBox.getWidth

def PixelBox.getHeight (p : PixelBox) : Nat := p.toBox.getHeight

def PixelBox.getDepth (p : PixelBox) : Nat := p.toBox.getDepth

/-- Modelled from the spec: constructor `PixelBox(width, height, depth, format, data)`, a
box at the origin with consecutive pitches. -/
def PixelBox.ofExtent (width height depth : Nat) (format : PixelFormat) (data : Pointer) :
    PixelBox :=
  { left := 0, top := 0, front := 0, right := width, bottom := height, back := depth,
    data := data, format := format, rowPitch := width, slicePitch := width * height }

def PixelBox.contains (p : PixelBox) (d : Box) : Bool := p.toBox.contains d

/-- Modelled from the spec: a box is consecutive iff its pitches match its dimensions
exactly. -/
def PixelBox.isConsecutive (p : PixelBox) : Bool :=
  decide (p.rowPitch = p.getWidth) && decide (p.slicePitch = p.getWidth * p.getHeight)

/-- Modelled from the spec: `getConsecutiveSize()`, the memory size of the box in its
format, from the table `PixelUtil::getMemorySize`. -/
def PixelBox.getConsecutiveSize (memorySize : Nat → Nat → Nat → PixelFormat → Nat)
    (p : PixelBox) : Nat :=
  memorySize p.getWidth p.getHeight p.getDepth p.format

/-- Modelled from the spec: `getSubVolume(box)`, a non-owning view with the pointer offset
by the box origin and the pitches of the parent. -/
def PixelBox.getSubVolume (p : PixelBox) (d : Box) : PixelBox :=
  { left := 0, top := 0, front := 0,
    right := d.getWidth, bottom := d.getHeight, back := d.getDepth,
    data := { block := p.data.block,
              x := p.data.x + (d.left - p.left),
              y := p.data.y + (d.top - p.top),
              z := p.data.z + (d.front - p.front) },
    format := p.format, rowPitch := p.rowPitch, slicePitch := p.slicePitch }

/-! ## Failures -/

/-- Exception codes of `Ogre::Exception` that the file raises. -/
inductive ExceptionCode
  | ERR_INVALIDPARAMS
  | ERR_RENDERINGAPI_ERROR
deriving DecidableEq, Repr

/-- The description strings passed to `OGRE_EXCEPT` in the file. -/
inductive Description
  /-- Description "destination box out of range". -/
  | destinationBoxOutOfRange
  /-- Description "source box out of range". -/
  | sourceBoxOutOfRange
  /-- Description "Compressed images must be consecutive, in the source format". -/
  | compressedImagesMustBeConsecutive
  /-- Description "only download of entire buffer is supported by GL". -/
  | onlyDownloadOfEntireBuffer
  /-- A description raised by code outside the file. -/
  | other (n : Nat)
deriving DecidableEq, Repr

/-- The source strings passed to `OGRE_EXCEPT` in the file. -/
inductive Origin
  | GLHardwarePixelBuffer_blitFromMemory
  | GLHardwarePixelBuffer_blitToMemory
  | GLTextureBuffer_upload
  | GLTextureBuffer_download
  | GLTextureBuffer_blitFromMemory
  | other (n : Nat)
deriving DecidableEq, Repr

/-- What stops a member function before its end: an exception raised with `OGRE_EXCEPT`,
an integer division by zero (undefined behaviour in C++), or an `assert` whose condition
is false. -/
inductive Failure
  | ogreExcept (code : ExceptionCode) (description : Description) (source : Origin)
  | divisionByZero
  | assertionFailed
deriving DecidableEq, Repr

/-! ## Collaborators outside the file -/

/-- Tables and capabilities the file consumes from other parts of the engine and from the
driver.  They are parameters of the embedding. -/
structure Env where
  /-- Probe `GLPixelUtil::getGLOriginFormat`: the native transfer format, `0` if none. -/
  getGLOriginFormat : PixelFormat → GLenum
  /-- Table `GLPixelUtil::getGLOriginDataType`. -/
  getGLOriginDataType : PixelFormat → GLenum
  /-- Table `GLPixelUtil::getClosestGLInternalFormat(format, hwGamma)`. -/
  getClosestGLInternalFormat : PixelFormat → Bool → GLenum
  /-- Table `GLPixelUtil::getClosestOGREFormat`. -/
  getClosestOGREFormat : GLenum → PixelFormat
  /-- Rounding `GLPixelUtil::optionalPO2`. -/
  optionalPO2 : Nat → Nat
  /-- Table `PixelUtil::isCompressed`. -/
  isCompressed : PixelFormat → Bool
  /-- Table `PixelUtil::isLuminance`. -/
  isLuminance : PixelFormat → Bool
  /-- Table `PixelUtil::getNumElemBytes`. -/
  getNumElemBytes : PixelFormat → Nat
  /-- Table `PixelUtil::getMemorySize(width, height, depth, format)`. -/
  getMemorySize : Nat → Nat → Nat → PixelFormat → Nat
  /-- Capability flag `GLEW_EXT_framebuffer_object`. -/
  GLEW_EXT_framebuffer_object : Bool
  /-- Capability flag `GLEW_VERSION_1_2`. -/
  GLEW_VERSION_1_2 : Bool
  /-- Handle `GLFBOManager::getTemporaryFBO()`. -/
  getTemporaryFBO : GLuint
  /-- Query `GLFBOManager::checkFormat`. -/
  checkFormat : PixelFormat → Bool
  /-- Query `GLFBOManager::getSupportedAlternative`. -/
  getSupportedAlternative : PixelFormat → PixelFormat
  /-- What the driver answers to `glGetTexLevelParameteriv(target, level, pname)`. -/
  texLevelParameter : GLenum → Int → GLenum → Int
  /-- Value conversion done by `PixelUtil::bulkPixelConversion` from one format to another. -/
  convertPixel : PixelFormat → PixelFormat → Pixel → Pixel
  /-- Result of `Image::scale`: the pixel of the destination at a position, from the source
  extent, the destination extent, both formats and the source pixels. -/
  resample : PixelBox → PixelBox → (Nat → Nat → Nat → Pixel) → Nat → Nat → Nat → Pixel

/-! ## The world -/

/-- Native GL calls and calls to the GL state cache manager, with the arguments the file
passes.  Float arguments are exact rationals. -/
inductive GLCommand
  | bindGLTexture (target : GLenum) (texture : GLuint)
  | glGetTexLevelParameteriv (target : GLenum) (level : Int) (pname : GLenum)
  | glCompressedTexImage1DARB (target : GLenum) (level : Int) (internalformat : GLenum)
      (width border imageSize : Nat) (data : Pointer)
  | glCompressedTexSubImage1DARB (target : GLenum) (level : Int) (xoffset width : Nat)
      (format : GLenum) (imageSize : Nat) (data : Pointer)
  | glCompressedTexImage2DARB (target : GLenum) (level : Int) (internalformat : GLenum)
      (width height border imageSize : Nat) (data : Pointer)
  | glCompressedTexSubImage2DARB (target : GLenum) (level : Int) (xoffset yoffset : Nat)
      (width height : Nat) (format : GLenum) (imageSize : Nat) (data : Pointer)
  | glCompressedTexImage3DARB (target : GLenum) (level : Int) (internalformat : GLenum)
      (width height depth border imageSize : Nat) (data : Pointer)
  | glCompressedTexSubImage3DARB (target : GLenum) (level : Int)
      (xoffset yoffset zoffset : Nat) (width height depth : Nat) (format : GLenum)
      (imageSize : Nat) (data : Pointer)
  | glPixelStorei (pname : GLenum) (param : Nat)
  | glTexSubImage1D (target : GLenum) (level : Int) (xoffset width : Nat)
      (format type : GLenum) (data : Pointer)
  | glTexSubImage2D (target : GLenum) (level : Int) (xoffset yoffset width height : Nat)
      (format type : GLenum) (data : Pointer)
  | glTexSubImage3D (target : GLenum) (level : Int) (xoffset yoffset zoffset : Nat)
      (width height depth : Nat) (format type : GLenum) (data : Pointer)
  | glGenerateMipmapEXT (target : GLenum)
  | glGetCompressedTexImageARB (target : GLenum) (level : Int) (data : Pointer)
  | glGetTexImage (target : GLenum) (level : Int) (format type : GLenum) (data : Pointer)
  | glFramebufferTexture1DEXT (target attachment textarget : GLenum) (texture : GLuint)
      (level : Int)
  | glFramebufferTexture2DEXT (target attachment textarget : GLenum) (texture : GLuint)
      (level : Int)
  | glFramebufferTexture3DEXT (target attachment textarget : GLenum) (texture : GLuint)
      (level : Int) (zoffset : Nat)
  | glCopyTexSubImage1D (target : GLenum) (level : Int) (xoffset x y width : Nat)
  | glCopyTexSubImage2D (target : GLenum) (level : Int) (xoffset yoffset x y : Nat)
      (width height : Nat)
  | glCopyTexSubImage3D (target : GLenum) (level : Int) (xoffset yoffset zoffset x y : Nat)
      (width height : Nat)
  | glPushAttrib (mask : Nat)
  | glPopAttrib
  | disableTextureUnitsFrom (unit : Nat)
  | activateGLTextureUnit (unit : Nat)
  | setEnabled (cap : GLenum) (enabled : Bool)
  | glMatrixMode (mode : GLenum)
  | glPushMatrix
  | glLoadIdentity
  | glPopMatrix
  | setTexParameteri (target pname : GLenum) (param : Int)
  | glGetIntegerv (pname : GLenum)
  | glBindFramebufferEXT (target : GLenum) (framebuffer : GLuint)
  | glGenTextures (n : Nat)
  | glDeleteTextures (n : Nat) (texture : GLuint)
  | glTexImage2D (target : GLenum) (level : Int) (internalformat : GLenum)
      (width height border : Nat) (format type : GLenum)
  | glTexImage3D (target : GLenum) (level : Int) (internalformat : GLenum)
      (width height depth border : Nat) (format type : GLenum)
  | setViewport (x y width height : Nat)
  | glBegin (mode : GLenum)
  | glEnd
  | glTexCoord3f (s t r : ℚ)
  | glVertex2f (x y : Int)
  | glFramebufferRenderbufferEXT (target attachment renderbuffertarget : GLenum)
      (renderbuffer : GLuint)
  | glGenRenderbuffersEXT (n : Nat)
  | glBindRenderbufferEXT (target : GLenum) (renderbuffer : GLuint)
  | glRenderbufferStorageMultisampleEXT (target : GLenum) (samples : Int)
      (internalformat : GLenum) (width height : Nat)
  | glRenderbufferStorageEXT (target : GLenum) (internalformat : GLenum) (width height : Nat)

/-- Pixel memory: block, then pixel coordinates inside the block. -/
abbrev Memory := Nat → Nat → Nat → Nat → Pixel

/-- The texels of the texture level a buffer is bound to, by coordinates. -/
abbrev Texels := Nat → Nat → Nat → Pixel

/-- State of the graphics context and of client memory. -/
structure GLWorld where
  /-- Commands issued so far, oldest first. -/
  commands : List GLCommand
  /-- Current pixel store parameters (`glPixelStorei`). -/
  pixelStore : GLenum → Nat
  /-- Current `GL_FRAMEBUFFER_BINDING_EXT`. -/
  framebufferBinding : GLuint
  /-- The texture name `glGenTextures` handed out last. -/
  lastTextureName : GLuint
  /-- The renderbuffer name `glGenRenderbuffersEXT` handed out last. -/
  lastRenderbufferName : GLuint
  /-- Client pixel memory. -/
  memory : Memory
  /-- Content of the texture level. -/
  texels : Texels

/-- A GL level computation: the context reached and the failure, if one stopped it. -/
structure GLResult where
  gl : GLWorld
  thrown : Option Failure

/-- Calls a member function makes to engine code other than GL. -/
inductive Call
  | allocateBuffer
  | freeBuffer
  | getGLOriginFormat (format : PixelFormat)
  | scale (src dst : PixelBox)
  | bulkPixelConversion (src dst : PixelBox)
  | upload (data : PixelBox) (dest : Box)
  | download (data : PixelBox)
  | genericBlitFromMemory (src : PixelBox) (dstBox : Box)
  | newMemoryDataStream (size : Nat)
  | newTextureBuffer (target : GLenum) (id : GLuint) (face level : Int) (usage : Nat)
      (writeGamma : Bool) (fsaa : Nat)
  | textureUpload (id : GLuint) (data : PixelBox) (dest : Box)
  | blitFromTexture (srcId : GLuint) (srcBox dstBox : Box)
  | genericBlit (srcId : GLuint) (srcBox dstBox : Box)
  | createRenderTexture (zoffset : Nat) (writeGamma : Bool) (fsaa : Nat)
  | attachRenderTarget (zoffset : Nat)
deriving DecidableEq, Repr

/-- The whole world seen by a pixel buffer. -/
structure World where
  /-- Engine level calls so far, oldest first. -/
  calls : List Call
  /-- Whether the CPU shadow buffer `mBuffer.data` is allocated. -/
  shadowAllocated : Bool
  gl : GLWorld

/-- Outcome of a member function: the world reached and the failure, if one stopped it. -/
structure Result where
  world : World
  thrown : Option Failure

def Result.ok (w : World) : Result := { world := w, thrown := none }

/-- Statement `OGRE_EXCEPT(code, description, source)`. -/
def OGRE_EXCEPT (code : ExceptionCode) (d : Description) (o : Origin) (w : World) : Result :=
  { world := w, thrown := some (Failure.ogreExcept code d o) }

/-- Sequencing: the rest of the body runs only if nothing was thrown. -/
def Result.andThen (r : Result) (k : World → Result) : Result :=
  match r.thrown with
  | none => k r.world
  | some _ => r

def GLResult.ok (g : GLWorld) : GLResult := { gl := g, thrown := none }

/-- Sequencing at the GL level: the rest runs only if nothing stopped the first part. -/
def GLResult.andThen (r : GLResult) (k : GLWorld → GLResult) : GLResult :=
  match r.thrown with
  | none => k r.gl
  | some _ => r

def World.log (c : Call) (w : World) : World := { w with calls := w.calls ++ [c] }

def GLWorld.issue (c : GLCommand) (g : GLWorld) : GLWorld :=
  { g with commands := g.commands ++ [c] }

/-- Runs a GL level computation inside the world. -/
def World.runGL (f : GLWorld → GLResult) (w : World) : Result :=
  { world := { w with gl := (f w.gl).gl }, thrown := (f w.gl).thrown }

def World.issue (c : GLCommand) (w : World) : World := { w with gl := w.gl.issue c }

/-- Call `glPixelStorei(pname, param)`. -/
def glPixelStorei (pname : GLenum) (param : Nat) (g : GLWorld) : GLWorld :=
  { g with commands := g.commands ++ [GLCommand.glPixelStorei pname param],
           pixelStore := fun p => if p = pname then param else g.pixelStore p }

/-- Call `glBindFramebufferEXT(GL_FRAMEBUFFER_EXT, framebuffer)`. -/
def glBindFramebufferEXT (framebuffer : GLuint) (g : GLWorld) : GLWorld :=
  { g with commands := g.commands ++ [GLCommand.glBindFramebufferEXT GL_FRAMEBUFFER_EXT framebuffer],
           framebufferBinding := framebuffer }

/-- Call `glGenTextures(1, &id)`: a fresh non-zero texture name. -/
def glGenTextures (g : GLWorld) : GLuint × GLWorld :=
  (g.lastTextureName + 1,
   { g with commands := g.commands ++ [GLCommand.glGenTextures 1],
            lastTextureName := g.lastTextureName + 1 })

/-- Call `glGenRenderbuffersEXT(1, &id)`: a fresh non-zero renderbuffer name. -/
def glGenRenderbuffersEXT (g : GLWorld) : GLuint × GLWorld :=
  (g.lastRenderbufferName + 1,
   { g with commands := g.commands ++ [GLCommand.glGenRenderbuffersEXT 1],
            lastRenderbufferName := g.lastRenderbufferName + 1 })

/-! ### Pixel memory access through a pixel box -/

/-- The pixel at offset `(i, j, k)` from the first pixel of the box. -/
def PixelBox.read (m : Memory) (p : PixelBox) (i j k : Nat) : Pixel :=
  m p.data.block (p.data.x + p.left + i) (p.data.y + p.top + j) (p.data.z + p.front + k)

/-- Writes `value i j k` at every offset `(i, j, k)` inside the extent of the box. -/
def PixelBox.write (m : Memory) (p : PixelBox) (value : Nat → Nat → Nat → Pixel) : Memory :=
  fun b x y z =>
    if b = p.data.block ∧
        p.data.x + p.left ≤ x ∧ x < p.data.x + p.left + p.getWidth ∧
        p.data.y + p.top ≤ y ∧ y < p.data.y + p.top + p.getHeight ∧
        p.data.z + p.front ≤ z ∧ z < p.data.z + p.front + p.getDepth then
      value (x - (p.data.x + p.left)) (y - (p.data.y + p.top)) (z - (p.data.z + p.front))
    else m b x y z

/-- Call `Image::scale(src, dst, Image::FILTER_BILINEAR)`.  The resampler is outside the
file; the pixels it produces are the parameter `env.resample`. -/
def Image.scale (env : Env) (src dst : PixelBox) (w : World) : World :=
  let m : Memory := dst.write w.gl.memory (env.resample src dst (src.read w.gl.memory))
  { w with calls := w.calls ++ [Call.scale src dst], gl := { w.gl with memory := m } }

/-- Call `PixelUtil::bulkPixelConversion(src, dst)`.  The conversion is outside the file;
it copies pixel by pixel through the parameter `env.convertPixel`. -/
def PixelUtil.bulkPixelConversion (env : Env) (src dst : PixelBox) (w : World) : World :=
  let m : Memory := dst.write w.gl.memory
    (fun i j k => env.convertPixel src.format dst.format (src.read w.gl.memory i j k))
  { w with calls := w.calls ++ [Call.bulkPixelConversion src dst],
           gl := { w.gl with memory := m } }

/-- Call `GLPixelUtil::getGLOriginFormat(format)` made by a blit function to choose its
path. -/
def GLPixelUtil.getGLOriginFormat (env : Env) (format : PixelFormat) (w : World) :
    GLenum × World :=
  (env.getGLOriginFormat format, w.log (Call.getGLOriginFormat format))

/-! ## GLHardwarePixelBuffer -/

/-- The generic pixel buffer (`GLHardwarePixelBuffer`, over `GLHardwarePixelBufferCommon`).
The data pointer of `mBuffer` is kept in the world (`World.shadowAllocated`). -/
structure GLHardwarePixelBuffer where
  mWidth : Nat
  mHeight : Nat
  mDepth : Nat
  mFormat : PixelFormat
  mUsage : Nat
  mRowPitch : Nat
  mSlicePitch : Nat
  mSizeInBytes : Nat
  mBuffer : PixelBox
  mGLInternalFormat : GLenum

/-- Modelled from the spec: constructor `GLHardwarePixelBuffer(inWidth, inHeight, inDepth,
inFormat, usage)`.  Its body is empty; the base class constructor, which is outside the
file, stores the extent, format and usage and sets up the shadow box for the full extent,
not allocated. -/
def GLHardwarePixelBuffer.new (env : Env) (inWidth inHeight inDepth : Nat)
    (inFormat : PixelFormat) (usage : Nat) : GLHardwarePixelBuffer :=
  { mWidth := inWidth, mHeight := inHeight, mDepth := inDepth, mFormat := inFormat,
    mUsage := usage, mRowPitch := inWidth, mSlicePitch := inHeight * inWidth,
    mSizeInBytes := env.getMemorySize inWidth inHeight inDepth inFormat,
    mBuffer := PixelBox.ofExtent inWidth inHeight inDepth inFormat Pointer.null,
    mGLInternalFormat := 0 }

def GLHardwarePixelBuffer.getWidth (self : GLHardwarePixelBuffer) : Nat := self.mWidth

def GLHardwarePixelBuffer.getHeight (self : GLHardwarePixelBuffer) : Nat := self.mHeight

def GLHardwarePixelBuffer.getDepth (self : GLHardwarePixelBuffer) : Nat := self.mDepth

/-- The member `mBuffer` as it reads in world `w`: its data pointer is the shadow block
when the shadow buffer is allocated and null otherwise. -/
def GLHardwarePixelBuffer.buffer (self : GLHardwarePixelBuffer) (w : World) : PixelBox :=
  { self.mBuffer with
    data := if w.shadowAllocated then Pointer.shadow else Pointer.null }

/-- Modelled from the spec: `allocateBuffer()` of the base class, which is outside the
file; it allocates the CPU shadow buffer for the full extent. -/
def GLHardwarePixelBuffer.allocateBuffer (w : World) : World :=
  { w with calls := w.calls ++ [Call.allocateBuffer], shadowAllocated := true }

/-- Modelled from the spec: `freeBuffer()` of the base class, which is outside the file;
it frees the CPU shadow buffer. -/
def GLHardwarePixelBuffer.freeBuffer (w : World) : World :=
  { w with calls := w.calls ++ [Call.freeBuffer], shadowAllocated := false }

/-- The two virtual primitives `upload(data, dest)` and `download(data)` a subclass
provides.  They act on the graphics context and on client memory. -/
structure Primitives where
  upload : PixelBox → Box → GLWorld → GLResult
  download : PixelBox → GLWorld → GLResult

/-- Virtual call `upload(data, dest)`. -/
def GLHardwarePixelBuffer.upload (vt : Primitives) (data : PixelBox) (dest : Box)
    (w : World) : Result :=
  (w.log (Call.upload data dest)).runGL (vt.upload data dest)

/-- Virtual call `download(data)`. -/
def GLHardwarePixelBuffer.download (vt : Primitives) (data : PixelBox) (w : World) : Result :=
  (w.log (Call.download data)).runGL (vt.download data)

/-- Member `GLHardwarePixelBuffer::blitFromMemory(src, dstBox)`. -/
def GLHardwarePixelBuffer.blitFromMemory (env : Env) (vt : Primitives)
    (self : GLHardwarePixelBuffer) (src : PixelBox) (dstBox : Box) (w : World) : Result :=
  if !(self.buffer w).contains dstBox then
    OGRE_EXCEPT .ERR_INVALIDPARAMS .destinationBoxOutOfRange
      .GLHardwarePixelBuffer_blitFromMemory w
  else if src.getWidth != dstBox.getWidth ||
      src.getHeight != dstBox.getHeight ||
      src.getDepth != dstBox.getDepth then
    -- Scale to destination size.
    let w1 := GLHardwarePixelBuffer.allocateBuffer w
    let scaled := (self.buffer w1).getSubVolume dstBox
    let w2 := Image.scale env src scaled w1
    (GLHardwarePixelBuffer.upload vt scaled dstBox w2).andThen
      (fun w3 => Result.ok (GLHardwarePixelBuffer.freeBuffer w3))
  else
    let probe := GLPixelUtil.getGLOriginFormat env src.format w
    if probe.1 == 0 then
      -- Extents match, but format is not accepted as valid source format for GL
      let w1 := GLHardwarePixelBuffer.allocateBuffer probe.2
      let scaled := (self.buffer w1).getSubVolume dstBox
      let w2 := PixelUtil.bulkPixelConversion env src scaled w1
      (GLHardwarePixelBuffer.upload vt scaled dstBox w2).andThen
        (fun w3 => Result.ok (GLHardwarePixelBuffer.freeBuffer w3))
    else
      let w1 := GLHardwarePixelBuffer.allocateBuffer probe.2
      -- No scaling or conversion needed
      let scaled := src
      (GLHardwarePixelBuffer.upload vt scaled dstBox w1).andThen
        (fun w3 => Result.ok (GLHardwarePixelBuffer.freeBuffer w3))

/-- The part of the condition of `blitToMemory` that precedes the format probe (the probe
is the last operand of the `&&` chain and is only evaluated when this part holds). -/
def GLHardwarePixelBuffer.wholeBufferRequested (self : GLHardwarePixelBuffer)
    (srcBox : Box) (dst : PixelBox) : Bool :=
  srcBox.left == 0 && srcBox.right == self.getWidth &&
  srcBox.top == 0 && srcBox.bottom == self.getHeight &&
  srcBox.front == 0 && srcBox.back == self.getDepth &&
  dst.getWidth == self.getWidth &&
  dst.getHeight == self.getHeight &&
  dst.getDepth == self.getDepth

/-- The else branch of `blitToMemory`: the copy through the shadow buffer. -/
def GLHardwarePixelBuffer.blitToMemoryViaBuffer (env : Env) (vt : Primitives)
    (self : GLHardwarePixelBuffer) (srcBox : Box) (dst : PixelBox) (w : World) : Result :=
  -- Use buffer for intermediate copy
  let w1 := GLHardwarePixelBuffer.allocateBuffer w
  -- Download entire buffer
  (GLHardwarePixelBuffer.download vt (self.buffer w1) w1).andThen (fun w2 =>
    let w3 :=
      if srcBox.getWidth != dst.getWidth ||
          srcBox.getHeight != dst.getHeight ||
          srcBox.getDepth != dst.getDepth then
        -- We need scaling
        Image.scale env ((self.buffer w2).getSubVolume srcBox) dst w2
      else
        -- Just copy the bit that we need
        PixelUtil.bulkPixelConversion env ((self.buffer w2).getSubVolume srcBox) dst w2
    Result.ok (GLHardwarePixelBuffer.freeBuffer w3))

/-- Member `GLHardwarePixelBuffer::blitToMemory(srcBox, dst)`. -/
def GLHardwarePixelBuffer.blitToMemory (env : Env) (vt : Primitives)
    (self : GLHardwarePixelBuffer) (srcBox : Box) (dst : PixelBox) (w : World) : Result :=
  if !(self.buffer w).contains srcBox then
    OGRE_EXCEPT .ERR_INVALIDPARAMS .sourceBoxOutOfRange
      .GLHardwarePixelBuffer_blitToMemory w
  else if self.wholeBufferRequested srcBox dst then
    let probe := GLPixelUtil.getGLOriginFormat env dst.format w
    if probe.1 != 0 then
      -- The direct case: the user wants the entire texture in a format supported by GL
      GLHardwarePixelBuffer.download vt dst probe.2
    else
      GLHardwarePixelBuffer.blitToMemoryViaBuffer env vt self srcBox dst probe.2
  else
    GLHardwarePixelBuffer.blitToMemoryViaBuffer env vt self srcBox dst w

/-! ## GLTextureBuffer -/

/-- A render texture made by `GLRTTManager::createRenderTexture` for one depth slice
(`GLSurfaceDesc` with `buffer = this` and the given `zoffset`). -/
structure RenderTexture where
  zoffset : Nat
  writeGamma : Bool
  fsaa : Nat
deriving DecidableEq, Repr

/-- The texture pixel buffer `GLTextureBuffer`. -/
structure GLTextureBuffer extends GLHardwarePixelBuffer where
  mTarget : GLenum
  mFaceTarget : GLenum
  mTextureID : GLuint
  mFace : Int
  mLevel : Int
  mHwGamma : Bool
  mSliceTRT : List RenderTexture

/-- Conversion of a `GLint` to `uint32` (assignment `mWidth = value`). -/
def toUInt32 (value : Int) : Nat := (value % (2 ^ 32 : Int)).toNat

/-- One round of the loop of the constructor that creates the render target of slice
`zoffset`. -/
def GLTextureBuffer.createSlice (writeGamma : Bool) (fsaa : Nat)
    (acc : List RenderTexture × World) (zoffset : Nat) : List RenderTexture × World :=
  let trt : RenderTexture := { zoffset := zoffset, writeGamma := writeGamma, fsaa := fsaa }
  let w1 := acc.2.log (Call.createRenderTexture zoffset writeGamma fsaa)
  (acc.1 ++ [trt], w1.log (Call.attachRenderTarget zoffset))

/-- Constructor `GLTextureBuffer(renderSystem, baseName, target, id, face, level, usage,
writeGamma, fsaa)`. -/
def GLTextureBuffer.new (env : Env) (target : GLenum) (id : GLuint) (face level : Int)
    (usage : Nat) (writeGamma : Bool) (fsaa : Nat) (w : World) : GLTextureBuffer × World :=
  let mTarget := target
  let w := w.issue (.bindGLTexture mTarget id)
  -- Get face identifier
  let mFaceTarget : GLenum :=
    if mTarget = GL_TEXTURE_CUBE_MAP then toUInt32 ((GL_TEXTURE_CUBE_MAP_POSITIVE_X : Int) + face)
    else mTarget
  -- Get width
  let w := w.issue (.glGetTexLevelParameteriv mFaceTarget level GL_TEXTURE_WIDTH)
  let mWidth := toUInt32 (env.texLevelParameter mFaceTarget level GL_TEXTURE_WIDTH)
  -- Get height
  let w := if target = GL_TEXTURE_1D then w
    else w.issue (.glGetTexLevelParameteriv mFaceTarget level GL_TEXTURE_HEIGHT)
  let mHeight := if target = GL_TEXTURE_1D then 1
    else toUInt32 (env.texLevelParameter mFaceTarget level GL_TEXTURE_HEIGHT)
  -- Get depth
  let w := if target ≠ GL_TEXTURE_3D ∧ target ≠ GL_TEXTURE_2D_ARRAY_EXT then w
    else w.issue (.glGetTexLevelParameteriv mFaceTarget level GL_TEXTURE_DEPTH)
  let mDepth := if target ≠ GL_TEXTURE_3D ∧ target ≠ GL_TEXTURE_2D_ARRAY_EXT then 1
    else toUInt32 (env.texLevelParameter mFaceTarget level GL_TEXTURE_DEPTH)
  -- Get format
  let w := w.issue (.glGetTexLevelParameteriv mFaceTarget level GL_TEXTURE_INTERNAL_FORMAT)
  let value := env.texLevelParameter mFaceTarget level GL_TEXTURE_INTERNAL_FORMAT
  let mGLInternalFormat := toUInt32 value
  let mFormat := env.getClosestOGREFormat (toUInt32 value)
  -- Is this a render target?
  let slices : List RenderTexture × World :=
    if mWidth = 0 ∨ mHeight = 0 ∨ mDepth = 0 then
      -- We are invalid, do not allocate a buffer
      ([], w)
    else if usage &&& TU_RENDERTARGET ≠ 0 then
      -- Create render target for each slice
      (List.range mDepth).foldl (GLTextureBuffer.createSlice writeGamma fsaa) ([], w)
    else ([], w)
  ({ mWidth := mWidth, mHeight := mHeight, mDepth := mDepth, mFormat := mFormat,
     mUsage := usage, mRowPitch := mWidth, mSlicePitch := mHeight * mWidth,
     mSizeInBytes := env.getMemorySize mWidth mHeight mDepth mFormat,
     mBuffer := PixelBox.ofExtent mWidth mHeight mDepth mFormat Pointer.null,
     mGLInternalFormat := mGLInternalFormat,
     mTarget := mTarget, mFaceTarget := mFaceTarget, mTextureID := id, mFace := face,
     mLevel := level, mHwGamma := writeGamma, mSliceTRT := slices.1 },
   slices.2)

/-- The compressed branch of the `switch(mTarget)` of `upload`. -/
def GLTextureBuffer.uploadCompressed (env : Env) (self : GLTextureBuffer) (data : PixelBox)
    (dest : Box) (g : GLWorld) : GLWorld :=
  let format := env.getClosestGLInternalFormat self.mFormat self.mHwGamma
  let size := data.getConsecutiveSize env.getMemorySize
  if self.mTarget = GL_TEXTURE_1D then
    if dest.left = 0 then
      g.issue (.glCompressedTexImage1DARB GL_TEXTURE_1D self.mLevel format dest.getWidth 0
        size data.data)
    else
      g.issue (.glCompressedTexSubImage1DARB GL_TEXTURE_1D self.mLevel dest.left
        dest.getWidth format size data.data)
  else if self.mTarget = GL_TEXTURE_2D ∨ self.mTarget = GL_TEXTURE_CUBE_MAP then
    if dest.left = 0 ∧ dest.top = 0 then
      g.issue (.glCompressedTexImage2DARB self.mFaceTarget self.mLevel format dest.getWidth
        dest.getHeight 0 size data.data)
    else
      g.issue (.glCompressedTexSubImage2DARB self.mFaceTarget self.mLevel dest.left dest.top
        dest.getWidth dest.getHeight format size data.data)
  else if self.mTarget = GL_TEXTURE_3D ∨ self.mTarget = GL_TEXTURE_2D_ARRAY_EXT then
    if dest.left = 0 ∧ dest.top = 0 ∧ dest.front = 0 then
      g.issue (.glCompressedTexImage3DARB self.mTarget self.mLevel format dest.getWidth
        dest.getHeight dest.getDepth 0 size data.data)
    else
      g.issue (.glCompressedTexSubImage3DARB self.mTarget self.mLevel dest.left dest.top
        dest.front dest.getWidth dest.getHeight dest.getDepth format size data.data)
  else g

/-- The uncompressed branch of `upload`: transfer parameters, then the `switch(mTarget)`. -/
def GLTextureBuffer.uploadUncompressed (env : Env) (self : GLTextureBuffer) (data : PixelBox)
    (dest : Box) (g : GLWorld) : GLWorld :=
  let g := if data.getWidth ≠ data.rowPitch then
      glPixelStorei GL_UNPACK_ROW_LENGTH data.rowPitch g else g
  let g := if data.getWidth > 0 ∧ data.getHeight * data.getWidth ≠ data.slicePitch then
      glPixelStorei GL_UNPACK_IMAGE_HEIGHT (data.slicePitch / data.getWidth) g else g
  let g := if data.left > 0 ∨ data.top > 0 ∨ data.front > 0 then
      glPixelStorei GL_UNPACK_SKIP_PIXELS
        (data.left + data.rowPitch * data.top + data.slicePitch * data.front) g
    else g
  let g := if (data.getWidth * env.getNumElemBytes data.format) &&& 3 ≠ 0 then
      -- Standard alignment of 4 is not right
      glPixelStorei GL_UNPACK_ALIGNMENT 1 g else g
  let format := env.getGLOriginFormat data.format
  let type := env.getGLOriginDataType data.format
  if self.mTarget = GL_TEXTURE_1D then
    g.issue (.glTexSubImage1D GL_TEXTURE_1D self.mLevel dest.left dest.getWidth format type
      data.data)
  else if self.mTarget = GL_TEXTURE_2D ∨ self.mTarget = GL_TEXTURE_CUBE_MAP then
    g.issue (.glTexSubImage2D self.mFaceTarget self.mLevel dest.left dest.top dest.getWidth
      dest.getHeight format type data.data)
  else if self.mTarget = GL_TEXTURE_3D ∨ self.mTarget = GL_TEXTURE_2D_ARRAY_EXT then
    g.issue (.glTexSubImage3D self.mTarget self.mLevel dest.left dest.top dest.front
      dest.getWidth dest.getHeight dest.getDepth format type data.data)
  else g

/-- The end of `upload`: mipmap generation and `Restore defaults`. -/
def GLTextureBuffer.uploadFinish (env : Env) (self : GLTextureBuffer) (g : GLWorld) :
    GLWorld :=
  -- TU_AUTOMIPMAP is only enabled when there are no custom mips
  let g := if self.mUsage &&& TU_AUTOMIPMAP ≠ 0 ∧ self.mLevel = 0 then
      g.issue (.glGenerateMipmapEXT self.mTarget) else g
  -- Restore defaults
  let g := glPixelStorei GL_UNPACK_ROW_LENGTH 0 g
  let g := if env.GLEW_VERSION_1_2 then glPixelStorei GL_UNPACK_IMAGE_HEIGHT 0 g else g
  let g := glPixelStorei GL_UNPACK_SKIP_PIXELS 0 g
  glPixelStorei GL_UNPACK_ALIGNMENT 4 g

/-- Member `GLTextureBuffer::upload(data, dest)`. -/
def GLTextureBuffer.upload (env : Env) (self : GLTextureBuffer) (data : PixelBox)
    (dest : Box) (g : GLWorld) : GLResult :=
  let g := g.issue (.bindGLTexture self.mTarget self.mTextureID)
  if env.isCompressed data.format then
    if data.format ≠ self.mFormat ∨ !data.isConsecutive then
      { gl := g, thrown := some (Failure.ogreExcept .ERR_INVALIDPARAMS
          .compressedImagesMustBeConsecutive .GLTextureBuffer_upload) }
    else
      GLResult.ok (self.uploadFinish env (self.uploadCompressed env data dest g))
  else
    GLResult.ok (self.uploadFinish env (self.uploadUncompressed env data dest g))

/-- The uncompressed branch of `download`.  The image height divides by the width of the
box without a test for zero. -/
def GLTextureBuffer.downloadUncompressed (env : Env) (self : GLTextureBuffer)
    (data : PixelBox) (g : GLWorld) : GLResult :=
  let g := if data.getWidth ≠ data.rowPitch then
      glPixelStorei GL_PACK_ROW_LENGTH data.rowPitch g else g
  if data.getHeight * data.getWidth ≠ data.slicePitch ∧ data.getWidth = 0 then
    { gl := g, thrown := some Failure.divisionByZero }
  else
    let g := if data.getHeight * data.getWidth ≠ data.slicePitch then
        glPixelStorei GL_PACK_IMAGE_HEIGHT (data.slicePitch / data.getWidth) g else g
    let g := if data.left > 0 ∨ data.top > 0 ∨ data.front > 0 then
        glPixelStorei GL_PACK_SKIP_PIXELS
          (data.left + data.rowPitch * data.top + data.slicePitch * data.front) g
      else g
    let g := if (data.getWidth * env.getNumElemBytes data.format) &&& 3 ≠ 0 then
        -- Standard alignment of 4 is not right
        glPixelStorei GL_PACK_ALIGNMENT 1 g else g
    -- We can only get the entire texture
    let g := g.issue (.glGetTexImage self.mFaceTarget self.mLevel
      (env.getGLOriginFormat data.format) (env.getGLOriginDataType data.format) data.data)
    -- Restore defaults
    let g := glPixelStorei GL_PACK_ROW_LENGTH 0 g
    let g := glPixelStorei GL_PACK_IMAGE_HEIGHT 0 g
    let g := glPixelStorei GL_PACK_SKIP_PIXELS 0 g
    GLResult.ok (glPixelStorei GL_PACK_ALIGNMENT 4 g)

/-- Member `GLTextureBuffer::download(data)`. -/
def GLTextureBuffer.download (env : Env) (self : GLTextureBuffer) (data : PixelBox)
    (g : GLWorld) : GLResult :=
  if data.getWidth ≠ self.getWidth ∨
      data.getHeight ≠ self.getHeight ∨
      data.getDepth ≠ self.getDepth then
    { gl := g, thrown := some (Failure.ogreExcept .ERR_INVALIDPARAMS
        .onlyDownloadOfEntireBuffer .GLTextureBuffer_download) }
  else
    let g := g.issue (.bindGLTexture self.mTarget self.mTextureID)
    if env.isCompressed data.format then
      if data.format ≠ self.mFormat ∨ !data.isConsecutive then
        { gl := g, thrown := some (Failure.ogreExcept .ERR_INVALIDPARAMS
            .compressedImagesMustBeConsecutive .GLTextureBuffer_download) }
      else
        GLResult.ok (g.issue (.glGetCompressedTexImageARB self.mFaceTarget self.mLevel data.data))
    else
      self.downloadUncompressed env data g

/-- The virtual primitives of a texture buffer. -/
def GLTextureBuffer.primitives (env : Env) (self : GLTextureBuffer) : Primitives :=
  { upload := self.upload env, download := self.download env }

/-- The `switch(mTarget)` of `GLTextureBuffer::bindToFramebuffer`. -/
def GLTextureBuffer.attachToFramebuffer (self : GLTextureBuffer) (attachment : GLenum)
    (zoffset : Nat) (g : GLWorld) : GLWorld :=
  if self.mTarget = GL_TEXTURE_1D then
    g.issue (.glFramebufferTexture1DEXT GL_FRAMEBUFFER_EXT attachment self.mFaceTarget
      self.mTextureID self.mLevel)
  else if self.mTarget = GL_TEXTURE_2D ∨ self.mTarget = GL_TEXTURE_CUBE_MAP then
    g.issue (.glFramebufferTexture2DEXT GL_FRAMEBUFFER_EXT attachment self.mFaceTarget
      self.mTextureID self.mLevel)
  else if self.mTarget = GL_TEXTURE_3D ∨ self.mTarget = GL_TEXTURE_2D_ARRAY_EXT then
    g.issue (.glFramebufferTexture3DEXT GL_FRAMEBUFFER_EXT attachment self.mFaceTarget
      self.mTextureID self.mLevel zoffset)
  else g

/-- Member `GLTextureBuffer::bindToFramebuffer(attachment, zoffset)`: the assertion
`assert(zoffset < mDepth)`, then the `switch(mTarget)`. -/
def GLTextureBuffer.bindToFramebuffer (self : GLTextureBuffer) (attachment : GLenum)
    (zoffset : Nat) (g : GLWorld) : GLResult :=
  if ¬ zoffset < self.mDepth then { gl := g, thrown := some Failure.assertionFailed }
  else GLResult.ok (self.attachToFramebuffer attachment zoffset g)

/-- The source depth coordinate `w` that `blitFromTexture` computes for destination slice
`slice`, in exact arithmetic. -/
def GLTextureBuffer.sliceCoordinate (src : GLTextureBuffer) (srcBox dstBox : Box)
    (slice : Nat) : ℚ :=
  -- Calculate source slice for this destination slice
  let w : ℚ := ((slice - dstBox.front : Nat) : ℚ) / (dstBox.getDepth : ℚ)
  -- Get slice # in source
  let w : ℚ := w * ((srcBox.getDepth + srcBox.front : Nat) : ℚ)
  -- Normalise to texture coordinate in 0.0 .. 1.0
  (w + 1 / 2) / (src.mDepth : ℚ)

/-- The copy of the temporary texture into the destination slice (`switch(mTarget)` inside
the loop of `blitFromTexture`). -/
def GLTextureBuffer.copyTemporary (self : GLTextureBuffer) (dstBox : Box) (slice : Nat)
    (g : GLWorld) : GLWorld :=
  let g := g.issue (.bindGLTexture self.mTarget self.mTextureID)
  if self.mTarget = GL_TEXTURE_1D then
    g.issue (.glCopyTexSubImage1D self.mFaceTarget self.mLevel dstBox.left 0 0
      dstBox.getWidth)
  else if self.mTarget = GL_TEXTURE_2D ∨ self.mTarget = GL_TEXTURE_CUBE_MAP then
    g.issue (.glCopyTexSubImage2D self.mFaceTarget self.mLevel dstBox.left dstBox.top 0 0
      dstBox.getWidth dstBox.getHeight)
  else if self.mTarget = GL_TEXTURE_3D ∨ self.mTarget = GL_TEXTURE_2D_ARRAY_EXT then
    g.issue (.glCopyTexSubImage3D self.mFaceTarget self.mLevel dstBox.left dstBox.top slice
      0 0 dstBox.getWidth dstBox.getHeight)
  else g

/-- The quad of one destination slice and, with an intermediate texture, the copy into the
destination: the body of the loop of `blitFromTexture` after the direct bind. -/
def GLTextureBuffer.drawSlice (self src : GLTextureBuffer) (srcBox dstBox : Box)
    (tempTex : GLuint) (g : GLWorld) (slice : Nat) : GLWorld :=
  -- Calculate source texture coordinates
  let u1 : ℚ := (srcBox.left : ℚ) / (src.mWidth : ℚ)
  let v1 : ℚ := (srcBox.top : ℚ) / (src.mHeight : ℚ)
  let u2 : ℚ := (srcBox.right : ℚ) / (src.mWidth : ℚ)
  let v2 : ℚ := (srcBox.bottom : ℚ) / (src.mHeight : ℚ)
  let w : ℚ := src.sliceCoordinate srcBox dstBox slice
  -- Finally we're ready to rumble
  let g := g.issue (.bindGLTexture src.mTarget src.mTextureID)
  let g := g.issue (.setEnabled src.mTarget true)
  let g := g.issue (.glBegin GL_QUADS)
  let g := g.issue (.glTexCoord3f u1 v1 w)
  let g := g.issue (.glVertex2f (-1) (-1))
  let g := g.issue (.glTexCoord3f u2 v1 w)
  let g := g.issue (.glVertex2f 1 (-1))
  let g := g.issue (.glTexCoord3f u2 v2 w)
  let g := g.issue (.glVertex2f 1 1)
  let g := g.issue (.glTexCoord3f u1 v2 w)
  let g := g.issue (.glVertex2f (-1) 1)
  let g := g.issue .glEnd
  let g := g.issue (.setEnabled src.mTarget false)
  if tempTex ≠ 0 then
    -- Copy temporary texture
    self.copyTemporary dstBox slice g
  else g

/-- One round of the loop `Process each destination slice` of `blitFromTexture`. -/
def GLTextureBuffer.blitSlice (self src : GLTextureBuffer) (srcBox dstBox : Box)
    (tempTex : GLuint) (g : GLWorld) (slice : Nat) : GLResult :=
  (if tempTex = 0 then
      -- Bind directly
      self.bindToFramebuffer GL_COLOR_ATTACHMENT0_EXT slice g
    else GLResult.ok g).andThen (fun g =>
  GLResult.ok (self.drawSlice src srcBox dstBox tempTex g slice))

/-- The loop `Process each destination slice` of `blitFromTexture` over the slices listed;
a failed assertion stops it. -/
def GLTextureBuffer.blitSlices (self src : GLTextureBuffer) (srcBox dstBox : Box)
    (tempTex : GLuint) : List Nat → GLWorld → GLResult
  | [], g => GLResult.ok g
  | slice :: rest, g =>
    (self.blitSlice src srcBox dstBox tempTex g slice).andThen
      (GLTextureBuffer.blitSlices self src srcBox dstBox tempTex rest)

/-- The start of `blitFromTexture`: save and clear GL state, set up the source texture. -/
def GLTextureBuffer.blitSetUp (env : Env) (src : GLTextureBuffer) (srcBox dstBox : Box)
    (g : GLWorld) : GLWorld :=
  -- Save and clear GL state for rendering
  let g := g.issue (.glPushAttrib GL_ATTRIB_BITS)
  -- Important to disable all other texture units
  let g := g.issue (.disableTextureUnitsFrom 0)
  let g := if env.GLEW_VERSION_1_2 then g.issue (.activateGLTextureUnit 0) else g
  let g := g.issue (.setEnabled GL_ALPHA_TEST false)
  let g := g.issue (.setEnabled GL_DEPTH_TEST false)
  let g := g.issue (.setEnabled GL_SCISSOR_TEST false)
  let g := g.issue (.setEnabled GL_BLEND false)
  let g := g.issue (.setEnabled GL_CULL_FACE false)
  let g := g.issue (.setEnabled GL_LIGHTING false)
  let g := g.issue (.setEnabled GL_FOG false)
  -- Save and reset matrices
  let g := g.issue (.glMatrixMode GL_MODELVIEW)
  let g := g.issue .glPushMatrix
  let g := g.issue .glLoadIdentity
  let g := g.issue (.glMatrixMode GL_PROJECTION)
  let g := g.issue .glPushMatrix
  let g := g.issue .glLoadIdentity
  let g := g.issue (.glMatrixMode GL_TEXTURE)
  let g := g.issue .glPushMatrix
  let g := g.issue .glLoadIdentity
  -- Set up source texture
  let g := g.issue (.bindGLTexture src.mTarget src.mTextureID)
  -- Set filtering modes depending on the dimensions and source
  let g :=
    if srcBox.getWidth = dstBox.getWidth ∧ srcBox.getHeight = dstBox.getHeight ∧
        srcBox.getDepth = dstBox.getDepth then
      -- Dimensions match -- use nearest filtering (fastest and pixel correct)
      let g := g.issue (.setTexParameteri src.mTarget GL_TEXTURE_MIN_FILTER GL_NEAREST)
      g.issue (.setTexParameteri src.mTarget GL_TEXTURE_MAG_FILTER GL_NEAREST)
    else if src.mUsage &&& TU_AUTOMIPMAP ≠ 0 then
      -- Automatic mipmaps, we can safely use trilinear filter
      let g := g.issue
        (.setTexParameteri src.mTarget GL_TEXTURE_MIN_FILTER GL_LINEAR_MIPMAP_LINEAR)
      g.issue (.setTexParameteri src.mTarget GL_TEXTURE_MAG_FILTER GL_LINEAR)
    else
      -- Manual mipmaps, stay safe with bilinear filtering
      let g := g.issue (.setTexParameteri src.mTarget GL_TEXTURE_MIN_FILTER GL_LINEAR)
      g.issue (.setTexParameteri src.mTarget GL_TEXTURE_MAG_FILTER GL_LINEAR)
  -- Clamp to edge (fastest)
  let g := g.issue (.setTexParameteri src.mTarget GL_TEXTURE_WRAP_S GL_CLAMP_TO_EDGE)
  let g := g.issue (.setTexParameteri src.mTarget GL_TEXTURE_WRAP_T GL_CLAMP_TO_EDGE)
  let g := g.issue (.setTexParameteri src.mTarget GL_TEXTURE_WRAP_R GL_CLAMP_TO_EDGE)
  -- Set origin base level mipmap to make sure we source from the right mip level.
  g.issue (.setTexParameteri src.mTarget GL_TEXTURE_BASE_LEVEL src.mLevel)

/-- The middle of `blitFromTexture`: the temporary FBO and, if the format of the target
is not supported directly, the intermediate texture.  Returns `tempTex`. -/
def GLTextureBuffer.blitAttach (env : Env) (self : GLTextureBuffer) (dstBox : Box)
    (g : GLWorld) : GLuint × GLWorld :=
  -- Set up temporary FBO
  let g := glBindFramebufferEXT env.getTemporaryFBO g
  if !env.checkFormat self.mFormat then
    -- If target format not directly supported, create intermediate texture
    let tempFormat := env.getClosestGLInternalFormat
      (env.getSupportedAlternative self.mFormat) self.mHwGamma
    let gen := glGenTextures g
    let g := gen.2.issue (.bindGLTexture GL_TEXTURE_2D gen.1)
    let g := g.issue (.setTexParameteri GL_TEXTURE_2D GL_TEXTURE_MAX_LEVEL 0)
    -- Allocate temporary texture of the size of the destination area
    let g := g.issue (.glTexImage2D GL_TEXTURE_2D 0 tempFormat
      (env.optionalPO2 dstBox.getWidth) (env.optionalPO2 dstBox.getHeight) 0 GL_RGBA
      GL_UNSIGNED_BYTE)
    let g := g.issue (.glFramebufferTexture2DEXT GL_FRAMEBUFFER_EXT GL_COLOR_ATTACHMENT0_EXT
      GL_TEXTURE_2D gen.1 0)
    -- Set viewport to size of destination slice
    (gen.1, g.issue (.setViewport 0 0 dstBox.getWidth dstBox.getHeight))
  else
    -- We are going to bind directly, so set viewport to size and position of destination
    (0, g.issue (.setViewport dstBox.left dstBox.top dstBox.getWidth dstBox.getHeight))

/-- The end of `blitFromTexture` (`Finish up`). -/
def GLTextureBuffer.blitFinish (self src : GLTextureBuffer) (tempTex oldfb : GLuint)
    (g : GLWorld) : GLWorld :=
  let g := if tempTex = 0 ∧ self.mUsage &&& TU_AUTOMIPMAP ≠ 0 then
      -- Generate mipmaps
      (g.issue (.bindGLTexture self.mTarget self.mTextureID)).issue
        (.glGenerateMipmapEXT self.mTarget)
    else g
  -- Reset source texture to sane state
  let g := g.issue (.bindGLTexture src.mTarget src.mTextureID)
  let g := g.issue (.setTexParameteri src.mTarget GL_TEXTURE_BASE_LEVEL 0)
  -- Detach texture from temporary framebuffer
  let g := g.issue (.glFramebufferRenderbufferEXT GL_FRAMEBUFFER_EXT GL_COLOR_ATTACHMENT0_EXT
    GL_RENDERBUFFER_EXT 0)
  -- Restore old framebuffer
  let g := glBindFramebufferEXT oldfb g
  -- Restore matrix stacks and render state
  let g := g.issue (.glMatrixMode GL_TEXTURE)
  let g := g.issue .glPopMatrix
  let g := g.issue (.glMatrixMode GL_PROJECTION)
  let g := g.issue .glPopMatrix
  let g := g.issue (.glMatrixMode GL_MODELVIEW)
  let g := g.issue .glPopMatrix
  let g := g.issue .glPopAttrib
  g.issue (.glDeleteTextures 1 tempTex)

/-- The GL commands of `GLTextureBuffer::blitFromTexture(src, srcBox, dstBox)`. -/
def GLTextureBuffer.blitFromTextureGL (env : Env) (self src : GLTextureBuffer)
    (srcBox dstBox : Box) (g : GLWorld) : GLResult :=
  let g := GLTextureBuffer.blitSetUp env src srcBox dstBox g
  -- Store old binding so it can be restored later
  let oldfb := g.framebufferBinding
  let g := g.issue (.glGetIntegerv GL_FRAMEBUFFER_BINDING_EXT)
  let attach := self.blitAttach env dstBox g
  -- Process each destination slice
  (self.blitSlices src srcBox dstBox attach.1
      (List.range' dstBox.front (dstBox.back - dstBox.front)) attach.2).andThen (fun g =>
  GLResult.ok (self.blitFinish src attach.1 oldfb g))

/-- Member `GLTextureBuffer::blitFromTexture(src, srcBox, dstBox)`. -/
def GLTextureBuffer.blitFromTexture (env : Env) (self src : GLTextureBuffer)
    (srcBox dstBox : Box) (w : World) : Result :=
  (w.log (Call.blitFromTexture src.mTextureID srcBox dstBox)).runGL
    (self.blitFromTextureGL env src srcBox dstBox)

/-- The pointer of the conversion buffer `buf` of `GLTextureBuffer::blitFromMemory`
(block `2` of pixel memory). -/
def Pointer.conversion : Pointer := { block := 2, x := 0, y := 0, z := 0 }

/-- The section `First, convert the srcbox to a OpenGL compatible pixel format` of
`GLTextureBuffer::blitFromMemory`: the source to transfer and the world after it. -/
def GLTextureBuffer.convertSource (env : Env) (self : GLTextureBuffer)
    (src_orig : PixelBox) (w : World) : PixelBox × World :=
  let probe := GLPixelUtil.getGLOriginFormat env src_orig.format w
  if probe.1 == 0 then
    -- Convert to buffer internal format
    let w1 := probe.2.log (Call.newMemoryDataStream
      (env.getMemorySize src_orig.getWidth src_orig.getHeight src_orig.getDepth
        self.mFormat))
    let src := PixelBox.ofExtent src_orig.getWidth src_orig.getHeight src_orig.getDepth
      self.mFormat Pointer.conversion
    (src, PixelUtil.bulkPixelConversion env src_orig src w1)
  else
    -- No conversion needed
    (src_orig, probe.2)

/-- The section `Create temporary texture to store source data` of
`GLTextureBuffer::blitFromMemory`, up to `Allocate texture memory`: the name and the target
of the temporary texture and the world after it. -/
def GLTextureBuffer.createTemporary (env : Env) (self : GLTextureBuffer) (src : PixelBox)
    (w : World) : GLuint × GLenum × World :=
  let target : GLenum := if src.getDepth ≠ 1 then GL_TEXTURE_3D else GL_TEXTURE_2D
  let width := env.optionalPO2 src.getWidth
  let height := env.optionalPO2 src.getHeight
  let depth := env.optionalPO2 src.getDepth
  let format := env.getClosestGLInternalFormat src.format self.mHwGamma
  -- Generate texture name
  let gen := glGenTextures w.gl
  let id := gen.1
  let w := { w with gl := gen.2 }
  -- Set texture type
  let w := w.issue (.bindGLTexture target id)
  -- Set automatic mipmap generation; nice for minimisation
  let w := w.issue (.setTexParameteri target GL_TEXTURE_MAX_LEVEL 1000)
  let w := w.issue (.setTexParameteri target GL_GENERATE_MIPMAP GL_TRUE)
  -- Allocate texture memory
  let w := if target = GL_TEXTURE_3D ∨ target = GL_TEXTURE_2D_ARRAY_EXT then
      w.issue (.glTexImage3D target 0 format width height depth 0 GL_RGBA GL_UNSIGNED_BYTE)
    else
      w.issue (.glTexImage2D target 0 format width height 0 GL_RGBA GL_UNSIGNED_BYTE)
  (id, target, w)

/-- The fast path of `GLTextureBuffer::blitFromMemory`, after the range test. -/
def GLTextureBuffer.blitFromMemoryFast (env : Env) (self : GLTextureBuffer)
    (src_orig : PixelBox) (dstBox : Box) (w : World) : Result :=
  -- First, convert the srcbox to a OpenGL compatible pixel format
  let converted := self.convertSource env src_orig w
  let src := converted.1
  -- Create temporary texture to store source data
  let temporary := self.createTemporary env src converted.2
  let id := temporary.1
  let target := temporary.2.1
  -- GL texture buffer
  let w := temporary.2.2.log (Call.newTextureBuffer target id 0 0
    (TU_AUTOMIPMAP ||| HBU_STATIC_WRITE_ONLY) false 0)
  let made := GLTextureBuffer.new env target id 0 0 (TU_AUTOMIPMAP ||| HBU_STATIC_WRITE_ONLY)
    false 0 w
  let tex := made.1
  -- Upload data to 0,0,0 in temporary texture
  let tempTarget := Box.ofCorners 0 0 0 src.getWidth src.getHeight src.getDepth
  ((made.2.log (Call.textureUpload id src tempTarget)).runGL
      (tex.upload env src tempTarget)).andThen (fun w =>
    -- Blit
    (self.blitFromTexture env tex tempTarget dstBox w).andThen (fun w =>
    -- Delete temp texture
    Result.ok (w.issue (.glDeleteTextures 1 id))))

/-- Member `GLTextureBuffer::blitFromMemory(src_orig, dstBox)`. -/
def GLTextureBuffer.blitFromMemory (env : Env) (self : GLTextureBuffer)
    (src_orig : PixelBox) (dstBox : Box) (w : World) : Result :=
  -- Fall back to normal GLHardwarePixelBuffer::blitFromMemory in case
  -- FBO is not supported, either format is luminance, or the dimensions match
  if !env.GLEW_EXT_framebuffer_object ||
      env.isLuminance src_orig.format ||
      env.isLuminance self.mFormat ||
      (src_orig.getWidth == dstBox.getWidth &&
       src_orig.getHeight == dstBox.getHeight &&
       src_orig.getDepth == dstBox.getDepth) then
    GLHardwarePixelBuffer.blitFromMemory env (self.primitives env)
      self.toGLHardwarePixelBuffer src_orig dstBox
      (w.log (Call.genericBlitFromMemory src_orig dstBox))
  else if !(self.buffer w).contains dstBox then
    OGRE_EXCEPT .ERR_INVALIDPARAMS .destinationBoxOutOfRange
      .GLTextureBuffer_blitFromMemory w
  else
    self.blitFromMemoryFast env src_orig dstBox w

/-- Member `GLTextureBuffer::blit(src, srcBox, dstBox)`.  The source is a texture buffer
(the member casts it with `static_cast`).  `GLHardwarePixelBuffer::blit` is outside the
file: the call is recorded and its effect on the graphics context and on client memory is
the parameter `generic`. -/
def GLTextureBuffer.blit (env : Env)
    (generic : GLTextureBuffer → Box → Box → GLWorld → GLResult)
    (self src : GLTextureBuffer) (srcBox dstBox : Box) (w : World) : Result :=
  let srct := src
  -- Check for FBO support first
  if env.GLEW_EXT_framebuffer_object && (src.mUsage &&& TU_RENDERTARGET == 0) &&
      (srct.mTarget == GL_TEXTURE_1D || srct.mTarget == GL_TEXTURE_2D ||
        srct.mTarget == GL_TEXTURE_3D) &&
      self.mTarget != GL_TEXTURE_2D_ARRAY_EXT then
    self.blitFromTexture env srct srcBox dstBox w
  else
    (w.log (Call.genericBlit src.mTextureID srcBox dstBox)).runGL
      (generic src srcBox dstBox)

/-- What `getRenderTarget` does: an assertion stops it, the index is outside the slice
list (undefined behaviour in C++), or the render texture of the slice is returned. -/
inductive RenderTargetAccess
  | assertionFailed
  | outOfRange
  | found (target : RenderTexture)
deriving DecidableEq, Repr

/-- Member `GLTextureBuffer::getRenderTarget(zoffset)`, with its two assertions. -/
def GLTextureBuffer.getRenderTarget (self : GLTextureBuffer) (zoffset : Nat) :
    RenderTargetAccess :=
  if self.mUsage &&& TU_RENDERTARGET = 0 then RenderTargetAccess.assertionFailed
  else if ¬ zoffset < self.mDepth then RenderTargetAccess.assertionFailed
  else
    match self.mSliceTRT.get? zoffset with
    | some t => RenderTargetAccess.found t
    | none => RenderTargetAccess.outOfRange

/-! ## GLRenderBuffer -/

/-- The renderbuffer pixel buffer `GLRenderBuffer`. -/
structure GLRenderBuffer extends GLHardwarePixelBuffer where
  mRenderbufferID : GLuint

/-- Constructor `GLRenderBuffer(format, width, height, numSamples)`. -/
def GLRenderBuffer.new (env : Env) (format : GLenum) (width height : Nat) (numSamples : Int)
    (g : GLWorld) : GLRenderBuffer × GLWorld :=
  let base := GLHardwarePixelBuffer.new env width height 1 (env.getClosestOGREFormat format)
    HBU_WRITE_ONLY
  -- Generate renderbuffer
  let gen := glGenRenderbuffersEXT g
  -- Bind it to FBO
  let g := gen.2.issue (.glBindRenderbufferEXT GL_RENDERBUFFER_EXT gen.1)
  -- Allocate storage for depth buffer
  let g := if numSamples > 0 then
      g.issue (.glRenderbufferStorageMultisampleEXT GL_RENDERBUFFER_EXT numSamples format
        width height)
    else
      g.issue (.glRenderbufferStorageEXT GL_RENDERBUFFER_EXT format width height)
  ({ base with mGLInternalFormat := format, mRenderbufferID := gen.1 }, g)

/-- Member `GLRenderBuffer::bindToFramebuffer(attachment, zoffset)`: the assertion
`assert(zoffset < mDepth)`, then the attachment. -/
def GLRenderBuffer.bindToFramebuffer (self : GLRenderBuffer) (attachment : GLenum)
    (zoffset : Nat) (g : GLWorld) : GLResult :=
  if ¬ zoffset < self.mDepth then { gl := g, thrown := some Failure.assertionFailed }
  else
    GLResult.ok (g.issue (.glFramebufferRenderbufferEXT GL_FRAMEBUFFER_EXT attachment
      GL_RENDERBUFFER_EXT self.mRenderbufferID))

/-! ## Classes of commands -/

/-- The whole-image compressed transfer calls. -/
def GLCommand.isCompressedImage : GLCommand → Bool
  | .glCompressedTexImage1DARB .. => true
  | .glCompressedTexImage2DARB .. => true
  | .glCompressedTexImage3DARB .. => true
  | _ => false

/-- The sub-image compressed transfer calls. -/
def GLCommand.isCompressedSubImage : GLCommand → Bool
  | .glCompressedTexSubImage1DARB .. => true
  | .glCompressedTexSubImage2DARB .. => true
  | .glCompressedTexSubImage3DARB .. => true
  | _ => false

/-- The attribute stack calls `glPushAttrib` and `glPopAttrib`. -/
def GLCommand.isAttribCommand : GLCommand → Bool
  | .glPushAttrib _ => true
  | .glPopAttrib => true
  | _ => false

/-- The calls that select a matrix stack, push it or pop it. -/
def GLCommand.isMatrixCommand : GLCommand → Bool
  | .glMatrixMode _ => true
  | .glPushMatrix => true
  | .glPopMatrix => true
  | _ => false

/-- The calls that set the minification or the magnification filter of a texture. -/
def GLCommand.isFilterSetting : GLCommand → Bool
  | .setTexParameteri _ pname _ =>
    decide (pname = GL_TEXTURE_MIN_FILTER) || decide (pname = GL_TEXTURE_MAG_FILTER)
  | _ => false

/-- The renderbuffer name generation calls. -/
def GLCommand.isGenRenderbuffers : GLCommand → Bool
  | .glGenRenderbuffersEXT _ => true
  | _ => false

/-- The renderbuffer storage allocation calls, single-sample and multisample. -/
def GLCommand.isRenderbufferStorage : GLCommand → Bool
  | .glRenderbufferStorageEXT .. => true
  | .glRenderbufferStorageMultisampleEXT .. => true
  | _ => false

/-- The calls that bind a framebuffer object. -/
def GLCommand.isFramebufferBinding : GLCommand → Bool
  | .glBindFramebufferEXT .. => true
  | _ => false

/-- The calls that create or delete a texture name. -/
def GLCommand.isTextureLifetime : GLCommand → Bool
  | .glGenTextures _ => true
  | .glDeleteTextures .. => true
  | _ => false

/-- The commands with which `blitFromTexture` ends, for the intermediate texture `tempTex`
(zero when none was made) and the framebuffer `oldfb` bound on entry. -/
def GLTextureBuffer.blitTail (src : GLTextureBuffer) (tempTex oldfb : GLuint) :
    List GLCommand :=
  [GLCommand.bindGLTexture src.mTarget src.mTextureID,
   GLCommand.setTexParameteri src.mTarget GL_TEXTURE_BASE_LEVEL 0,
   GLCommand.glFramebufferRenderbufferEXT GL_FRAMEBUFFER_EXT GL_COLOR_ATTACHMENT0_EXT
     GL_RENDERBUFFER_EXT 0,
   GLCommand.glBindFramebufferEXT GL_FRAMEBUFFER_EXT oldfb,
   GLCommand.glMatrixMode GL_TEXTURE, GLCommand.glPopMatrix,
   GLCommand.glMatrixMode GL_PROJECTION, GLCommand.glPopMatrix,
   GLCommand.glMatrixMode GL_MODELVIEW, GLCommand.glPopMatrix,
   GLCommand.glPopAttrib,
   GLCommand.glDeleteTextures 1 tempTex]

/-- The two filter settings `blitFromTexture` chooses for the source texture. -/
def GLTextureBuffer.blitFilters (src : GLTextureBuffer) (srcBox dstBox : Box) :
    List GLCommand :=
  if srcBox.getWidth = dstBox.getWidth ∧ srcBox.getHeight = dstBox.getHeight ∧
      srcBox.getDepth = dstBox.getDepth then
    [GLCommand.setTexParameteri src.mTarget GL_TEXTURE_MIN_FILTER GL_NEAREST,
     GLCommand.setTexParameteri src.mTarget GL_TEXTURE_MAG_FILTER GL_NEAREST]
  else if src.mUsage &&& TU_AUTOMIPMAP ≠ 0 then
    [GLCommand.setTexParameteri src.mTarget GL_TEXTURE_MIN_FILTER GL_LINEAR_MIPMAP_LINEAR,
     GLCommand.setTexParameteri src.mTarget GL_TEXTURE_MAG_FILTER GL_LINEAR]
  else
    [GLCommand.setTexParameteri src.mTarget GL_TEXTURE_MIN_FILTER GL_LINEAR,
     GLCommand.setTexParameteri src.mTarget GL_TEXTURE_MAG_FILTER GL_LINEAR]

/-- A push or a pop of the matrix stack selected by `glMatrixMode`. -/
inductive MatrixEvent
  | push (stack : GLenum)
  | pop (stack : GLenum)
deriving DecidableEq, Repr

/-- GL semantics of the matrix stacks: the pushes and pops of a command sequence, each
with the stack that the last `glMatrixMode` before it selected (`mode` at the start). -/
def matrixEvents (mode : GLenum) : List GLCommand → List MatrixEvent
  | [] => []
  | .glMatrixMode m :: rest => matrixEvents m rest
  | .glPushMatrix :: rest => MatrixEvent.push mode :: matrixEvents mode rest
  | .glPopMatrix :: rest => MatrixEvent.pop mode :: matrixEvents mode rest
  | _ :: rest => matrixEvents mode rest

/-! ## Content model of the primitives

The model of `upload` and `download` used to state the round trip property: `upload`
writes the box into the texture store and `download` reads the whole store.  The transfer
calls of `GLTextureBuffer::upload` and `GLTextureBuffer::download` name the format of the
client box (`getGLOriginFormat(data.format)`), and the driver converts between that format
and the format in which the texture is stored; the conversion of a pixel is
`env.convertPixel`, as for `PixelUtil::bulkPixelConversion`. -/

/-- Content model of `upload(data, dest)` for a texture stored in the format `stored`: the
pixels of `data`, converted from the format of `data`, are written into the texture store
at `dest`. -/
def TextureStore.upload (env : Env) (stored : PixelFormat) (data : PixelBox) (dest : Box)
    (g : GLWorld) : GLResult :=
  let t : Texels := fun x y z =>
    if dest.left ≤ x ∧ x < dest.right ∧ dest.top ≤ y ∧ y < dest.bottom ∧
        dest.front ≤ z ∧ z < dest.back then
      env.convertPixel data.format stored
        (data.read g.memory (x - dest.left) (y - dest.top) (z - dest.front))
    else g.texels x y z
  GLResult.ok { g with texels := t }

/-- Content model of `download(data)` for a texture stored in the format `stored`: the
whole texture store, converted to the format of `data`, is read into `data`. -/
def TextureStore.download (env : Env) (stored : PixelFormat) (data : PixelBox)
    (g : GLWorld) : GLResult :=
  let m : Memory := data.write g.memory
    (fun x y z => env.convertPixel stored data.format (g.texels x y z))
  GLResult.ok { g with memory := m }

/-- The primitives of the content model of a texture stored in the format `stored`. -/
def TextureStore.primitives (env : Env) (stored : PixelFormat) : Primitives :=
  { upload := TextureStore.upload env stored, download := TextureStore.download env stored }

/-! ## Concrete buffers, boxes and worlds used by the examples -/

/-- An environment with an uncompressed native format (`1`, four bytes a pixel), a
format without native transfer format (`2`), a compressed native format (`3`) and a second
uncompressed native format (`4`, three bytes a pixel). -/
def sampleEnv : Env :=
  { getGLOriginFormat := fun f =>
      if f = 1 then GL_RGBA else if f = 3 then 0x83F1 else if f = 4 then 0x1907 else 0,
    getGLOriginDataType := fun _ => GL_UNSIGNED_BYTE,
    getClosestGLInternalFormat := fun f _ => if f = 3 then 0x83F1 else 0x8058,
    getClosestOGREFormat := fun v => if v = 0x83F1 then 3 else 1,
    optionalPO2 := fun n => n,
    isCompressed := fun f => decide (f = 3),
    isLuminance := fun _ => false,
    getNumElemBytes := fun f => if f = 3 then 0 else if f = 4 then 3 else 4,
    getMemorySize := fun w h d f => if f = 3 then w * h * d / 2 else w * h * d * 4,
    GLEW_EXT_framebuffer_object := true,
    GLEW_VERSION_1_2 := true,
    getTemporaryFBO := 7,
    checkFormat := fun _ => true,
    getSupportedAlternative := fun f => f,
    texLevelParameter := fun _ _ pname =>
      if pname = GL_TEXTURE_INTERNAL_FORMAT then 0x8058 else 4,
    convertPixel := fun a b p =>
      if a = b then p else if a = 1 ∧ b = 4 then p / 256
      else if a = 4 ∧ b = 1 then p * 256 + 255 else 0,
    resample := fun _ _ _ _ _ _ => 0 }

/-- A context with no command issued, default transfer parameters and black pixels. -/
def emptyGL : GLWorld :=
  { commands := [],
    pixelStore := fun p => if p = GL_UNPACK_ALIGNMENT ∨ p = GL_PACK_ALIGNMENT then 4 else 0,
    framebufferBinding := 0, lastTextureName := 0, lastRenderbufferName := 0,
    memory := fun _ _ _ _ => 0, texels := fun _ _ _ => 0 }

/-- The world before any call, with the shadow buffer not allocated. -/
def emptyWorld : World := { calls := [], shadowAllocated := false, gl := emptyGL }

/-- Primitives that issue nothing and succeed. -/
def quietPrimitives : Primitives :=
  { upload := fun _ _ g => GLResult.ok g, download := fun _ g => GLResult.ok g }

/-- Primitives that fail with a rendering API error, as those of a buffer that supports no
transfer. -/
def failingPrimitives : Primitives :=
  { upload := fun _ _ g =>
      { gl := g, thrown := some (Failure.ogreExcept .ERR_RENDERINGAPI_ERROR (.other 0)
          (.other 0)) },
    download := fun _ g =>
      { gl := g, thrown := some (Failure.ogreExcept .ERR_RENDERINGAPI_ERROR (.other 1)
          (.other 1)) } }

/-- A 4x4x1 buffer of format `1`. -/
def buffer4x4 : GLHardwarePixelBuffer := GLHardwarePixelBuffer.new sampleEnv 4 4 1 1 HBU_STATIC

/-- A 16x16x1 buffer of format `1`. -/
def buffer16x16 : GLHardwarePixelBuffer :=
  GLHardwarePixelBuffer.new sampleEnv 16 16 1 1 HBU_STATIC

/-- The environment `sampleEnv` with a driver that reports the compressed internal format,
so that texture buffers constructed in it have format `3`. -/
def compressedEnv : Env :=
  { sampleEnv with
    texLevelParameter := fun _ _ pname =>
      if pname = GL_TEXTURE_INTERNAL_FORMAT then 0x83F1 else 4 }

/-- The 4x4x1 texture buffer of format `1` the constructor makes in `sampleEnv` for level 0
of a 2D texture with static usage. -/
def texture4x4 : GLTextureBuffer :=
  (GLTextureBuffer.new sampleEnv GL_TEXTURE_2D 1 0 0 HBU_STATIC false 0 emptyWorld).1

/-- The 4x1x1 texture buffer of the compressed format `3` the constructor makes in
`compressedEnv` for level 0 of a 1D texture. -/
def compressedTexture1D : GLTextureBuffer :=
  (GLTextureBuffer.new compressedEnv GL_TEXTURE_1D 1 0 0 HBU_STATIC false 0 emptyWorld).1

/-- The environment `sampleEnv` with a driver that reports a width of zero. -/
def zeroWidthEnv : Env :=
  { sampleEnv with
    texLevelParameter := fun _ _ pname =>
      if pname = GL_TEXTURE_INTERNAL_FORMAT then 0x8058
      else if pname = GL_TEXTURE_WIDTH then 0 else 4 }

/-- The 4x4x4 texture buffer the constructor makes in `sampleEnv` for level 0 of a 3D
texture with static usage. -/
def texture3D : GLTextureBuffer :=
  (GLTextureBuffer.new sampleEnv GL_TEXTURE_3D 2 0 0 HBU_STATIC false 0 emptyWorld).1

/-- The texture buffer the constructor makes for level 0 of a 2D render-target texture
when the driver reports a width of zero (height 4, depth forced to 1). -/
def zeroWidthTarget : GLTextureBuffer :=
  (GLTextureBuffer.new zeroWidthEnv GL_TEXTURE_2D 1 0 0 TU_RENDERTARGET false 0
    emptyWorld).1

/-- The 4x4x1 texture buffer of the compressed format `3` the constructor makes in
`compressedEnv` for level 0 of a 2D texture. -/
def compressedTexture2D : GLTextureBuffer :=
  (GLTextureBuffer.new compressedEnv GL_TEXTURE_2D 1 0 0 HBU_STATIC false 0 emptyWorld).1

/-- A generic blit that issues nothing and succeeds. -/
def quietBlit : GLTextureBuffer → Box → Box → GLWorld → GLResult :=
  fun _ _ _ g => GLResult.ok g

/-- A client pixel box of the given extent and format in memory block `3`. -/
def clientBox (width height depth : Nat) (format : PixelFormat) : PixelBox :=
  PixelBox.ofExtent width height depth format { block := 3, x := 0, y := 0, z := 0 }

/-! ## Theorems -/

/-! ### Basic facts about sequencing and the logs -/

theorem Result.andThen_ok_thrown (r : Result) (f : World → World) :
    (r.andThen (fun w => Result.ok (f w))).thrown = r.thrown := by
  unfold Result.andThen Result.ok
  cases h : r.thrown <;> simp [h]

theorem Result.andThen_none (r : Result) (k : World → Result) (h : r.thrown = none) :
    r.andThen k = k r.world := by
  unfold Result.andThen
  simp [h]

theorem Result.andThen_some (r : Result) (k : World → Result) (f : Failure)
    (h : r.thrown = some f) : r.andThen k = r := by
  unfold Result.andThen
  simp [h]

theorem GLResult.andThen_passes (r : GLResult) (k : GLWorld → GLResult)
    (h : r.thrown = none) : r.andThen k = k r.gl := by
  unfold GLResult.andThen
  simp [h]

theorem GLResult.andThen_halts (r : GLResult) (k : GLWorld → GLResult) (f : Failure)
    (h : r.thrown = some f) : r.andThen k = r := by
  unfold GLResult.andThen
  simp [h]

/-- The direct bind stops on its assertion exactly when the slice is not below the depth
of the buffer. -/
theorem GLTextureBuffer.bindToFramebuffer_stops (self : GLTextureBuffer)
    (attachment : GLenum) (zoffset : Nat) (g : GLWorld) :
    (zoffset < self.mDepth →
      self.bindToFramebuffer attachment zoffset g =
        GLResult.ok (self.attachToFramebuffer attachment zoffset g)) ∧
    (¬ zoffset < self.mDepth →
      self.bindToFramebuffer attachment zoffset g =
        { gl := g, thrown := some Failure.assertionFailed }) := by
  unfold GLTextureBuffer.bindToFramebuffer
  constructor
  · intro h
    rw [if_neg (not_not.mpr h)]
  · intro h
    rw [if_pos h]

/-- One round of the loop stops only on the assertion of the direct bind. -/
theorem GLTextureBuffer.blitSlice_stops (self src : GLTextureBuffer) (srcBox dstBox : Box)
    (tempTex : GLuint) (g : GLWorld) (slice : Nat) :
    ((tempTex = 0 → slice < self.mDepth) →
      self.blitSlice src srcBox dstBox tempTex g slice =
        GLResult.ok (self.drawSlice src srcBox dstBox tempTex
          (if tempTex = 0 then self.attachToFramebuffer GL_COLOR_ATTACHMENT0_EXT slice g
            else g) slice)) ∧
    (¬ (tempTex = 0 → slice < self.mDepth) →
      self.blitSlice src srcBox dstBox tempTex g slice =
        { gl := g, thrown := some Failure.assertionFailed }) := by
  unfold GLTextureBuffer.blitSlice
  by_cases ht : tempTex = 0
  · by_cases hs : slice < self.mDepth
    · refine ⟨fun _ => ?_, fun hn => absurd (fun _ => hs) hn⟩
      rw [if_pos ht, if_pos ht, (GLTextureBuffer.bindToFramebuffer_stops self _ slice g).1 hs]
      rfl
    · refine ⟨fun h => absurd (h ht) hs, fun _ => ?_⟩
      rw [if_pos ht, (GLTextureBuffer.bindToFramebuffer_stops self _ slice g).2 hs]
      rfl
  · refine ⟨fun _ => ?_, fun hn => absurd (fun h => absurd h ht) hn⟩
    rw [if_neg ht, if_neg ht]
    rfl

/-- The loop over the slices stops only on a failed assertion. -/
theorem GLTextureBuffer.blitSlices_kind (self src : GLTextureBuffer) (srcBox dstBox : Box)
    (tempTex : GLuint) (slices : List Nat) (g : GLWorld) :
    (self.blitSlices src srcBox dstBox tempTex slices g).thrown = none ∨
    (self.blitSlices src srcBox dstBox tempTex slices g).thrown =
      some Failure.assertionFailed := by
  induction slices generalizing g with
  | nil => exact Or.inl rfl
  | cons s rest ih =>
    unfold GLTextureBuffer.blitSlices
    by_cases hs : tempTex = 0 → s < self.mDepth
    · rw [(GLTextureBuffer.blitSlice_stops self src srcBox dstBox tempTex g s).1 hs]
      exact ih _
    · rw [(GLTextureBuffer.blitSlice_stops self src srcBox dstBox tempTex g s).2 hs]
      exact Or.inr rfl

/-- The commands of `blitFromTexture` stop only on a failed assertion. -/
theorem GLTextureBuffer.blitFromTextureGL_kind (env : Env) (self src : GLTextureBuffer)
    (srcBox dstBox : Box) (g : GLWorld) :
    (self.blitFromTextureGL env src srcBox dstBox g).thrown = none ∨
    (self.blitFromTextureGL env src srcBox dstBox g).thrown =
      some Failure.assertionFailed := by
  unfold GLTextureBuffer.blitFromTextureGL
  simp only []
  rcases GLTextureBuffer.blitSlices_kind self src srcBox dstBox
    (self.blitAttach env dstBox ((GLTextureBuffer.blitSetUp env src srcBox dstBox g).issue
      (.glGetIntegerv GL_FRAMEBUFFER_BINDING_EXT))).1
    (List.range' dstBox.front (dstBox.back - dstBox.front))
    (self.blitAttach env dstBox ((GLTextureBuffer.blitSetUp env src srcBox dstBox g).issue
      (.glGetIntegerv GL_FRAMEBUFFER_BINDING_EXT))).2 with h | h
  · rw [GLResult.andThen_passes _ _ h]
    exact Or.inl rfl
  · rw [GLResult.andThen_halts _ _ _ h]
    exact Or.inr h

theorem GLHardwarePixelBuffer.buffer_contains (self : GLHardwarePixelBuffer) (w : World)
    (box : Box) : (self.buffer w).contains box = self.mBuffer.contains box := rfl

theorem GLHardwarePixelBuffer.upload_thrown (vt : Primitives) (data : PixelBox) (dest : Box)
    (w : World) :
    (GLHardwarePixelBuffer.upload vt data dest w).thrown = (vt.upload data dest w.gl).thrown :=
  rfl

theorem GLHardwarePixelBuffer.download_thrown (vt : Primitives) (data : PixelBox) (w : World) :
    (GLHardwarePixelBuffer.download vt data w).thrown = (vt.download data w.gl).thrown :=
  rfl

/-- The only failure `GLTextureBuffer::upload` raises is the compressed format one. -/
theorem GLTextureBuffer.upload_failure_kind (env : Env) (self : GLTextureBuffer) (data : PixelBox)
    (dest : Box) (g : GLWorld) :
    (self.upload env data dest g).thrown = none ∨
    (self.upload env data dest g).thrown = some (Failure.ogreExcept .ERR_INVALIDPARAMS
      .compressedImagesMustBeConsecutive .GLTextureBuffer_upload) := by
  unfold GLTextureBuffer.upload
  simp only []
  split
  · split
    · right; rfl
    · left; rfl
  · left; rfl

/-- A failure of `GLHardwarePixelBuffer::blitFromMemory` on a contained box is a failure
of the `upload` primitive. -/
theorem GLHardwarePixelBuffer.blitFromMemory_thrown (env : Env) (vt : Primitives)
    (self : GLHardwarePixelBuffer) (src : PixelBox) (box : Box) (w : World)
    (h : self.mBuffer.contains box = true) :
    ∃ data g, (GLHardwarePixelBuffer.blitFromMemory env vt self src box w).thrown =
      (vt.upload data box g).thrown := by
  unfold GLHardwarePixelBuffer.blitFromMemory
  simp only [GLHardwarePixelBuffer.buffer_contains, h, Bool.not_true, Bool.false_eq_true,
    if_false]
  split
  · exact ⟨_, _, by rw [Result.andThen_ok_thrown, GLHardwarePixelBuffer.upload_thrown]⟩
  · split
    · exact ⟨_, _, by rw [Result.andThen_ok_thrown, GLHardwarePixelBuffer.upload_thrown]⟩
    · exact ⟨_, _, by rw [Result.andThen_ok_thrown, GLHardwarePixelBuffer.upload_thrown]⟩

/-- A failure of the copy through the shadow buffer is a failure of `download`. -/
theorem GLHardwarePixelBuffer.blitToMemoryViaBuffer_thrown (env : Env) (vt : Primitives)
    (self : GLHardwarePixelBuffer) (srcBox : Box) (dst : PixelBox) (w : World) :
    (GLHardwarePixelBuffer.blitToMemoryViaBuffer env vt self srcBox dst w).thrown =
      (vt.download (self.buffer (GLHardwarePixelBuffer.allocateBuffer w))
        (GLHardwarePixelBuffer.allocateBuffer w).gl).thrown := by
  unfold GLHardwarePixelBuffer.blitToMemoryViaBuffer
  simp only []
  rw [Result.andThen_ok_thrown]
  rfl

/-- A failure of `GLHardwarePixelBuffer::blitToMemory` on a contained box is a failure of
the `download` primitive. -/
theorem GLHardwarePixelBuffer.blitToMemory_thrown (env : Env) (vt : Primitives)
    (self : GLHardwarePixelBuffer) (srcBox : Box) (dst : PixelBox) (w : World)
    (h : self.mBuffer.contains srcBox = true) :
    ∃ data g, (GLHardwarePixelBuffer.blitToMemory env vt self srcBox dst w).thrown =
      (vt.download data g).thrown := by
  unfold GLHardwarePixelBuffer.blitToMemory
  simp only [GLHardwarePixelBuffer.buffer_contains, h, Bool.not_true, Bool.false_eq_true,
    if_false]
  split
  · split
    · exact ⟨_, _, GLHardwarePixelBuffer.download_thrown _ _ _⟩
    · exact ⟨_, _, GLHardwarePixelBuffer.blitToMemoryViaBuffer_thrown _ _ _ _ _ _⟩
  · exact ⟨_, _, GLHardwarePixelBuffer.blitToMemoryViaBuffer_thrown _ _ _ _ _ _⟩

/-- The fast path of `GLTextureBuffer::blitFromMemory` fails only if the upload into the
temporary texture does, or on the assertion of a direct bind. -/
theorem GLTextureBuffer.blitFromMemoryFast_thrown (env : Env) (self : GLTextureBuffer)
    (src : PixelBox) (box : Box) (w : World) :
    (self.blitFromMemoryFast env src box w).thrown = none ∨
    (self.blitFromMemoryFast env src box w).thrown = some (Failure.ogreExcept
      .ERR_INVALIDPARAMS .compressedImagesMustBeConsecutive .GLTextureBuffer_upload) ∨
    (self.blitFromMemoryFast env src box w).thrown = some Failure.assertionFailed := by
  unfold GLTextureBuffer.blitFromMemoryFast
  simp only []
  generalize GLTextureBuffer.new env _ _ 0 0 _ false 0 _ = made
  generalize self.convertSource env src w = cv
  generalize Box.ofCorners 0 0 0 cv.1.getWidth cv.1.getHeight cv.1.getDepth = tempTarget
  generalize made.2.log _ = wu
  have hr : (wu.runGL (made.1.upload env cv.1 tempTarget)).thrown =
      (made.1.upload env cv.1 tempTarget wu.gl).thrown := rfl
  rcases GLTextureBuffer.upload_failure_kind env made.1 cv.1 tempTarget wu.gl with hu | hu
  · rw [Result.andThen_none _ _ (hr.trans hu)]
    generalize (wu.runGL (made.1.upload env cv.1 tempTarget)).world = w1
    have hb : (self.blitFromTexture env made.1 tempTarget box w1).thrown =
        (self.blitFromTextureGL env made.1 tempTarget box
          (w1.log (Call.blitFromTexture made.1.mTextureID tempTarget box)).gl).thrown := rfl
    rcases GLTextureBuffer.blitFromTextureGL_kind env self made.1 tempTarget box
      (w1.log (Call.blitFromTexture made.1.mTextureID tempTarget box)).gl with hk | hk
    · rw [Result.andThen_none _ _ (hb.trans hk)]
      exact Or.inl rfl
    · rw [Result.andThen_some _ _ _ (hb.trans hk)]
      exact Or.inr (Or.inr (hb.trans hk))
  · rw [Result.andThen_some _ _ _ (hr.trans hu)]
    exact Or.inr (Or.inl (hr.trans hu))

/-- C1. Range validation.  `GLHardwarePixelBuffer::blitFromMemory` and `blitToMemory`
raise InvalidParameters ("destination box out of range", "source box out of range") when
the box is not contained in the extent of the buffer, and so does
`GLTextureBuffer::blitFromMemory` on its fallback path and on its fast path.  The world
reached by the failure is the world of the call: no upload, download, resample, conversion
or texture creation has been issued (the texture buffer has at most recorded that it
delegates to the generic function).  When the box is contained, the failure a generic blit
ends with, if any, is one raised by the primitive it calls, and a texture buffer never
raises a range error. -/
theorem C1_range_validation (env : Env) (vt : Primitives) (self : GLHardwarePixelBuffer)
    (tex : GLTextureBuffer) (pb : PixelBox) (box : Box) (w : World) :
    (self.mBuffer.contains box = false →
      GLHardwarePixelBuffer.blitFromMemory env vt self pb box w =
        { world := w,
          thrown := some (Failure.ogreExcept .ERR_INVALIDPARAMS .destinationBoxOutOfRange
            .GLHardwarePixelBuffer_blitFromMemory) }) ∧
    (self.mBuffer.contains box = true →
      ∃ data g, (GLHardwarePixelBuffer.blitFromMemory env vt self pb box w).thrown =
        (vt.upload data box g).thrown) ∧
    (self.mBuffer.contains box = false →
      GLHardwarePixelBuffer.blitToMemory env vt self box pb w =
        { world := w,
          thrown := some (Failure.ogreExcept .ERR_INVALIDPARAMS .sourceBoxOutOfRange
            .GLHardwarePixelBuffer_blitToMemory) }) ∧
    (self.mBuffer.contains box = true →
      ∃ data g, (GLHardwarePixelBuffer.blitToMemory env vt self box pb w).thrown =
        (vt.download data g).thrown) ∧
    (tex.mBuffer.contains box = false →
      (∃ o, (tex.blitFromMemory env pb box w).thrown =
        some (Failure.ogreExcept .ERR_INVALIDPARAMS .destinationBoxOutOfRange o)) ∧
      ((tex.blitFromMemory env pb box w).world = w ∨
       (tex.blitFromMemory env pb box w).world =
         w.log (Call.genericBlitFromMemory pb box))) ∧
    (tex.mBuffer.contains box = true →
      ∀ code o, (tex.blitFromMemory env pb box w).thrown ≠
        some (Failure.ogreExcept code .destinationBoxOutOfRange o)) := by
  refine ⟨?_, ?_, ?_, ?_, ?_, ?_⟩
  · intro h
    unfold GLHardwarePixelBuffer.blitFromMemory
    simp [GLHardwarePixelBuffer.buffer_contains, h, OGRE_EXCEPT]
  · exact GLHardwarePixelBuffer.blitFromMemory_thrown env vt self pb box w
  · intro h
    unfold GLHardwarePixelBuffer.blitToMemory
    simp [GLHardwarePixelBuffer.buffer_contains, h, OGRE_EXCEPT]
  · exact GLHardwarePixelBuffer.blitToMemory_thrown env vt self box pb w
  · intro h
    unfold GLTextureBuffer.blitFromMemory
    split
    · unfold GLHardwarePixelBuffer.blitFromMemory
      simp [GLHardwarePixelBuffer.buffer_contains, h, OGRE_EXCEPT]
    · simp [GLHardwarePixelBuffer.buffer_contains, h, OGRE_EXCEPT]
  · intro h code o
    unfold GLTextureBuffer.blitFromMemory
    split
    · obtain ⟨data, g, hd⟩ := GLHardwarePixelBuffer.blitFromMemory_thrown env
        (tex.primitives env) tex.toGLHardwarePixelBuffer pb box
        (w.log (Call.genericBlitFromMemory pb box)) h
      rw [hd]
      rcases GLTextureBuffer.upload_failure_kind env tex data box g with h1 | h1 <;>
        simp [GLTextureBuffer.primitives, h1]
    · simp only [GLHardwarePixelBuffer.buffer_contains, h, Bool.not_true, Bool.false_eq_true,
        if_false]
      rcases GLTextureBuffer.blitFromMemoryFast_thrown env tex pb box w with h1 | h1 | h1 <;>
        simp [h1]

/-- C1 at concrete inputs: the box (0,0,0)-(5,4,1) is not contained in the 4x4x1 extent;
the generic blit and the blit of the texture buffer (an 8x8 source, so the fast path) both
end with the range error in the world they were called in. -/
theorem C1_range_validation_witness :
    GLHardwarePixelBuffer.blitFromMemory sampleEnv quietPrimitives buffer4x4
        (clientBox 4 4 1 1) (Box.ofCorners 0 0 0 5 4 1) emptyWorld =
      { world := emptyWorld,
        thrown := some (Failure.ogreExcept .ERR_INVALIDPARAMS .destinationBoxOutOfRange
          .GLHardwarePixelBuffer_blitFromMemory) } ∧
    (∃ o, (texture4x4.blitFromMemory sampleEnv (clientBox 8 8 1 1)
        (Box.ofCorners 0 0 0 5 4 1) emptyWorld).thrown =
      some (Failure.ogreExcept .ERR_INVALIDPARAMS .destinationBoxOutOfRange o)) :=
  ⟨(C1_range_validation sampleEnv quietPrimitives buffer4x4 texture4x4 (clientBox 4 4 1 1)
      (Box.ofCorners 0 0 0 5 4 1) emptyWorld).1 (by decide),
   ((C1_range_validation sampleEnv quietPrimitives buffer4x4 texture4x4 (clientBox 8 8 1 1)
      (Box.ofCorners 0 0 0 5 4 1) emptyWorld).2.2.2.2.1 (by decide)).1⟩

/-! ### The generic blits: decision tables -/

/-- The tail `upload(scaled, dstBox); freeBuffer();` of `blitFromMemory`: the upload is
recorded, the primitive runs in the context of the call, and the buffer is freed exactly
when the primitive returns. -/
theorem GLHardwarePixelBuffer.upload_then_free (vt : Primitives) (data : PixelBox)
    (dest : Box) (w : World) :
    ((GLHardwarePixelBuffer.upload vt data dest w).andThen
        (fun w3 => Result.ok (GLHardwarePixelBuffer.freeBuffer w3))).thrown =
      (vt.upload data dest w.gl).thrown ∧
    ((GLHardwarePixelBuffer.upload vt data dest w).andThen
        (fun w3 => Result.ok (GLHardwarePixelBuffer.freeBuffer w3))).world.calls =
      w.calls ++ [Call.upload data dest] ++
        (if (vt.upload data dest w.gl).thrown.isNone then [Call.freeBuffer] else []) ∧
    ((GLHardwarePixelBuffer.upload vt data dest w).andThen
        (fun w3 => Result.ok (GLHardwarePixelBuffer.freeBuffer w3))).world.shadowAllocated =
      (if (vt.upload data dest w.gl).thrown.isNone then false else w.shadowAllocated) ∧
    ((GLHardwarePixelBuffer.upload vt data dest w).andThen
        (fun w3 => Result.ok (GLHardwarePixelBuffer.freeBuffer w3))).world.gl =
      (vt.upload data dest w.gl).gl := by
  unfold Result.andThen GLHardwarePixelBuffer.upload World.runGL World.log Result.ok
    GLHardwarePixelBuffer.freeBuffer
  cases h : (vt.upload data dest w.gl).thrown <;> simp [h]

/-- C2. Decision table of `GLHardwarePixelBuffer::blitFromMemory` for a contained
`dstBox`.  With `sub` the sub-volume of the allocated shadow buffer at `dstBox`:
(a) if the extent of `src` differs from that of `dstBox`, the calls are `allocateBuffer`,
one `Image::scale(src, sub)`, one `upload(sub, dstBox)`: no format probe and no bulk
conversion; (b) else if the probe returns 0 the calls are the probe, `allocateBuffer`, one
`bulkPixelConversion(src, sub)`, one `upload(sub, dstBox)`: no resample; (c) else the calls
are the probe, `allocateBuffer` and one `upload(src, dstBox)`.  In each case `freeBuffer`
follows when the upload returns. -/
theorem C2_blitFromMemory_decision_table (env : Env) (vt : Primitives)
    (self : GLHardwarePixelBuffer) (src : PixelBox) (dstBox : Box) (w : World)
    (h : self.mBuffer.contains dstBox = true) :
    ((src.getWidth ≠ dstBox.getWidth ∨ src.getHeight ≠ dstBox.getHeight ∨
        src.getDepth ≠ dstBox.getDepth) →
      ∃ tail, (tail = [] ∨ tail = [Call.freeBuffer]) ∧
        (GLHardwarePixelBuffer.blitFromMemory env vt self src dstBox w).world.calls =
          w.calls ++ [Call.allocateBuffer,
            Call.scale src
              (PixelBox.getSubVolume { self.mBuffer with data := Pointer.shadow } dstBox),
            Call.upload
              (PixelBox.getSubVolume { self.mBuffer with data := Pointer.shadow } dstBox)
              dstBox] ++ tail) ∧
    ((src.getWidth = dstBox.getWidth ∧ src.getHeight = dstBox.getHeight ∧
        src.getDepth = dstBox.getDepth) → env.getGLOriginFormat src.format = 0 →
      ∃ tail, (tail = [] ∨ tail = [Call.freeBuffer]) ∧
        (GLHardwarePixelBuffer.blitFromMemory env vt self src dstBox w).world.calls =
          w.calls ++ [Call.getGLOriginFormat src.format, Call.allocateBuffer,
            Call.bulkPixelConversion src
              (PixelBox.getSubVolume { self.mBuffer with data := Pointer.shadow } dstBox),
            Call.upload
              (PixelBox.getSubVolume { self.mBuffer with data := Pointer.shadow } dstBox)
              dstBox] ++ tail) ∧
    ((src.getWidth = dstBox.getWidth ∧ src.getHeight = dstBox.getHeight ∧
        src.getDepth = dstBox.getDepth) → env.getGLOriginFormat src.format ≠ 0 →
      ∃ tail, (tail = [] ∨ tail = [Call.freeBuffer]) ∧
        (GLHardwarePixelBuffer.blitFromMemory env vt self src dstBox w).world.calls =
          w.calls ++ [Call.getGLOriginFormat src.format, Call.allocateBuffer,
            Call.upload src dstBox] ++ tail) := by
  refine ⟨?_, ?_, ?_⟩
  · intro hd
    refine ⟨if (GLHardwarePixelBuffer.blitFromMemory env vt self src dstBox w).thrown.isNone
      then [Call.freeBuffer] else [], ?_, ?_⟩
    · split <;> simp
    · have hc : (src.getWidth != dstBox.getWidth || src.getHeight != dstBox.getHeight ||
          src.getDepth != dstBox.getDepth) = true := by
        simpa [bne_iff_ne, or_assoc] using hd
      unfold GLHardwarePixelBuffer.blitFromMemory
      simp only [GLHardwarePixelBuffer.buffer_contains, h, Bool.not_true, Bool.false_eq_true,
        if_false, hc, if_true]
      rw [(GLHardwarePixelBuffer.upload_then_free _ _ _ _).1,
        (GLHardwarePixelBuffer.upload_then_free _ _ _ _).2.1]
      simp [Image.scale, GLHardwarePixelBuffer.allocateBuffer, GLHardwarePixelBuffer.buffer]
  · intro hd hp
    refine ⟨if (GLHardwarePixelBuffer.blitFromMemory env vt self src dstBox w).thrown.isNone
      then [Call.freeBuffer] else [], ?_, ?_⟩
    · split <;> simp
    · have hc : (src.getWidth != dstBox.getWidth || src.getHeight != dstBox.getHeight ||
          src.getDepth != dstBox.getDepth) = false := by
        simp [hd.1, hd.2.1, hd.2.2]
      unfold GLHardwarePixelBuffer.blitFromMemory
      simp only [GLHardwarePixelBuffer.buffer_contains, h, Bool.not_true, Bool.false_eq_true,
        if_false, hc, GLPixelUtil.getGLOriginFormat, hp, beq_self_eq_true, if_true]
      rw [(GLHardwarePixelBuffer.upload_then_free _ _ _ _).1,
        (GLHardwarePixelBuffer.upload_then_free _ _ _ _).2.1]
      simp [PixelUtil.bulkPixelConversion, GLHardwarePixelBuffer.allocateBuffer,
        GLHardwarePixelBuffer.buffer, World.log]
  · intro hd hp
    refine ⟨if (GLHardwarePixelBuffer.blitFromMemory env vt self src dstBox w).thrown.isNone
      then [Call.freeBuffer] else [], ?_, ?_⟩
    · split <;> simp
    · have hc : (src.getWidth != dstBox.getWidth || src.getHeight != dstBox.getHeight ||
          src.getDepth != dstBox.getDepth) = false := by
        simp [hd.1, hd.2.1, hd.2.2]
      have hp2 : (env.getGLOriginFormat src.format == 0) = false := by
        simpa using hp
      unfold GLHardwarePixelBuffer.blitFromMemory
      simp only [GLHardwarePixelBuffer.buffer_contains, h, Bool.not_true, Bool.false_eq_true,
        if_false, hc, GLPixelUtil.getGLOriginFormat, hp2]
      rw [(GLHardwarePixelBuffer.upload_then_free _ _ _ _).1,
        (GLHardwarePixelBuffer.upload_then_free _ _ _ _).2.1]
      simp [GLHardwarePixelBuffer.allocateBuffer, World.log]

/-- Scenario 2 of the specification: a 4x4x1 buffer and an 8x8 source of the same format.
The resampler runs once into the 4x4 sub-volume of the shadow buffer, then one `upload`
with the full destination box. -/
theorem C2_blitFromMemory_decision_table_witness :
    buffer4x4.mBuffer.contains (Box.ofCorners 0 0 0 4 4 1) = true ∧
    (∃ tail, (tail = [] ∨ tail = [Call.freeBuffer]) ∧
      (GLHardwarePixelBuffer.blitFromMemory sampleEnv quietPrimitives buffer4x4
          (clientBox 8 8 1 1) (Box.ofCorners 0 0 0 4 4 1) emptyWorld).world.calls =
        emptyWorld.calls ++ [Call.allocateBuffer,
          Call.scale (clientBox 8 8 1 1)
            (PixelBox.getSubVolume { buffer4x4.mBuffer with data := Pointer.shadow }
              (Box.ofCorners 0 0 0 4 4 1)),
          Call.upload
            (PixelBox.getSubVolume { buffer4x4.mBuffer with data := Pointer.shadow }
              (Box.ofCorners 0 0 0 4 4 1))
            (Box.ofCorners 0 0 0 4 4 1)] ++ tail) ∧
    (GLHardwarePixelBuffer.blitFromMemory sampleEnv quietPrimitives buffer4x4
        (clientBox 8 8 1 1) (Box.ofCorners 0 0 0 4 4 1) emptyWorld).world.calls =
      [Call.allocateBuffer,
        Call.scale (clientBox 8 8 1 1) (PixelBox.ofExtent 4 4 1 1 Pointer.shadow),
        Call.upload (PixelBox.ofExtent 4 4 1 1 Pointer.shadow) (Box.ofCorners 0 0 0 4 4 1),
        Call.freeBuffer] :=
  ⟨by decide,
   (C2_blitFromMemory_decision_table sampleEnv quietPrimitives buffer4x4 (clientBox 8 8 1 1)
      (Box.ofCorners 0 0 0 4 4 1) emptyWorld (by decide)).1 (by decide),
   by decide⟩

/-- The copy through the shadow buffer, when `download` returns: the buffer is allocated,
the whole buffer is downloaded into it, its sub-volume is resampled (extents differ) or
converted (extents equal) into `dst`, and the buffer is freed. -/
theorem GLHardwarePixelBuffer.blitToMemoryViaBuffer_returns (env : Env) (vt : Primitives)
    (self : GLHardwarePixelBuffer) (srcBox : Box) (dst : PixelBox) (w : World)
    (hret : (vt.download { self.mBuffer with data := Pointer.shadow } w.gl).thrown = none) :
    (GLHardwarePixelBuffer.blitToMemoryViaBuffer env vt self srcBox dst w).thrown = none ∧
    (GLHardwarePixelBuffer.blitToMemoryViaBuffer env vt self srcBox dst w).world.shadowAllocated
      = false ∧
    (GLHardwarePixelBuffer.blitToMemoryViaBuffer env vt self srcBox dst w).world.calls =
      w.calls ++ [Call.allocateBuffer,
        Call.download { self.mBuffer with data := Pointer.shadow },
        if srcBox.getWidth ≠ dst.getWidth ∨ srcBox.getHeight ≠ dst.getHeight ∨
            srcBox.getDepth ≠ dst.getDepth then
          Call.scale
            (PixelBox.getSubVolume { self.mBuffer with data := Pointer.shadow } srcBox) dst
        else
          Call.bulkPixelConversion
            (PixelBox.getSubVolume { self.mBuffer with data := Pointer.shadow } srcBox) dst,
        Call.freeBuffer] := by
  have hb : self.buffer (GLHardwarePixelBuffer.allocateBuffer w) =
      { self.mBuffer with data := Pointer.shadow } := rfl
  unfold GLHardwarePixelBuffer.blitToMemoryViaBuffer
  simp only [hb]
  unfold Result.andThen GLHardwarePixelBuffer.download World.runGL World.log
  have hg : (GLHardwarePixelBuffer.allocateBuffer w).gl = w.gl := rfl
  simp only [hg, hret]
  by_cases hd : srcBox.getWidth ≠ dst.getWidth ∨ srcBox.getHeight ≠ dst.getHeight ∨
      srcBox.getDepth ≠ dst.getDepth
  · have hc : (srcBox.getWidth != dst.getWidth || srcBox.getHeight != dst.getHeight ||
        srcBox.getDepth != dst.getDepth) = true := by
      simpa [bne_iff_ne, or_assoc] using hd
    simp [hc, hd, Result.ok, GLHardwarePixelBuffer.freeBuffer, Image.scale,
      GLHardwarePixelBuffer.allocateBuffer, GLHardwarePixelBuffer.buffer]
  · have hc : (srcBox.getWidth != dst.getWidth || srcBox.getHeight != dst.getHeight ||
        srcBox.getDepth != dst.getDepth) = false := by
      simpa [bne_iff_ne, or_assoc, and_assoc] using hd
    simp [hc, hd, Result.ok, GLHardwarePixelBuffer.freeBuffer, PixelUtil.bulkPixelConversion,
      GLHardwarePixelBuffer.allocateBuffer, GLHardwarePixelBuffer.buffer]

/-- The copy through the shadow buffer, when `download` fails: the failure leaves the
function at once; nothing is resampled or converted and `freeBuffer` is not reached. -/
theorem GLHardwarePixelBuffer.blitToMemoryViaBuffer_fails (env : Env) (vt : Primitives)
    (self : GLHardwarePixelBuffer) (srcBox : Box) (dst : PixelBox) (w : World) (f : Failure)
    (hfail : (vt.download { self.mBuffer with data := Pointer.shadow } w.gl).thrown = some f) :
    (GLHardwarePixelBuffer.blitToMemoryViaBuffer env vt self srcBox dst w).thrown = some f ∧
    (GLHardwarePixelBuffer.blitToMemoryViaBuffer env vt self srcBox dst w).world.shadowAllocated
      = true ∧
    (GLHardwarePixelBuffer.blitToMemoryViaBuffer env vt self srcBox dst w).world.calls =
      w.calls ++ [Call.allocateBuffer,
        Call.download { self.mBuffer with data := Pointer.shadow }] := by
  have hb : self.buffer (GLHardwarePixelBuffer.allocateBuffer w) =
      { self.mBuffer with data := Pointer.shadow } := rfl
  unfold GLHardwarePixelBuffer.blitToMemoryViaBuffer
  simp only [hb]
  unfold Result.andThen GLHardwarePixelBuffer.download World.runGL World.log
  have hg : (GLHardwarePixelBuffer.allocateBuffer w).gl = w.gl := rfl
  simp only [hg, hfail]
  simp [GLHardwarePixelBuffer.allocateBuffer]

/-- The download of a texture buffer into its own shadow buffer never fails: the shadow
box has the full extent and the format of the buffer and is consecutive. -/
theorem GLTextureBuffer.download_shadow (env : Env) (self : GLTextureBuffer) (g : GLWorld)
    (hb : self.mBuffer =
      PixelBox.ofExtent self.mWidth self.mHeight self.mDepth self.mFormat Pointer.null) :
    (self.download env { self.mBuffer with data := Pointer.shadow } g).thrown = none := by
  rw [hb]
  unfold GLTextureBuffer.download GLTextureBuffer.downloadUncompressed
  simp [PixelBox.ofExtent, PixelBox.getWidth, PixelBox.getHeight, PixelBox.getDepth,
    Box.getWidth, Box.getHeight, Box.getDepth, GLHardwarePixelBuffer.getWidth,
    GLHardwarePixelBuffer.getHeight, GLHardwarePixelBuffer.getDepth, PixelBox.isConsecutive,
    Nat.mul_comm]
  split <;> simp [GLResult.ok]

/-- What `blitToMemory` does on a contained box outside the direct case: the format probe
is recorded if the whole buffer was requested, then the copy through the shadow buffer
runs. -/
theorem GLHardwarePixelBuffer.blitToMemory_indirect (env : Env) (vt : Primitives)
    (self : GLHardwarePixelBuffer) (srcBox : Box) (dst : PixelBox) (w : World)
    (h : self.mBuffer.contains srcBox = true)
    (hn : ¬ (self.wholeBufferRequested srcBox dst = true ∧
      env.getGLOriginFormat dst.format ≠ 0)) :
    ∃ w1 : World, w1.gl = w.gl ∧
      w1.calls = w.calls ++ (if self.wholeBufferRequested srcBox dst = true then
        [Call.getGLOriginFormat dst.format] else []) ∧
      GLHardwarePixelBuffer.blitToMemory env vt self srcBox dst w =
        GLHardwarePixelBuffer.blitToMemoryViaBuffer env vt self srcBox dst w1 := by
  unfold GLHardwarePixelBuffer.blitToMemory
  simp only [GLHardwarePixelBuffer.buffer_contains, h, Bool.not_true, Bool.false_eq_true,
    if_false]
  by_cases hw : self.wholeBufferRequested srcBox dst = true
  · have hp : env.getGLOriginFormat dst.format = 0 := by
      by_contra hne
      exact hn ⟨hw, hne⟩
    refine ⟨w.log (Call.getGLOriginFormat dst.format), rfl, ?_, ?_⟩
    · simp [hw, World.log]
    · simp [hw, GLPixelUtil.getGLOriginFormat, hp]
  · refine ⟨w, rfl, ?_, ?_⟩
    · simp [hw]
    · simp [hw]

/-- The direct case of `blitToMemory`: the whole buffer is requested in a format with a
native transfer format, and `download(dst)` is called at once. -/
theorem GLHardwarePixelBuffer.blitToMemory_direct (env : Env) (vt : Primitives)
    (self : GLHardwarePixelBuffer) (srcBox : Box) (dst : PixelBox) (w : World)
    (h : self.mBuffer.contains srcBox = true)
    (hd : self.wholeBufferRequested srcBox dst = true ∧
      env.getGLOriginFormat dst.format ≠ 0) :
    GLHardwarePixelBuffer.blitToMemory env vt self srcBox dst w =
      GLHardwarePixelBuffer.download vt dst (w.log (Call.getGLOriginFormat dst.format)) := by
  have hp : (env.getGLOriginFormat dst.format != 0) = true := by
    simpa [bne_iff_ne] using hd.2
  unfold GLHardwarePixelBuffer.blitToMemory
  simp [GLHardwarePixelBuffer.buffer_contains, h, hd.1, GLPixelUtil.getGLOriginFormat, hp]

/-- Outside the direct case `blitToMemory` copies through the shadow buffer: the calls
recorded when `download` returns, and the calls recorded when it fails. -/
theorem GLHardwarePixelBuffer.blitToMemory_slow (env : Env) (vt : Primitives)
    (self : GLHardwarePixelBuffer) (srcBox : Box) (dst : PixelBox) (w : World)
    (h : self.mBuffer.contains srcBox = true)
    (hn : ¬ (self.wholeBufferRequested srcBox dst = true ∧
      env.getGLOriginFormat dst.format ≠ 0)) :
    ((vt.download { self.mBuffer with data := Pointer.shadow } w.gl).thrown = none →
      (GLHardwarePixelBuffer.blitToMemory env vt self srcBox dst w).thrown = none ∧
      (GLHardwarePixelBuffer.blitToMemory env vt self srcBox dst w).world.shadowAllocated =
        false ∧
      (GLHardwarePixelBuffer.blitToMemory env vt self srcBox dst w).world.calls =
        w.calls ++
          (if self.wholeBufferRequested srcBox dst = true then
            [Call.getGLOriginFormat dst.format] else []) ++
          [Call.allocateBuffer,
            Call.download { self.mBuffer with data := Pointer.shadow },
            if srcBox.getWidth ≠ dst.getWidth ∨ srcBox.getHeight ≠ dst.getHeight ∨
                srcBox.getDepth ≠ dst.getDepth then
              Call.scale
                (PixelBox.getSubVolume { self.mBuffer with data := Pointer.shadow } srcBox)
                dst
            else
              Call.bulkPixelConversion
                (PixelBox.getSubVolume { self.mBuffer with data := Pointer.shadow } srcBox)
                dst,
            Call.freeBuffer]) ∧
    (∀ f, (vt.download { self.mBuffer with data := Pointer.shadow } w.gl).thrown = some f →
      (GLHardwarePixelBuffer.blitToMemory env vt self srcBox dst w).world.calls =
        w.calls ++
          (if self.wholeBufferRequested srcBox dst = true then
            [Call.getGLOriginFormat dst.format] else []) ++
          [Call.allocateBuffer,
            Call.download { self.mBuffer with data := Pointer.shadow }]) := by
  obtain ⟨w1, hg, hc, he⟩ :=
    GLHardwarePixelBuffer.blitToMemory_indirect env vt self srcBox dst w h hn
  refine ⟨?_, ?_⟩
  · intro hret
    rw [← hg] at hret
    have hr := GLHardwarePixelBuffer.blitToMemoryViaBuffer_returns env vt self srcBox dst
      w1 hret
    rw [he, hr.1, hr.2.1, hr.2.2, hc]
    exact ⟨rfl, rfl, rfl⟩
  · intro f hfail
    rw [← hg] at hfail
    have hr := GLHardwarePixelBuffer.blitToMemoryViaBuffer_fails env vt self srcBox dst
      w1 f hfail
    rw [he, hr.2.2, hc]

/-- C3. Decision table of `GLHardwarePixelBuffer::blitToMemory` for a contained `srcBox`.
The whole buffer is requested iff `srcBox` is (0,0,0)-(width,height,depth) and `dst` has
the width, height and depth of the buffer.  The recorded calls are the format probe and
`download(dst)` alone (no allocation, resample or conversion) if and only if the whole
buffer is requested and `dst.format` has a native transfer format.  In every other case
the shadow buffer is allocated and `download` is called once on the whole shadow buffer;
when that download returns, the sub-volume `srcBox` of the shadow buffer is resampled into
`dst` once if the extents differ, or bulk converted into `dst` once if they are equal, and
the shadow buffer is freed.  For a texture buffer made by the constructor the download
into its own shadow buffer always returns, so that in every other case the whole sequence
takes place. -/
theorem C3_blitToMemory_decision_table (env : Env) (vt : Primitives)
    (self : GLHardwarePixelBuffer) (srcBox : Box) (dst : PixelBox) (w : World)
    (h : self.mBuffer.contains srcBox = true) :
    (self.wholeBufferRequested srcBox dst = true ↔
      (srcBox.left = 0 ∧ srcBox.right = self.mWidth ∧ srcBox.top = 0 ∧
       srcBox.bottom = self.mHeight ∧ srcBox.front = 0 ∧ srcBox.back = self.mDepth ∧
       dst.getWidth = self.mWidth ∧ dst.getHeight = self.mHeight ∧
       dst.getDepth = self.mDepth)) ∧
    ((GLHardwarePixelBuffer.blitToMemory env vt self srcBox dst w).world.calls =
        w.calls ++ [Call.getGLOriginFormat dst.format, Call.download dst] ↔
      (self.wholeBufferRequested srcBox dst = true ∧
        env.getGLOriginFormat dst.format ≠ 0)) ∧
    ((self.wholeBufferRequested srcBox dst = true ∧ env.getGLOriginFormat dst.format ≠ 0) →
      (GLHardwarePixelBuffer.blitToMemory env vt self srcBox dst w).world.shadowAllocated =
        w.shadowAllocated) ∧
    (¬ (self.wholeBufferRequested srcBox dst = true ∧
        env.getGLOriginFormat dst.format ≠ 0) →
      ((vt.download { self.mBuffer with data := Pointer.shadow } w.gl).thrown = none →
        (GLHardwarePixelBuffer.blitToMemory env vt self srcBox dst w).thrown = none ∧
        (GLHardwarePixelBuffer.blitToMemory env vt self srcBox dst w).world.shadowAllocated =
          false ∧
        (GLHardwarePixelBuffer.blitToMemory env vt self srcBox dst w).world.calls =
          w.calls ++
            (if self.wholeBufferRequested srcBox dst = true then
              [Call.getGLOriginFormat dst.format] else []) ++
            [Call.allocateBuffer,
              Call.download { self.mBuffer with data := Pointer.shadow },
              if srcBox.getWidth ≠ dst.getWidth ∨ srcBox.getHeight ≠ dst.getHeight ∨
                  srcBox.getDepth ≠ dst.getDepth then
                Call.scale
                  (PixelBox.getSubVolume { self.mBuffer with data := Pointer.shadow } srcBox)
                  dst
              else
                Call.bulkPixelConversion
                  (PixelBox.getSubVolume { self.mBuffer with data := Pointer.shadow } srcBox)
                  dst,
              Call.freeBuffer]) ∧
      (∀ f, (vt.download { self.mBuffer with data := Pointer.shadow } w.gl).thrown = some f →
        (GLHardwarePixelBuffer.blitToMemory env vt self srcBox dst w).world.calls =
          w.calls ++
            (if self.wholeBufferRequested srcBox dst = true then
              [Call.getGLOriginFormat dst.format] else []) ++
            [Call.allocateBuffer,
              Call.download { self.mBuffer with data := Pointer.shadow }])) ∧
    (∀ (target : GLenum) (id : GLuint) (face level : Int) (usage : Nat) (writeGamma : Bool)
        (fsaa : Nat) (w0 : World) (tex : GLTextureBuffer),
      tex = (GLTextureBuffer.new env target id face level usage writeGamma fsaa w0).1 →
      tex.mBuffer.contains srcBox = true →
      ¬ (tex.wholeBufferRequested srcBox dst = true ∧
        env.getGLOriginFormat dst.format ≠ 0) →
      (GLHardwarePixelBuffer.blitToMemory env (tex.primitives env)
        tex.toGLHardwarePixelBuffer srcBox dst w).thrown = none ∧
      (GLHardwarePixelBuffer.blitToMemory env (tex.primitives env)
        tex.toGLHardwarePixelBuffer srcBox dst w).world.shadowAllocated = false ∧
      (GLHardwarePixelBuffer.blitToMemory env (tex.primitives env)
        tex.toGLHardwarePixelBuffer srcBox dst w).world.calls =
        w.calls ++
          (if tex.wholeBufferRequested srcBox dst = true then
            [Call.getGLOriginFormat dst.format] else []) ++
          [Call.allocateBuffer,
            Call.download { tex.mBuffer with data := Pointer.shadow },
            if srcBox.getWidth ≠ dst.getWidth ∨ srcBox.getHeight ≠ dst.getHeight ∨
                srcBox.getDepth ≠ dst.getDepth then
              Call.scale
                (PixelBox.getSubVolume { tex.mBuffer with data := Pointer.shadow } srcBox)
                dst
            else
              Call.bulkPixelConversion
                (PixelBox.getSubVolume { tex.mBuffer with data := Pointer.shadow } srcBox)
                dst,
            Call.freeBuffer]) := by
  have part4 := GLHardwarePixelBuffer.blitToMemory_slow env vt self srcBox dst w h
  have part2 := GLHardwarePixelBuffer.blitToMemory_direct env vt self srcBox dst w h
  refine ⟨?_, ?_, ?_, part4, ?_⟩
  · unfold GLHardwarePixelBuffer.wholeBufferRequested GLHardwarePixelBuffer.getWidth
      GLHardwarePixelBuffer.getHeight GLHardwarePixelBuffer.getDepth
    simp [and_assoc]
  · constructor
    · intro hcalls
      by_contra hn
      have h4 := part4 hn
      cases hth : (vt.download { self.mBuffer with data := Pointer.shadow } w.gl).thrown with
      | none =>
        have hc := (h4.1 hth).2.2
        rw [hc, List.append_assoc] at hcalls
        have := List.append_cancel_left hcalls
        split at this <;> simp at this
      | some f =>
        have hc := h4.2 f hth
        rw [hc, List.append_assoc] at hcalls
        have := List.append_cancel_left hcalls
        split at this <;> simp at this
    · intro hd
      rw [part2 hd]
      simp [GLHardwarePixelBuffer.download, World.runGL, World.log]
  · intro hd
    rw [part2 hd]
    rfl
  · intro target id face level usage writeGamma fsaa w0 tex htex hcont hn
    have hret : ((tex.primitives env).download { tex.mBuffer with data := Pointer.shadow }
        w.gl).thrown = none := by
      subst htex
      exact GLTextureBuffer.download_shadow env _ w.gl rfl
    exact (GLHardwarePixelBuffer.blitToMemory_slow env (tex.primitives env)
      tex.toGLHardwarePixelBuffer srcBox dst w hcont hn).1 hret

/-- Scenario 3 of the specification: a 16x16x1 buffer, the sub-box (0,0)-(8,8) and an 8x8
destination of native format.  The shadow buffer is allocated, the whole buffer is
downloaded, the 8x8 sub-volume is bulk converted once, and the shadow buffer is freed. -/
theorem C3_blitToMemory_decision_table_witness :
    buffer16x16.mBuffer.contains (Box.ofCorners 0 0 0 8 8 1) = true ∧
    (GLHardwarePixelBuffer.blitToMemory sampleEnv quietPrimitives buffer16x16
        (Box.ofCorners 0 0 0 8 8 1) (clientBox 8 8 1 1) emptyWorld).world.calls =
      [Call.allocateBuffer,
        Call.download (PixelBox.ofExtent 16 16 1 1 Pointer.shadow),
        Call.bulkPixelConversion
          { PixelBox.ofExtent 8 8 1 1 Pointer.shadow with rowPitch := 16, slicePitch := 256 }
          (clientBox 8 8 1 1),
        Call.freeBuffer] ∧
    (GLHardwarePixelBuffer.blitToMemory sampleEnv quietPrimitives buffer16x16
        (Box.ofCorners 0 0 0 8 8 1) (clientBox 8 8 1 1) emptyWorld).world.shadowAllocated =
      false :=
  ⟨by decide,
   ((((C3_blitToMemory_decision_table sampleEnv quietPrimitives buffer16x16
      (Box.ofCorners 0 0 0 8 8 1) (clientBox 8 8 1 1) emptyWorld (by decide)).2.2.2.1
        (by decide)).1 (by decide)).2.2).trans (by decide),
   (((C3_blitToMemory_decision_table sampleEnv quietPrimitives buffer16x16
      (Box.ofCorners 0 0 0 8 8 1) (clientBox 8 8 1 1) emptyWorld (by decide)).2.2.2.1
        (by decide)).1 (by decide)).2.1⟩

/-! ### The shadow buffer -/

/-- After `GLHardwarePixelBuffer::blitFromMemory` on a contained box the shadow buffer is
allocated exactly when the call ended with a failure. -/
theorem GLHardwarePixelBuffer.blitFromMemory_shadow (env : Env) (vt : Primitives)
    (self : GLHardwarePixelBuffer) (src : PixelBox) (box : Box) (w : World)
    (h : self.mBuffer.contains box = true) :
    (GLHardwarePixelBuffer.blitFromMemory env vt self src box w).world.shadowAllocated =
      (GLHardwarePixelBuffer.blitFromMemory env vt self src box w).thrown.isSome := by
  unfold GLHardwarePixelBuffer.blitFromMemory
  simp only [GLHardwarePixelBuffer.buffer_contains, h, Bool.not_true, Bool.false_eq_true,
    if_false]
  split
  · rw [(GLHardwarePixelBuffer.upload_then_free _ _ _ _).1,
      (GLHardwarePixelBuffer.upload_then_free _ _ _ _).2.2.1]
    cases (vt.upload _ box _).thrown <;>
      simp [Image.scale, GLHardwarePixelBuffer.allocateBuffer]
  · split
    · rw [(GLHardwarePixelBuffer.upload_then_free _ _ _ _).1,
        (GLHardwarePixelBuffer.upload_then_free _ _ _ _).2.2.1]
      cases (vt.upload _ box _).thrown <;>
        simp [PixelUtil.bulkPixelConversion, GLHardwarePixelBuffer.allocateBuffer]
    · rw [(GLHardwarePixelBuffer.upload_then_free _ _ _ _).1,
        (GLHardwarePixelBuffer.upload_then_free _ _ _ _).2.2.1]
      cases (vt.upload _ box _).thrown <;>
        simp [GLHardwarePixelBuffer.allocateBuffer]

/-- After the copy through the shadow buffer the shadow buffer is allocated exactly when
the copy ended with a failure. -/
theorem GLHardwarePixelBuffer.blitToMemoryViaBuffer_shadow (env : Env) (vt : Primitives)
    (self : GLHardwarePixelBuffer) (srcBox : Box) (dst : PixelBox) (w : World) :
    (GLHardwarePixelBuffer.blitToMemoryViaBuffer env vt self srcBox dst w).world.shadowAllocated
      = (GLHardwarePixelBuffer.blitToMemoryViaBuffer env vt self srcBox dst w).thrown.isSome := by
  cases hth : (vt.download { self.mBuffer with data := Pointer.shadow } w.gl).thrown with
  | none =>
    have hr := GLHardwarePixelBuffer.blitToMemoryViaBuffer_returns env vt self srcBox dst w hth
    rw [hr.1, hr.2.1]
    rfl
  | some f =>
    have hr := GLHardwarePixelBuffer.blitToMemoryViaBuffer_fails env vt self srcBox dst w f hth
    rw [hr.1, hr.2.1]
    rfl

/-- C4 as stated fails.  A compressed source of format `3` is blitted into the 4x4 texture
buffer of format `1`: the extents match and the format has a native transfer format, so
the buffer is allocated and `upload` is called with the source; `upload` raises
InvalidParameters and the call ends with the shadow buffer allocated, `freeBuffer` not
called. -/
theorem C4_scoped_shadow_buffer_counterexample :
    emptyWorld.shadowAllocated = false ∧
    texture4x4.mBuffer.contains (Box.ofCorners 0 0 0 4 4 1) = true ∧
    (GLHardwarePixelBuffer.blitFromMemory sampleEnv (texture4x4.primitives sampleEnv)
        texture4x4.toGLHardwarePixelBuffer (clientBox 4 4 1 3) (Box.ofCorners 0 0 0 4 4 1)
        emptyWorld).thrown =
      some (Failure.ogreExcept .ERR_INVALIDPARAMS .compressedImagesMustBeConsecutive
        .GLTextureBuffer_upload) ∧
    (GLHardwarePixelBuffer.blitFromMemory sampleEnv (texture4x4.primitives sampleEnv)
        texture4x4.toGLHardwarePixelBuffer (clientBox 4 4 1 3) (Box.ofCorners 0 0 0 4 4 1)
        emptyWorld).world.calls =
      [Call.getGLOriginFormat 3, Call.allocateBuffer,
        Call.upload (clientBox 4 4 1 3) (Box.ofCorners 0 0 0 4 4 1)] ∧
    (GLHardwarePixelBuffer.blitFromMemory sampleEnv (texture4x4.primitives sampleEnv)
        texture4x4.toGLHardwarePixelBuffer (clientBox 4 4 1 3) (Box.ofCorners 0 0 0 4 4 1)
        emptyWorld).world.shadowAllocated = true := by
  decide

/-- C4, amended.  A call of `GLHardwarePixelBuffer::blitFromMemory`, or of
`GLHardwarePixelBuffer::blitToMemory` outside its direct case, allocates the shadow buffer;
the buffer is freed again when the call returns normally, and it is still allocated when
the call ends with a failure of `upload` (respectively `download`). -/
theorem C4_scoped_shadow_buffer (env : Env) (vt : Primitives)
    (self : GLHardwarePixelBuffer) (pb : PixelBox) (box : Box) (w : World)
    (h : self.mBuffer.contains box = true) :
    ((GLHardwarePixelBuffer.blitFromMemory env vt self pb box w).thrown = none →
      (GLHardwarePixelBuffer.blitFromMemory env vt self pb box w).world.shadowAllocated =
        false) ∧
    (∀ f, (GLHardwarePixelBuffer.blitFromMemory env vt self pb box w).thrown = some f →
      (GLHardwarePixelBuffer.blitFromMemory env vt self pb box w).world.shadowAllocated =
        true) ∧
    (¬ (self.wholeBufferRequested box pb = true ∧ env.getGLOriginFormat pb.format ≠ 0) →
      ((GLHardwarePixelBuffer.blitToMemory env vt self box pb w).thrown = none →
        (GLHardwarePixelBuffer.blitToMemory env vt self box pb w).world.shadowAllocated =
          false) ∧
      (∀ f, (GLHardwarePixelBuffer.blitToMemory env vt self box pb w).thrown = some f →
        (GLHardwarePixelBuffer.blitToMemory env vt self box pb w).world.shadowAllocated =
          true)) := by
  refine ⟨?_, ?_, ?_⟩
  · intro hn
    rw [GLHardwarePixelBuffer.blitFromMemory_shadow env vt self pb box w h, hn]
    rfl
  · intro f hf
    rw [GLHardwarePixelBuffer.blitFromMemory_shadow env vt self pb box w h, hf]
    rfl
  · intro hn
    obtain ⟨w1, _, _, he⟩ :=
      GLHardwarePixelBuffer.blitToMemory_indirect env vt self box pb w h hn
    rw [he, GLHardwarePixelBuffer.blitToMemoryViaBuffer_shadow]
    constructor
    · intro h0
      rw [h0]
      rfl
    · intro f hf
      rw [hf]
      rfl

/-- Both exits of C4 at concrete inputs: the blit of a 4x4 source of format `1` into the
4x4 texture buffer returns with the shadow buffer freed, the blit of the compressed
source ends with a failure and the shadow buffer allocated, and so does the read back of a
sub-box from a buffer whose `download` fails. -/
theorem C4_scoped_shadow_buffer_witness :
    texture4x4.mBuffer.contains (Box.ofCorners 0 0 0 4 4 1) = true ∧
    buffer16x16.mBuffer.contains (Box.ofCorners 0 0 0 8 8 1) = true ∧
    (GLHardwarePixelBuffer.blitToMemory sampleEnv failingPrimitives buffer16x16
        (Box.ofCorners 0 0 0 8 8 1) (clientBox 8 8 1 1) emptyWorld).world.shadowAllocated =
      true ∧
    (GLHardwarePixelBuffer.blitFromMemory sampleEnv (texture4x4.primitives sampleEnv)
        texture4x4.toGLHardwarePixelBuffer (clientBox 4 4 1 1) (Box.ofCorners 0 0 0 4 4 1)
        emptyWorld).world.shadowAllocated = false ∧
    (GLHardwarePixelBuffer.blitFromMemory sampleEnv (texture4x4.primitives sampleEnv)
        texture4x4.toGLHardwarePixelBuffer (clientBox 4 4 1 3) (Box.ofCorners 0 0 0 4 4 1)
        emptyWorld).world.shadowAllocated = true :=
  ⟨by decide, by decide,
   ((C4_scoped_shadow_buffer sampleEnv failingPrimitives buffer16x16 (clientBox 8 8 1 1)
      (Box.ofCorners 0 0 0 8 8 1) emptyWorld (by decide)).2.2 (by decide)).2
        (Failure.ogreExcept .ERR_RENDERINGAPI_ERROR (.other 1) (.other 1)) (by decide),
   (C4_scoped_shadow_buffer sampleEnv (texture4x4.primitives sampleEnv)
      texture4x4.toGLHardwarePixelBuffer (clientBox 4 4 1 1) (Box.ofCorners 0 0 0 4 4 1)
      emptyWorld (by decide)).1 (by decide),
   (C4_scoped_shadow_buffer sampleEnv (texture4x4.primitives sampleEnv)
      texture4x4.toGLHardwarePixelBuffer (clientBox 4 4 1 3) (Box.ofCorners 0 0 0 4 4 1)
      emptyWorld (by decide)).2.1
        (Failure.ogreExcept .ERR_INVALIDPARAMS .compressedImagesMustBeConsecutive
          .GLTextureBuffer_upload) (by decide)⟩

/-- The pass-through branch of `blitFromMemory`: equal extents and a native transfer
format.  The probe, `allocateBuffer` and one `upload(src, dstBox)` are recorded, the
primitive runs in the context of the call, and `freeBuffer` follows when it returns. -/
theorem GLHardwarePixelBuffer.blitFromMemory_passThrough (env : Env) (vt : Primitives)
    (self : GLHardwarePixelBuffer) (src : PixelBox) (dstBox : Box) (w : World)
    (h : self.mBuffer.contains dstBox = true)
    (hw : src.getWidth = dstBox.getWidth) (hh : src.getHeight = dstBox.getHeight)
    (hd : src.getDepth = dstBox.getDepth)
    (hf : env.getGLOriginFormat src.format ≠ 0) :
    (GLHardwarePixelBuffer.blitFromMemory env vt self src dstBox w).thrown =
      (vt.upload src dstBox w.gl).thrown ∧
    (GLHardwarePixelBuffer.blitFromMemory env vt self src dstBox w).world.gl =
      (vt.upload src dstBox w.gl).gl ∧
    (GLHardwarePixelBuffer.blitFromMemory env vt self src dstBox w).world.calls =
      w.calls ++ [Call.getGLOriginFormat src.format, Call.allocateBuffer,
        Call.upload src dstBox] ++
        (if (vt.upload src dstBox w.gl).thrown.isNone then [Call.freeBuffer] else []) ∧
    ((vt.upload src dstBox w.gl).thrown = none →
      (GLHardwarePixelBuffer.blitFromMemory env vt self src dstBox w).world.shadowAllocated =
        false) := by
  have hc : (src.getWidth != dstBox.getWidth || src.getHeight != dstBox.getHeight ||
      src.getDepth != dstBox.getDepth) = false := by
    simp [hw, hh, hd]
  have hp2 : (env.getGLOriginFormat src.format == 0) = false := by
    simpa using hf
  unfold GLHardwarePixelBuffer.blitFromMemory
  simp only [GLHardwarePixelBuffer.buffer_contains, h, Bool.not_true, Bool.false_eq_true,
    if_false, hc, GLPixelUtil.getGLOriginFormat, hp2]
  rw [(GLHardwarePixelBuffer.upload_then_free _ _ _ _).1,
    (GLHardwarePixelBuffer.upload_then_free _ _ _ _).2.1,
    (GLHardwarePixelBuffer.upload_then_free _ _ _ _).2.2.1,
    (GLHardwarePixelBuffer.upload_then_free _ _ _ _).2.2.2]
  refine ⟨rfl, rfl, ?_, ?_⟩
  · simp [GLHardwarePixelBuffer.allocateBuffer, World.log]
  · intro h0
    simp [h0, GLHardwarePixelBuffer.allocateBuffer, World.log]

/-- C5 as stated fails.  Scenario 1 of the specification: the 4x4x1 texture buffer of
format `1`, a 4x4 source of the same format and the full box.  `upload` is called once
with the source itself and the full box, but `allocateBuffer` has been called before it:
the pass-through branch allocates the shadow buffer as the other two branches do. -/
theorem C5_pass_through_counterexample :
    texture4x4.mBuffer.contains (Box.ofCorners 0 0 0 4 4 1) = true ∧
    (clientBox 4 4 1 1).getWidth = (Box.ofCorners 0 0 0 4 4 1).getWidth ∧
    (clientBox 4 4 1 1).getHeight = (Box.ofCorners 0 0 0 4 4 1).getHeight ∧
    (clientBox 4 4 1 1).getDepth = (Box.ofCorners 0 0 0 4 4 1).getDepth ∧
    sampleEnv.getGLOriginFormat (clientBox 4 4 1 1).format ≠ 0 ∧
    (GLHardwarePixelBuffer.blitFromMemory sampleEnv (texture4x4.primitives sampleEnv)
        texture4x4.toGLHardwarePixelBuffer (clientBox 4 4 1 1) (Box.ofCorners 0 0 0 4 4 1)
        emptyWorld).world.calls =
      [Call.getGLOriginFormat 1, Call.allocateBuffer,
        Call.upload (clientBox 4 4 1 1) (Box.ofCorners 0 0 0 4 4 1), Call.freeBuffer] ∧
    Call.allocateBuffer ∈
      (GLHardwarePixelBuffer.blitFromMemory sampleEnv (texture4x4.primitives sampleEnv)
        texture4x4.toGLHardwarePixelBuffer (clientBox 4 4 1 1) (Box.ofCorners 0 0 0 4 4 1)
        emptyWorld).world.calls := by
  decide

/-- C5, amended.  When `src` has the width, height and depth of the contained `dstBox` and
`src.format` has a native transfer format, `upload` is called exactly once, with `src`
itself and `dstBox`.  The shadow buffer is allocated by one call of `allocateBuffer`
before the upload, but nothing is resampled or converted into it: `upload` runs in the
graphics context and client memory of the call.  The buffer is freed when `upload`
returns. -/
theorem C5_pass_through (env : Env) (vt : Primitives) (self : GLHardwarePixelBuffer)
    (src : PixelBox) (dstBox : Box) (w : World)
    (h : self.mBuffer.contains dstBox = true)
    (hw : src.getWidth = dstBox.getWidth) (hh : src.getHeight = dstBox.getHeight)
    (hd : src.getDepth = dstBox.getDepth)
    (hf : env.getGLOriginFormat src.format ≠ 0) :
    (GLHardwarePixelBuffer.blitFromMemory env vt self src dstBox w).thrown =
      (vt.upload src dstBox w.gl).thrown ∧
    (GLHardwarePixelBuffer.blitFromMemory env vt self src dstBox w).world.gl =
      (vt.upload src dstBox w.gl).gl ∧
    (GLHardwarePixelBuffer.blitFromMemory env vt self src dstBox w).world.calls =
      w.calls ++ [Call.getGLOriginFormat src.format, Call.allocateBuffer,
        Call.upload src dstBox] ++
        (if (vt.upload src dstBox w.gl).thrown.isNone then [Call.freeBuffer] else []) ∧
    ((vt.upload src dstBox w.gl).thrown = none →
      (GLHardwarePixelBuffer.blitFromMemory env vt self src dstBox w).world.shadowAllocated =
        false) :=
  GLHardwarePixelBuffer.blitFromMemory_passThrough env vt self src dstBox w h hw hh hd hf

/-- Scenario 1 of the specification through the amended C5: one `upload` with the source
and the full box, after `allocateBuffer` and before `freeBuffer`. -/
theorem C5_pass_through_witness :
    texture4x4.mBuffer.contains (Box.ofCorners 0 0 0 4 4 1) = true ∧
    (GLHardwarePixelBuffer.blitFromMemory sampleEnv (texture4x4.primitives sampleEnv)
        texture4x4.toGLHardwarePixelBuffer (clientBox 4 4 1 1) (Box.ofCorners 0 0 0 4 4 1)
        emptyWorld).world.calls =
      [Call.getGLOriginFormat 1, Call.allocateBuffer,
        Call.upload (clientBox 4 4 1 1) (Box.ofCorners 0 0 0 4 4 1), Call.freeBuffer] ∧
    (GLHardwarePixelBuffer.blitFromMemory sampleEnv (texture4x4.primitives sampleEnv)
        texture4x4.toGLHardwarePixelBuffer (clientBox 4 4 1 1) (Box.ofCorners 0 0 0 4 4 1)
        emptyWorld).world.shadowAllocated = false :=
  ⟨by decide,
   ((C5_pass_through sampleEnv (texture4x4.primitives sampleEnv)
      texture4x4.toGLHardwarePixelBuffer (clientBox 4 4 1 1) (Box.ofCorners 0 0 0 4 4 1)
      emptyWorld (by decide) (by decide) (by decide) (by decide) (by decide)).2.2.1).trans
      (by decide),
   (C5_pass_through sampleEnv (texture4x4.primitives sampleEnv)
      texture4x4.toGLHardwarePixelBuffer (clientBox 4 4 1 1) (Box.ofCorners 0 0 0 4 4 1)
      emptyWorld (by decide) (by decide) (by decide) (by decide) (by decide)).2.2.2
      (by decide)⟩

/-! ### Round trip through the content model -/

/-- C7. Compressed transfer validation.  For a data box of a compressed format that
differs from the format of the buffer or is not consecutive, `GLTextureBuffer::upload`
ends with InvalidParameters having issued the texture bind alone, and
`GLTextureBuffer::download` ends with InvalidParameters having issued nothing or the
texture bind alone: no transfer call and no pixel store change.  When the format matches
and the box is consecutive, `upload` returns, and `download` returns if the box has the
extent of the buffer. -/
theorem C7_compressed_transfer_validation (env : Env) (self : GLTextureBuffer)
    (data : PixelBox) (dest : Box) (g : GLWorld)
    (hc : env.isCompressed data.format = true) :
    ((data.format ≠ self.mFormat ∨ data.isConsecutive = false) →
      self.upload env data dest g =
        { gl := g.issue (.bindGLTexture self.mTarget self.mTextureID),
          thrown := some (Failure.ogreExcept .ERR_INVALIDPARAMS
            .compressedImagesMustBeConsecutive .GLTextureBuffer_upload) } ∧
      (∃ d o, (self.download env data g).thrown =
        some (Failure.ogreExcept .ERR_INVALIDPARAMS d o)) ∧
      ((self.download env data g).gl = g ∨
       (self.download env data g).gl =
         g.issue (.bindGLTexture self.mTarget self.mTextureID))) ∧
    ((data.format = self.mFormat ∧ data.isConsecutive = true) →
      (self.upload env data dest g).thrown = none ∧
      ((data.getWidth = self.mWidth ∧ data.getHeight = self.mHeight ∧
          data.getDepth = self.mDepth) →
        (self.download env data g).thrown = none)) := by
  constructor
  · intro hbad
    have hbad2 : data.format ≠ self.mFormat ∨ (!data.isConsecutive) = true := by
      rcases hbad with h1 | h1
      · exact Or.inl h1
      · exact Or.inr (by simp [h1])
    refine ⟨?_, ?_, ?_⟩
    · unfold GLTextureBuffer.upload
      simp only [hc, if_true, hbad2]
    · unfold GLTextureBuffer.download
      split
      · exact ⟨_, _, rfl⟩
      · simp only [hc, if_true, hbad2]
        exact ⟨_, _, rfl⟩
    · unfold GLTextureBuffer.download
      split
      · exact Or.inl rfl
      · simp only [hc, if_true, hbad2]
        exact Or.inr trivial
  · intro hgood
    have hgood2 : ¬ (data.format ≠ self.mFormat ∨ (!data.isConsecutive) = true) := by
      simp [hgood.1, hgood.2]
    refine ⟨?_, ?_⟩
    · unfold GLTextureBuffer.upload
      simp only [hc, if_true, hgood2, if_false]
      rfl
    · intro hext
      have hext2 : ¬ (data.getWidth ≠ self.getWidth ∨ data.getHeight ≠ self.getHeight ∨
          data.getDepth ≠ self.getDepth) := by
        simp [GLHardwarePixelBuffer.getWidth, GLHardwarePixelBuffer.getHeight,
          GLHardwarePixelBuffer.getDepth, hext.1, hext.2.1, hext.2.2]
      unfold GLTextureBuffer.download
      simp only [hext2, if_false, hc, if_true, hgood2]
      rfl

/-- C7 at concrete inputs: a compressed box with a row pitch of 8 for a width of 4 is
refused by `upload` and `download` of the compressed 1D texture buffer before any command
but the bind, and the consecutive box is accepted by both. -/
theorem C7_compressed_transfer_validation_witness :
    compressedEnv.isCompressed (clientBox 4 1 1 3).format = true ∧
    (compressedTexture1D.upload compressedEnv { clientBox 4 1 1 3 with rowPitch := 8 }
        (Box.ofCorners 0 0 0 4 1 1) emptyGL).gl.commands =
      [GLCommand.bindGLTexture GL_TEXTURE_1D 1] ∧
    (compressedTexture1D.upload compressedEnv (clientBox 4 1 1 3)
        (Box.ofCorners 0 0 0 4 1 1) emptyGL).thrown = none ∧
    (compressedTexture1D.download compressedEnv (clientBox 4 1 1 3) emptyGL).thrown = none :=
  ⟨by decide,
   congrArg (fun r : GLResult => r.gl.commands)
     ((C7_compressed_transfer_validation compressedEnv compressedTexture1D
       { clientBox 4 1 1 3 with rowPitch := 8 } (Box.ofCorners 0 0 0 4 1 1) emptyGL
       (by decide)).1 (Or.inr (by decide))).1,
   ((C7_compressed_transfer_validation compressedEnv compressedTexture1D (clientBox 4 1 1 3)
       (Box.ofCorners 0 0 0 4 1 1) emptyGL (by decide)).2 ⟨by decide, by decide⟩).1,
   ((C7_compressed_transfer_validation compressedEnv compressedTexture1D (clientBox 4 1 1 3)
       (Box.ofCorners 0 0 0 4 1 1) emptyGL (by decide)).2 ⟨by decide, by decide⟩).2
     ⟨by decide, by decide, by decide⟩⟩

/-- The end of `upload` issues no whole-image compressed transfer. -/
theorem GLTextureBuffer.uploadFinish_countP_image (env : Env) (self : GLTextureBuffer)
    (g : GLWorld) :
    List.countP GLCommand.isCompressedImage (self.uploadFinish env g).commands =
      List.countP GLCommand.isCompressedImage g.commands := by
  unfold GLTextureBuffer.uploadFinish glPixelStorei GLWorld.issue
  simp only []
  split <;> split <;> simp [List.countP_append, GLCommand.isCompressedImage]

/-- The end of `upload` issues no sub-image compressed transfer. -/
theorem GLTextureBuffer.uploadFinish_countP_subImage (env : Env) (self : GLTextureBuffer)
    (g : GLWorld) :
    List.countP GLCommand.isCompressedSubImage (self.uploadFinish env g).commands =
      List.countP GLCommand.isCompressedSubImage g.commands := by
  unfold GLTextureBuffer.uploadFinish glPixelStorei GLWorld.issue
  simp only []
  split <;> split <;> simp [List.countP_append, GLCommand.isCompressedSubImage]

/-- A valid compressed upload: the bind, the compressed transfer, the end of `upload`. -/
theorem GLTextureBuffer.upload_compressed_valid (env : Env) (self : GLTextureBuffer)
    (data : PixelBox) (dest : Box) (g : GLWorld)
    (hc : env.isCompressed data.format = true) (hf : data.format = self.mFormat)
    (hcons : data.isConsecutive = true) :
    self.upload env data dest g =
      GLResult.ok (self.uploadFinish env (self.uploadCompressed env data dest
        (g.issue (.bindGLTexture self.mTarget self.mTextureID)))) := by
  have hgood2 : ¬ (data.format ≠ self.mFormat ∨ (!data.isConsecutive) = true) := by
    simp [hf, hcons]
  unfold GLTextureBuffer.upload
  simp only [hc, if_true, hgood2, if_false]

/-- The extent the constructor resolves: height 1 for a 1D target, depth 1 for a target
other than 3D and 2D array. -/
theorem GLTextureBuffer.new_extent (env : Env) (target : GLenum) (id : GLuint)
    (face level : Int) (usage : Nat) (writeGamma : Bool) (fsaa : Nat) (w : World) :
    (GLTextureBuffer.new env target id face level usage writeGamma fsaa w).1.mTarget = target ∧
    (target = GL_TEXTURE_1D →
      (GLTextureBuffer.new env target id face level usage writeGamma fsaa w).1.mBuffer.bottom
        = 1) ∧
    ((target ≠ GL_TEXTURE_3D ∧ target ≠ GL_TEXTURE_2D_ARRAY_EXT) →
      (GLTextureBuffer.new env target id face level usage writeGamma fsaa w).1.mBuffer.back
        = 1) := by
  refine ⟨rfl, ?_, ?_⟩
  · intro h
    simp [GLTextureBuffer.new, PixelBox.ofExtent, h]
  · intro h
    simp [GLTextureBuffer.new, PixelBox.ofExtent, h]

/-- C8 as stated fails.  The compressed 1D texture buffer has extent 4x1x1.  The box with
left 0, top 1, bottom 1 (no rows) is contained in that extent and does not start at the
origin, yet the valid compressed upload tests `dest.left == 0` alone for a 1D target and
issues the whole-image call, not the sub-image call. -/
theorem C8_compressed_upload_dispatch_counterexample :
    compressedTexture1D.mTarget = GL_TEXTURE_1D ∧
    compressedTexture1D.mBuffer.toBox = Box.ofCorners 0 0 0 4 1 1 ∧
    compressedTexture1D.mBuffer.contains (Box.ofCorners 0 1 0 4 1 1) = true ∧
    ¬ ((Box.ofCorners 0 1 0 4 1 1).left = 0 ∧ (Box.ofCorners 0 1 0 4 1 1).top = 0 ∧
      (Box.ofCorners 0 1 0 4 1 1).front = 0) ∧
    compressedEnv.isCompressed (clientBox 4 1 1 3).format = true ∧
    (clientBox 4 1 1 3).format = compressedTexture1D.mFormat ∧
    (clientBox 4 1 1 3).isConsecutive = true ∧
    (compressedTexture1D.upload compressedEnv (clientBox 4 1 1 3) (Box.ofCorners 0 1 0 4 1 1)
      emptyGL).thrown = none ∧
    List.countP GLCommand.isCompressedSubImage
      (compressedTexture1D.upload compressedEnv (clientBox 4 1 1 3)
        (Box.ofCorners 0 1 0 4 1 1) emptyGL).gl.commands = 0 ∧
    List.countP GLCommand.isCompressedImage
      (compressedTexture1D.upload compressedEnv (clientBox 4 1 1 3)
        (Box.ofCorners 0 1 0 4 1 1) emptyGL).gl.commands = 1 := by
  decide

/-- C8, amended.  For a texture buffer made by the constructor on a 1D, 2D, cube, 3D or
2D array target and a valid compressed upload (matching format, consecutive box): the
upload returns; if `dest` starts at the origin, exactly one whole-image compressed call is
issued and no sub-image call; if `dest` is contained in the extent of the buffer, has at
least one row and one slice (`top < bottom`, `front < back`) and does not start at the
origin, exactly one sub-image compressed call is issued and no whole-image call. -/
theorem C8_compressed_upload_dispatch (env : Env) (target : GLenum) (id : GLuint)
    (face level : Int) (usage : Nat) (writeGamma : Bool) (fsaa : Nat) (w0 : World)
    (tex : GLTextureBuffer) (data : PixelBox) (dest : Box) (g : GLWorld)
    (htex : tex = (GLTextureBuffer.new env target id face level usage writeGamma fsaa w0).1)
    (htarget : target = GL_TEXTURE_1D ∨ target = GL_TEXTURE_2D ∨
      target = GL_TEXTURE_CUBE_MAP ∨ target = GL_TEXTURE_3D ∨
      target = GL_TEXTURE_2D_ARRAY_EXT)
    (hc : env.isCompressed data.format = true) (hf : data.format = tex.mFormat)
    (hcons : data.isConsecutive = true) :
    (tex.upload env data dest g).thrown = none ∧
    ((dest.left = 0 ∧ dest.top = 0 ∧ dest.front = 0) →
      List.countP GLCommand.isCompressedImage (tex.upload env data dest g).gl.commands =
        List.countP GLCommand.isCompressedImage g.commands + 1 ∧
      List.countP GLCommand.isCompressedSubImage (tex.upload env data dest g).gl.commands =
        List.countP GLCommand.isCompressedSubImage g.commands) ∧
    ((tex.mBuffer.contains dest = true ∧ dest.top < dest.bottom ∧ dest.front < dest.back ∧
        ¬ (dest.left = 0 ∧ dest.top = 0 ∧ dest.front = 0)) →
      List.countP GLCommand.isCompressedSubImage (tex.upload env data dest g).gl.commands =
        List.countP GLCommand.isCompressedSubImage g.commands + 1 ∧
      List.countP GLCommand.isCompressedImage (tex.upload env data dest g).gl.commands =
        List.countP GLCommand.isCompressedImage g.commands) := by
  rw [GLTextureBuffer.upload_compressed_valid env tex data dest g hc hf hcons]
  simp only [GLResult.ok, GLTextureBuffer.uploadFinish_countP_image,
    GLTextureBuffer.uploadFinish_countP_subImage]
  have hext := GLTextureBuffer.new_extent env target id face level usage writeGamma fsaa w0
  rw [← htex] at hext
  obtain ⟨ht, h1d, hflat⟩ := hext
  refine ⟨trivial, ?_, ?_⟩
  · rintro ⟨hl, htop, hfr⟩
    unfold GLTextureBuffer.uploadCompressed GLWorld.issue
    rw [ht]
    rcases htarget with h | h | h | h | h <;>
      simp [h, hl, htop, hfr, List.countP_append, GLCommand.isCompressedImage,
        GLCommand.isCompressedSubImage]
  · rintro ⟨hcont, htb, hfb, hno⟩
    have hcont2 : dest.bottom ≤ tex.mBuffer.bottom ∧ dest.back ≤ tex.mBuffer.back := by
      simp [PixelBox.contains, Box.contains] at hcont
      exact ⟨hcont.1.2, hcont.2⟩
    unfold GLTextureBuffer.uploadCompressed GLWorld.issue
    rw [ht]
    rcases htarget with h | h | h | h | h
    · have hb := h1d h
      have hk := hflat (by rw [h]; decide)
      have h0 : dest.top = 0 ∧ dest.front = 0 := by omega
      have hl : dest.left ≠ 0 := fun hl => hno ⟨hl, h0.1, h0.2⟩
      simp [h, hl, List.countP_append, GLCommand.isCompressedImage,
        GLCommand.isCompressedSubImage]
    · have hk := hflat (by rw [h]; decide)
      have h0 : dest.front = 0 := by omega
      have hl : ¬ (dest.left = 0 ∧ dest.top = 0) := fun hl => hno ⟨hl.1, hl.2, h0⟩
      simp [h, hl, List.countP_append, GLCommand.isCompressedImage,
        GLCommand.isCompressedSubImage]
    · have hk := hflat (by rw [h]; decide)
      have h0 : dest.front = 0 := by omega
      have hl : ¬ (dest.left = 0 ∧ dest.top = 0) := fun hl => hno ⟨hl.1, hl.2, h0⟩
      simp [h, hl, List.countP_append, GLCommand.isCompressedImage,
        GLCommand.isCompressedSubImage]
    · simp [h, hno, List.countP_append, GLCommand.isCompressedImage,
        GLCommand.isCompressedSubImage]
    · simp [h, hno, List.countP_append, GLCommand.isCompressedImage,
        GLCommand.isCompressedSubImage]

/-- The amended C8 at concrete inputs: on the compressed 1D texture buffer the box
(0,0,0)-(4,1,1) gives one whole-image call, and the box (2,0,0)-(4,1,1) gives one
sub-image call and no whole-image call. -/
theorem C8_compressed_upload_dispatch_witness :
    List.countP GLCommand.isCompressedImage
      (compressedTexture1D.upload compressedEnv (clientBox 4 1 1 3)
        (Box.ofCorners 0 0 0 4 1 1) emptyGL).gl.commands = 1 ∧
    List.countP GLCommand.isCompressedSubImage
      (compressedTexture1D.upload compressedEnv (clientBox 4 1 1 3)
        (Box.ofCorners 2 0 0 4 1 1) emptyGL).gl.commands = 1 ∧
    List.countP GLCommand.isCompressedImage
      (compressedTexture1D.upload compressedEnv (clientBox 4 1 1 3)
        (Box.ofCorners 2 0 0 4 1 1) emptyGL).gl.commands = 0 :=
  ⟨((C8_compressed_upload_dispatch compressedEnv GL_TEXTURE_1D 1 0 0 HBU_STATIC false 0
      emptyWorld compressedTexture1D (clientBox 4 1 1 3) (Box.ofCorners 0 0 0 4 1 1) emptyGL
      rfl (Or.inl rfl) (by decide) (by decide) (by decide)).2.1
        ⟨by decide, by decide, by decide⟩).1,
   ((C8_compressed_upload_dispatch compressedEnv GL_TEXTURE_1D 1 0 0 HBU_STATIC false 0
      emptyWorld compressedTexture1D (clientBox 4 1 1 3) (Box.ofCorners 2 0 0 4 1 1) emptyGL
      rfl (Or.inl rfl) (by decide) (by decide) (by decide)).2.2
        ⟨by decide, by decide, by decide, by decide⟩).1,
   ((C8_compressed_upload_dispatch compressedEnv GL_TEXTURE_1D 1 0 0 HBU_STATIC false 0
      emptyWorld compressedTexture1D (clientBox 4 1 1 3) (Box.ofCorners 2 0 0 4 1 1) emptyGL
      rfl (Or.inl rfl) (by decide) (by decide) (by decide)).2.2
        ⟨by decide, by decide, by decide, by decide⟩).2⟩

/-- The uncompressed branch of `download` fails exactly on the division by a zero width. -/
theorem GLTextureBuffer.downloadUncompressed_thrown (env : Env) (self : GLTextureBuffer)
    (data : PixelBox) (g : GLWorld) :
    (self.downloadUncompressed env data g).thrown =
      if data.getHeight * data.getWidth ≠ data.slicePitch ∧ data.getWidth = 0 then
        some Failure.divisionByZero else none := by
  unfold GLTextureBuffer.downloadUncompressed
  simp only []
  split <;> rfl

/-- C9. Full-extent download only.  `GLTextureBuffer::download(data)` ends with
InvalidParameters if and only if the width, height or depth of `data` differs from that of
the buffer, or `data` has a compressed format and differs in format from the buffer or is
not consecutive.  On an extent mismatch the failure comes with the graphics context of
the call: no texture bind, pixel store change or read-back call has been issued. -/
theorem C9_full_extent_download (env : Env) (self : GLTextureBuffer) (data : PixelBox)
    (g : GLWorld) :
    ((∃ d o, (self.download env data g).thrown =
        some (Failure.ogreExcept .ERR_INVALIDPARAMS d o)) ↔
      ((data.getWidth ≠ self.mWidth ∨ data.getHeight ≠ self.mHeight ∨
          data.getDepth ≠ self.mDepth) ∨
        (env.isCompressed data.format = true ∧
          (data.format ≠ self.mFormat ∨ data.isConsecutive = false)))) ∧
    ((data.getWidth ≠ self.mWidth ∨ data.getHeight ≠ self.mHeight ∨
        data.getDepth ≠ self.mDepth) →
      self.download env data g =
        { gl := g,
          thrown := some (Failure.ogreExcept .ERR_INVALIDPARAMS .onlyDownloadOfEntireBuffer
            .GLTextureBuffer_download) }) := by
  have hgw : self.getWidth = self.mWidth := rfl
  have hgh : self.getHeight = self.mHeight := rfl
  have hgd : self.getDepth = self.mDepth := rfl
  constructor
  · unfold GLTextureBuffer.download
    rw [hgw, hgh, hgd]
    by_cases hext : data.getWidth ≠ self.mWidth ∨ data.getHeight ≠ self.mHeight ∨
        data.getDepth ≠ self.mDepth
    · simp only [hext, if_true, true_or, iff_true]
      exact ⟨_, _, rfl⟩
    · simp only [hext, if_false, false_or]
      by_cases hc : env.isCompressed data.format = true
      · simp only [hc, if_true, true_and]
        by_cases hbad : data.format ≠ self.mFormat ∨ (!data.isConsecutive) = true
        · simp only [hbad, if_true]
          constructor
          · intro _
            rcases hbad with h1 | h1
            · exact Or.inl h1
            · exact Or.inr (by simpa using h1)
          · intro _
            exact ⟨_, _, rfl⟩
        · simp only [hbad, if_false]
          constructor
          · rintro ⟨d, o, hth⟩
            simp [GLResult.ok] at hth
          · intro h1
            exfalso
            apply hbad
            rcases h1 with h1 | h1
            · exact Or.inl h1
            · exact Or.inr (by simp [h1])
      · simp only [hc, if_false, Bool.false_eq_true, false_and, iff_false]
        rintro ⟨d, o, hth⟩
        rw [GLTextureBuffer.downloadUncompressed_thrown] at hth
        split at hth <;> simp at hth
  · intro hext
    unfold GLTextureBuffer.download
    rw [hgw, hgh, hgd]
    simp only [hext, if_true]

/-- C9 at a concrete input: the download of the 4x4 texture buffer into a 2x2 box ends
with InvalidParameters and no command issued. -/
theorem C9_full_extent_download_witness :
    texture4x4.download sampleEnv (clientBox 2 2 1 1) emptyGL =
      { gl := emptyGL,
        thrown := some (Failure.ogreExcept .ERR_INVALIDPARAMS .onlyDownloadOfEntireBuffer
          .GLTextureBuffer_download) } :=
  (C9_full_extent_download sampleEnv texture4x4 (clientBox 2 2 1 1) emptyGL).2
    (Or.inl (by decide))

/-- The pixel store parameter `q` after `glPixelStorei(pname, param)`. -/
theorem glPixelStorei_pixelStore (pname : GLenum) (param : Nat) (g : GLWorld) (q : GLenum) :
    (glPixelStorei pname param g).pixelStore q =
      if q = pname then param else g.pixelStore q := rfl

/-- The end of `upload` leaves the unpack row length, skip pixels and alignment at 0, 0
and 4. -/
theorem GLTextureBuffer.uploadFinish_pixelStore (env : Env) (self : GLTextureBuffer)
    (g : GLWorld) :
    (self.uploadFinish env g).pixelStore GL_UNPACK_ROW_LENGTH = 0 ∧
    (self.uploadFinish env g).pixelStore GL_UNPACK_SKIP_PIXELS = 0 ∧
    (self.uploadFinish env g).pixelStore GL_UNPACK_ALIGNMENT = 4 := by
  unfold GLTextureBuffer.uploadFinish
  simp only []
  by_cases hv : env.GLEW_VERSION_1_2 = true <;> simp [hv, glPixelStorei_pixelStore]

/-- An upload that returns has run the end of `upload`. -/
theorem GLTextureBuffer.upload_returns (env : Env) (self : GLTextureBuffer)
    (data : PixelBox) (dest : Box) (g : GLWorld)
    (h : (self.upload env data dest g).thrown = none) :
    ∃ g1, (self.upload env data dest g).gl = self.uploadFinish env g1 := by
  unfold GLTextureBuffer.upload at h ⊢
  simp only [] at h ⊢
  by_cases hc : env.isCompressed data.format = true
  · by_cases hbad : data.format ≠ self.mFormat ∨ (!data.isConsecutive) = true
    · simp only [hc, if_true, hbad] at h
      simp at h
    · simp only [hc, if_true, hbad, if_false]
      exact ⟨_, rfl⟩
  · simp only [hc, if_false]
    exact ⟨_, rfl⟩

/-- An uncompressed download that returns leaves the pack row length, skip pixels and
alignment at 0, 0 and 4. -/
theorem GLTextureBuffer.downloadUncompressed_pixelStore (env : Env) (self : GLTextureBuffer)
    (data : PixelBox) (g : GLWorld)
    (h : (self.downloadUncompressed env data g).thrown = none) :
    (self.downloadUncompressed env data g).gl.pixelStore GL_PACK_ROW_LENGTH = 0 ∧
    (self.downloadUncompressed env data g).gl.pixelStore GL_PACK_SKIP_PIXELS = 0 ∧
    (self.downloadUncompressed env data g).gl.pixelStore GL_PACK_ALIGNMENT = 4 := by
  unfold GLTextureBuffer.downloadUncompressed at h ⊢
  simp only [] at h ⊢
  by_cases hz : data.getHeight * data.getWidth ≠ data.slicePitch ∧ data.getWidth = 0
  · rw [if_pos hz] at h
    simp at h
  · rw [if_neg hz]
    simp [GLResult.ok, glPixelStorei_pixelStore]

/-- C10. Transfer parameters are restored.  Whatever the data box and the destination
box, after `GLTextureBuffer::upload` returns the unpack row length, skip pixels and
alignment are 0, 0 and 4, and an upload of an uncompressed box always returns.  After an
uncompressed `GLTextureBuffer::download` returns the pack row length, skip pixels and
alignment are 0, 0 and 4; it returns when the box has the extent of the buffer and the
image height is not computed by a division by a zero width. -/
theorem C10_transfer_parameters_restored (env : Env) (self : GLTextureBuffer)
    (data : PixelBox) (dest : Box) (g : GLWorld) :
    ((self.upload env data dest g).thrown = none →
      (self.upload env data dest g).gl.pixelStore GL_UNPACK_ROW_LENGTH = 0 ∧
      (self.upload env data dest g).gl.pixelStore GL_UNPACK_SKIP_PIXELS = 0 ∧
      (self.upload env data dest g).gl.pixelStore GL_UNPACK_ALIGNMENT = 4) ∧
    (env.isCompressed data.format = false → (self.upload env data dest g).thrown = none) ∧
    (env.isCompressed data.format = false →
      (self.download env data g).thrown = none →
      (self.download env data g).gl.pixelStore GL_PACK_ROW_LENGTH = 0 ∧
      (self.download env data g).gl.pixelStore GL_PACK_SKIP_PIXELS = 0 ∧
      (self.download env data g).gl.pixelStore GL_PACK_ALIGNMENT = 4) ∧
    (env.isCompressed data.format = false →
      (data.getWidth = self.mWidth ∧ data.getHeight = self.mHeight ∧
        data.getDepth = self.mDepth) →
      (data.getWidth ≠ 0 ∨ data.getHeight * data.getWidth = data.slicePitch) →
      (self.download env data g).thrown = none) := by
  refine ⟨?_, ?_, ?_, ?_⟩
  · intro h
    obtain ⟨g1, hg⟩ := GLTextureBuffer.upload_returns env self data dest g h
    rw [hg]
    exact GLTextureBuffer.uploadFinish_pixelStore env self g1
  · intro hc
    unfold GLTextureBuffer.upload
    simp [hc, GLResult.ok]
  · intro hc
    unfold GLTextureBuffer.download
    simp only [hc, Bool.false_eq_true, if_false]
    by_cases hext : data.getWidth ≠ self.getWidth ∨ data.getHeight ≠ self.getHeight ∨
        data.getDepth ≠ self.getDepth
    · simp only [hext, if_true]
      intro h
      simp at h
    · simp only [hext, if_false]
      exact GLTextureBuffer.downloadUncompressed_pixelStore env self data _
  · intro hc hext hdiv
    have hext2 : ¬ (data.getWidth ≠ self.getWidth ∨ data.getHeight ≠ self.getHeight ∨
        data.getDepth ≠ self.getDepth) := by
      simp [GLHardwarePixelBuffer.getWidth, GLHardwarePixelBuffer.getHeight,
        GLHardwarePixelBuffer.getDepth, hext.1, hext.2.1, hext.2.2]
    unfold GLTextureBuffer.download
    simp only [hext2, if_false, hc, Bool.false_eq_true]
    rw [GLTextureBuffer.downloadUncompressed_thrown]
    have : ¬ (data.getHeight * data.getWidth ≠ data.slicePitch ∧ data.getWidth = 0) := by
      rintro ⟨h1, h2⟩
      rcases hdiv with h3 | h3
      · exact h3 h2
      · exact h1 h3
    simp only [this, if_false]

/-- C10 at a concrete input: a 3x4 box of the three byte format `4` at offset (1,0,0) with
a row pitch of 8 makes the upload change the row length, the image height, the skip
pixels and the alignment; all three parameters of the claim are back at their defaults
when it returns. -/
theorem C10_transfer_parameters_restored_witness :
    (texture4x4.upload sampleEnv
        { clientBox 4 4 1 4 with left := 1, rowPitch := 8, slicePitch := 32 }
        (Box.ofCorners 0 0 0 3 4 1) emptyGL).gl.commands =
      [GLCommand.bindGLTexture GL_TEXTURE_2D 1,
        GLCommand.glPixelStorei GL_UNPACK_ROW_LENGTH 8,
        GLCommand.glPixelStorei GL_UNPACK_IMAGE_HEIGHT 10,
        GLCommand.glPixelStorei GL_UNPACK_SKIP_PIXELS 1,
        GLCommand.glPixelStorei GL_UNPACK_ALIGNMENT 1,
        GLCommand.glTexSubImage2D GL_TEXTURE_2D 0 0 0 3 4 0x1907 GL_UNSIGNED_BYTE
          { block := 3, x := 0, y := 0, z := 0 },
        GLCommand.glPixelStorei GL_UNPACK_ROW_LENGTH 0,
        GLCommand.glPixelStorei GL_UNPACK_IMAGE_HEIGHT 0,
        GLCommand.glPixelStorei GL_UNPACK_SKIP_PIXELS 0,
        GLCommand.glPixelStorei GL_UNPACK_ALIGNMENT 4] ∧
    ((texture4x4.upload sampleEnv
        { clientBox 4 4 1 4 with left := 1, rowPitch := 8, slicePitch := 32 }
        (Box.ofCorners 0 0 0 3 4 1) emptyGL).gl.pixelStore GL_UNPACK_ROW_LENGTH = 0 ∧
     (texture4x4.upload sampleEnv
        { clientBox 4 4 1 4 with left := 1, rowPitch := 8, slicePitch := 32 }
        (Box.ofCorners 0 0 0 3 4 1) emptyGL).gl.pixelStore GL_UNPACK_SKIP_PIXELS = 0 ∧
     (texture4x4.upload sampleEnv
        { clientBox 4 4 1 4 with left := 1, rowPitch := 8, slicePitch := 32 }
        (Box.ofCorners 0 0 0 3 4 1) emptyGL).gl.pixelStore GL_UNPACK_ALIGNMENT = 4) :=
  ⟨by rfl,
   (C10_transfer_parameters_restored sampleEnv texture4x4
      { clientBox 4 4 1 4 with left := 1, rowPitch := 8, slicePitch := 32 }
      (Box.ofCorners 0 0 0 3 4 1) emptyGL).1 (by decide)⟩

/-! ### Path selection of the texture-to-texture blit -/

/-- The condition of `GLTextureBuffer::blit`, as a proposition. -/
theorem GLTextureBuffer.blit_condition (env : Env) (self src : GLTextureBuffer) :
    (env.GLEW_EXT_framebuffer_object && (src.mUsage &&& TU_RENDERTARGET == 0) &&
      (src.mTarget == GL_TEXTURE_1D || src.mTarget == GL_TEXTURE_2D ||
        src.mTarget == GL_TEXTURE_3D) &&
      self.mTarget != GL_TEXTURE_2D_ARRAY_EXT) = true ↔
    (env.GLEW_EXT_framebuffer_object = true ∧ src.mUsage &&& TU_RENDERTARGET = 0 ∧
      (src.mTarget = GL_TEXTURE_1D ∨ src.mTarget = GL_TEXTURE_2D ∨
        src.mTarget = GL_TEXTURE_3D) ∧
      self.mTarget ≠ GL_TEXTURE_2D_ARRAY_EXT) := by
  simp only [Bool.and_eq_true, Bool.or_eq_true, beq_iff_eq, bne_iff_ne, ne_eq, and_assoc,
    or_assoc]

/-- C11. Path selection of `GLTextureBuffer::blit`.  The call is the GPU fast path, one
call of `blitFromTexture(src, srcBox, dstBox)` and nothing else, if and only if the FBO
extension is advertised, the usage of the source does not include render target, the
target of the source is 1D, 2D or 3D and the target of the destination is not 2D array.
In every other case the generic `GLHardwarePixelBuffer::blit` is called, once, and
`blitFromTexture` is not. -/
theorem C11_blit_path_selection (env : Env)
    (generic : GLTextureBuffer → Box → Box → GLWorld → GLResult)
    (self src : GLTextureBuffer) (srcBox dstBox : Box) (w : World) :
    ((self.blit env generic src srcBox dstBox w).world.calls =
        w.calls ++ [Call.blitFromTexture src.mTextureID srcBox dstBox] ↔
      (env.GLEW_EXT_framebuffer_object = true ∧ src.mUsage &&& TU_RENDERTARGET = 0 ∧
        (src.mTarget = GL_TEXTURE_1D ∨ src.mTarget = GL_TEXTURE_2D ∨
          src.mTarget = GL_TEXTURE_3D) ∧
        self.mTarget ≠ GL_TEXTURE_2D_ARRAY_EXT)) ∧
    ((env.GLEW_EXT_framebuffer_object = true ∧ src.mUsage &&& TU_RENDERTARGET = 0 ∧
        (src.mTarget = GL_TEXTURE_1D ∨ src.mTarget = GL_TEXTURE_2D ∨
          src.mTarget = GL_TEXTURE_3D) ∧
        self.mTarget ≠ GL_TEXTURE_2D_ARRAY_EXT) →
      self.blit env generic src srcBox dstBox w =
        self.blitFromTexture env src srcBox dstBox w) ∧
    (¬ (env.GLEW_EXT_framebuffer_object = true ∧ src.mUsage &&& TU_RENDERTARGET = 0 ∧
        (src.mTarget = GL_TEXTURE_1D ∨ src.mTarget = GL_TEXTURE_2D ∨
          src.mTarget = GL_TEXTURE_3D) ∧
        self.mTarget ≠ GL_TEXTURE_2D_ARRAY_EXT) →
      self.blit env generic src srcBox dstBox w =
        (w.log (Call.genericBlit src.mTextureID srcBox dstBox)).runGL
          (generic src srcBox dstBox) ∧
      (self.blit env generic src srcBox dstBox w).world.calls =
        w.calls ++ [Call.genericBlit src.mTextureID srcBox dstBox]) := by
  have hcond := GLTextureBuffer.blit_condition env self src
  have hfast : (env.GLEW_EXT_framebuffer_object = true ∧ src.mUsage &&& TU_RENDERTARGET = 0 ∧
        (src.mTarget = GL_TEXTURE_1D ∨ src.mTarget = GL_TEXTURE_2D ∨
          src.mTarget = GL_TEXTURE_3D) ∧
        self.mTarget ≠ GL_TEXTURE_2D_ARRAY_EXT) →
      self.blit env generic src srcBox dstBox w =
        self.blitFromTexture env src srcBox dstBox w := by
    intro h
    unfold GLTextureBuffer.blit
    simp only [hcond.2 h, if_true]
  have hslow : ¬ (env.GLEW_EXT_framebuffer_object = true ∧
        src.mUsage &&& TU_RENDERTARGET = 0 ∧
        (src.mTarget = GL_TEXTURE_1D ∨ src.mTarget = GL_TEXTURE_2D ∨
          src.mTarget = GL_TEXTURE_3D) ∧
        self.mTarget ≠ GL_TEXTURE_2D_ARRAY_EXT) →
      self.blit env generic src srcBox dstBox w =
        (w.log (Call.genericBlit src.mTextureID srcBox dstBox)).runGL
          (generic src srcBox dstBox) := by
    intro h
    have hc : ¬ ((env.GLEW_EXT_framebuffer_object &&
        (src.mUsage &&& TU_RENDERTARGET == 0) &&
        (src.mTarget == GL_TEXTURE_1D || src.mTarget == GL_TEXTURE_2D ||
          src.mTarget == GL_TEXTURE_3D) &&
        self.mTarget != GL_TEXTURE_2D_ARRAY_EXT) = true) := fun hc => h (hcond.1 hc)
    unfold GLTextureBuffer.blit
    simp only [hc, if_false, Bool.false_eq_true]
  refine ⟨?_, hfast, ?_⟩
  · constructor
    · intro hcalls
      by_contra hn
      rw [hslow hn] at hcalls
      simp [World.runGL, World.log] at hcalls
    · intro h
      rw [hfast h]
      rfl
  · intro hn
    refine ⟨hslow hn, ?_⟩
    rw [hslow hn]
    rfl

/-- C11 at concrete inputs: with the FBO extension, a 2D source and a 2D destination take
the fast path; the same source with render target usage takes the generic blit. -/
theorem C11_blit_path_selection_witness :
    (texture4x4.blit sampleEnv quietBlit texture4x4 (Box.ofCorners 0 0 0 4 4 1)
        (Box.ofCorners 0 0 0 2 2 1) emptyWorld).world.calls =
      [Call.blitFromTexture 1 (Box.ofCorners 0 0 0 4 4 1) (Box.ofCorners 0 0 0 2 2 1)] ∧
    (texture4x4.blit sampleEnv quietBlit
        { texture4x4 with mUsage := TU_RENDERTARGET } (Box.ofCorners 0 0 0 4 4 1)
        (Box.ofCorners 0 0 0 2 2 1) emptyWorld).world.calls =
      [Call.genericBlit 1 (Box.ofCorners 0 0 0 4 4 1) (Box.ofCorners 0 0 0 2 2 1)] :=
  ⟨congrArg (fun r : Result => r.world.calls)
     ((C11_blit_path_selection sampleEnv quietBlit texture4x4 texture4x4
       (Box.ofCorners 0 0 0 4 4 1) (Box.ofCorners 0 0 0 2 2 1) emptyWorld).2.1
       ⟨by decide, by decide, Or.inr (Or.inl (by decide)), by decide⟩),
   ((C11_blit_path_selection sampleEnv quietBlit texture4x4
       { texture4x4 with mUsage := TU_RENDERTARGET } (Box.ofCorners 0 0 0 4 4 1)
       (Box.ofCorners 0 0 0 2 2 1) emptyWorld).2.2 (by decide)).2⟩

/-! ### Commands only ever extend the command log -/

theorem GLTextureBuffer.uploadFinish_extends (env : Env) (self : GLTextureBuffer)
    (g : GLWorld) : g.commands <+: (self.uploadFinish env g).commands := by
  unfold GLTextureBuffer.uploadFinish glPixelStorei GLWorld.issue
  simp only []
  split_ifs <;> simp [List.append_assoc]

theorem GLTextureBuffer.uploadCompressed_extends (env : Env) (self : GLTextureBuffer)
    (data : PixelBox) (dest : Box) (g : GLWorld) :
    g.commands <+: (self.uploadCompressed env data dest g).commands := by
  unfold GLTextureBuffer.uploadCompressed GLWorld.issue
  simp only []
  split_ifs <;> simp

theorem glPixelStorei_extends (pname : GLenum) (param : Nat) (g : GLWorld) :
    g.commands <+: (glPixelStorei pname param g).commands :=
  List.prefix_append _ _

theorem GLWorld.issue_extends (c : GLCommand) (g : GLWorld) :
    g.commands <+: (g.issue c).commands :=
  List.prefix_append _ _

theorem GLTextureBuffer.uploadUncompressed_extends (env : Env) (self : GLTextureBuffer)
    (data : PixelBox) (dest : Box) (g : GLWorld) :
    g.commands <+: (self.uploadUncompressed env data dest g).commands := by
  unfold GLTextureBuffer.uploadUncompressed
  simp only []
  split_ifs <;>
    repeat (first
      | exact List.prefix_refl _
      | refine List.IsPrefix.trans ?_ (GLWorld.issue_extends _ _)
      | refine List.IsPrefix.trans ?_ (glPixelStorei_extends _ _ _))

theorem GLTextureBuffer.upload_extends (env : Env) (self : GLTextureBuffer)
    (data : PixelBox) (dest : Box) (g : GLWorld) :
    g.commands <+: (self.upload env data dest g).gl.commands := by
  have hb : g.commands <+:
      (g.issue (.bindGLTexture self.mTarget self.mTextureID)).commands :=
    List.prefix_append _ _
  unfold GLTextureBuffer.upload
  simp only []
  split_ifs
  · exact hb
  · exact hb.trans ((GLTextureBuffer.uploadCompressed_extends env self data dest _).trans
      (GLTextureBuffer.uploadFinish_extends env self _))
  · exact hb.trans ((GLTextureBuffer.uploadUncompressed_extends env self data dest _).trans
      (GLTextureBuffer.uploadFinish_extends env self _))

/-! ### The texture-to-texture blit, part by part -/

/-- Only the matrix commands matter to the matrix events. -/
theorem matrixEvents_filter (l : List GLCommand) (mode : GLenum) :
    matrixEvents mode l = matrixEvents mode (l.filter GLCommand.isMatrixCommand) := by
  induction l generalizing mode with
  | nil => rfl
  | cons c rest ih =>
    cases c <;> simp [matrixEvents, GLCommand.isMatrixCommand, List.filter, ih]

theorem GLTextureBuffer.blitSetUp_filter (env : Env) (src : GLTextureBuffer)
    (srcBox dstBox : Box) (g : GLWorld) :
    (GLTextureBuffer.blitSetUp env src srcBox dstBox g).commands.filter
        GLCommand.isAttribCommand =
      g.commands.filter GLCommand.isAttribCommand ++ [GLCommand.glPushAttrib GL_ATTRIB_BITS] ∧
    (GLTextureBuffer.blitSetUp env src srcBox dstBox g).commands.filter
        GLCommand.isMatrixCommand =
      g.commands.filter GLCommand.isMatrixCommand ++
        [GLCommand.glMatrixMode GL_MODELVIEW, GLCommand.glPushMatrix,
         GLCommand.glMatrixMode GL_PROJECTION, GLCommand.glPushMatrix,
         GLCommand.glMatrixMode GL_TEXTURE, GLCommand.glPushMatrix] ∧
    (GLTextureBuffer.blitSetUp env src srcBox dstBox g).commands.filter
        GLCommand.isFramebufferBinding =
      g.commands.filter GLCommand.isFramebufferBinding ∧
    (GLTextureBuffer.blitSetUp env src srcBox dstBox g).framebufferBinding =
      g.framebufferBinding := by
  unfold GLTextureBuffer.blitSetUp GLWorld.issue
  simp only []
  split_ifs <;>
    simp [List.filter_append, List.filter_cons, GLCommand.isAttribCommand,
      GLCommand.isMatrixCommand, GLCommand.isFramebufferBinding]

/-- The set-up binds the source texture and sets its two filters right after; it sets no
other filter. -/
theorem GLTextureBuffer.blitSetUp_block (env : Env) (src : GLTextureBuffer)
    (srcBox dstBox : Box) (g : GLWorld) :
    ∃ pre post : List GLCommand,
      (GLTextureBuffer.blitSetUp env src srcBox dstBox g).commands =
        g.commands ++ pre ++
          (GLCommand.bindGLTexture src.mTarget src.mTextureID ::
            GLTextureBuffer.blitFilters src srcBox dstBox) ++ post ∧
      pre.filter GLCommand.isFilterSetting = [] ∧
      post.filter GLCommand.isFilterSetting = [] := by
  refine ⟨[GLCommand.glPushAttrib GL_ATTRIB_BITS, GLCommand.disableTextureUnitsFrom 0] ++
      (if env.GLEW_VERSION_1_2 = true then [GLCommand.activateGLTextureUnit 0] else []) ++
      [GLCommand.setEnabled GL_ALPHA_TEST false, GLCommand.setEnabled GL_DEPTH_TEST false,
       GLCommand.setEnabled GL_SCISSOR_TEST false, GLCommand.setEnabled GL_BLEND false,
       GLCommand.setEnabled GL_CULL_FACE false, GLCommand.setEnabled GL_LIGHTING false,
       GLCommand.setEnabled GL_FOG false,
       GLCommand.glMatrixMode GL_MODELVIEW, GLCommand.glPushMatrix,
       GLCommand.glLoadIdentity,
       GLCommand.glMatrixMode GL_PROJECTION, GLCommand.glPushMatrix,
       GLCommand.glLoadIdentity,
       GLCommand.glMatrixMode GL_TEXTURE, GLCommand.glPushMatrix,
       GLCommand.glLoadIdentity],
    [GLCommand.setTexParameteri src.mTarget GL_TEXTURE_WRAP_S GL_CLAMP_TO_EDGE,
     GLCommand.setTexParameteri src.mTarget GL_TEXTURE_WRAP_T GL_CLAMP_TO_EDGE,
     GLCommand.setTexParameteri src.mTarget GL_TEXTURE_WRAP_R GL_CLAMP_TO_EDGE,
     GLCommand.setTexParameteri src.mTarget GL_TEXTURE_BASE_LEVEL src.mLevel], ?_, ?_, ?_⟩
  · unfold GLTextureBuffer.blitSetUp GLTextureBuffer.blitFilters GLWorld.issue
    simp only []
    split_ifs <;> simp [List.append_assoc]
  · split_ifs <;>
      simp [List.filter_append, List.filter_cons, GLCommand.isFilterSetting]
  · simp [List.filter_cons, GLCommand.isFilterSetting]

theorem GLTextureBuffer.blitSetUp_extends (env : Env) (src : GLTextureBuffer)
    (srcBox dstBox : Box) (g : GLWorld) :
    g.commands <+: (GLTextureBuffer.blitSetUp env src srcBox dstBox g).commands := by
  unfold GLTextureBuffer.blitSetUp GLWorld.issue
  simp only []
  split_ifs <;> simp [List.append_assoc]

theorem GLTextureBuffer.blitAttach_filter (env : Env) (self : GLTextureBuffer)
    (dstBox : Box) (g : GLWorld) :
    g.commands <+: (self.blitAttach env dstBox g).2.commands ∧
    (self.blitAttach env dstBox g).2.commands.filter GLCommand.isAttribCommand =
      g.commands.filter GLCommand.isAttribCommand ∧
    (self.blitAttach env dstBox g).2.commands.filter GLCommand.isMatrixCommand =
      g.commands.filter GLCommand.isMatrixCommand ∧
    (self.blitAttach env dstBox g).2.commands.filter GLCommand.isFilterSetting =
      g.commands.filter GLCommand.isFilterSetting ∧
    (self.blitAttach env dstBox g).2.commands.filter GLCommand.isFramebufferBinding =
      g.commands.filter GLCommand.isFramebufferBinding ++
        [GLCommand.glBindFramebufferEXT GL_FRAMEBUFFER_EXT env.getTemporaryFBO] ∧
    (self.blitAttach env dstBox g).2.framebufferBinding = env.getTemporaryFBO ∧
    ((self.blitAttach env dstBox g).1 = 0 ↔ env.checkFormat self.mFormat = true) := by
  unfold GLTextureBuffer.blitAttach glBindFramebufferEXT glGenTextures GLWorld.issue
  simp only []
  split_ifs with hc <;>
    simp [List.filter_append, List.filter_cons, GLCommand.isAttribCommand,
      GLCommand.isMatrixCommand, GLCommand.isFilterSetting,
      GLCommand.isFramebufferBinding, List.append_assoc] <;>
    simpa using hc

theorem GLTextureBuffer.attachToFramebuffer_filter (self : GLTextureBuffer)
    (attachment : GLenum) (zoffset : Nat) (g : GLWorld) :
    g.commands <+: (self.attachToFramebuffer attachment zoffset g).commands ∧
    (self.attachToFramebuffer attachment zoffset g).commands.filter
        GLCommand.isAttribCommand = g.commands.filter GLCommand.isAttribCommand ∧
    (self.attachToFramebuffer attachment zoffset g).commands.filter
        GLCommand.isMatrixCommand = g.commands.filter GLCommand.isMatrixCommand ∧
    (self.attachToFramebuffer attachment zoffset g).commands.filter
        GLCommand.isFilterSetting = g.commands.filter GLCommand.isFilterSetting ∧
    (self.attachToFramebuffer attachment zoffset g).commands.filter
        GLCommand.isFramebufferBinding =
      g.commands.filter GLCommand.isFramebufferBinding ∧
    (self.attachToFramebuffer attachment zoffset g).framebufferBinding =
      g.framebufferBinding := by
  unfold GLTextureBuffer.attachToFramebuffer GLWorld.issue
  split_ifs <;>
    simp [List.filter_append, List.filter_cons, GLCommand.isAttribCommand,
      GLCommand.isMatrixCommand, GLCommand.isFilterSetting,
      GLCommand.isFramebufferBinding]

theorem GLTextureBuffer.drawSlice_filter (self src : GLTextureBuffer) (srcBox dstBox : Box)
    (tempTex : GLuint) (g : GLWorld) (slice : Nat) :
    g.commands <+: (self.drawSlice src srcBox dstBox tempTex g slice).commands ∧
    (self.drawSlice src srcBox dstBox tempTex g slice).commands.filter
        GLCommand.isAttribCommand = g.commands.filter GLCommand.isAttribCommand ∧
    (self.drawSlice src srcBox dstBox tempTex g slice).commands.filter
        GLCommand.isMatrixCommand = g.commands.filter GLCommand.isMatrixCommand ∧
    (self.drawSlice src srcBox dstBox tempTex g slice).commands.filter
        GLCommand.isFilterSetting = g.commands.filter GLCommand.isFilterSetting ∧
    (self.drawSlice src srcBox dstBox tempTex g slice).commands.filter
        GLCommand.isFramebufferBinding =
      g.commands.filter GLCommand.isFramebufferBinding ∧
    (self.drawSlice src srcBox dstBox tempTex g slice).framebufferBinding =
      g.framebufferBinding := by
  unfold GLTextureBuffer.drawSlice GLTextureBuffer.copyTemporary GLWorld.issue
  simp only []
  split_ifs <;>
    simp [List.filter_append, List.filter_cons, GLCommand.isAttribCommand,
      GLCommand.isMatrixCommand, GLCommand.isFilterSetting,
      GLCommand.isFramebufferBinding, List.append_assoc]

/-- One round of the loop, stopped or not, issues no attribute, matrix, filter or
framebuffer binding command. -/
theorem GLTextureBuffer.blitSlice_filter (self src : GLTextureBuffer) (srcBox dstBox : Box)
    (tempTex : GLuint) (g : GLWorld) (slice : Nat) :
    g.commands <+: (self.blitSlice src srcBox dstBox tempTex g slice).gl.commands ∧
    (self.blitSlice src srcBox dstBox tempTex g slice).gl.commands.filter
        GLCommand.isAttribCommand = g.commands.filter GLCommand.isAttribCommand ∧
    (self.blitSlice src srcBox dstBox tempTex g slice).gl.commands.filter
        GLCommand.isMatrixCommand = g.commands.filter GLCommand.isMatrixCommand ∧
    (self.blitSlice src srcBox dstBox tempTex g slice).gl.commands.filter
        GLCommand.isFilterSetting = g.commands.filter GLCommand.isFilterSetting ∧
    (self.blitSlice src srcBox dstBox tempTex g slice).gl.commands.filter
        GLCommand.isFramebufferBinding =
      g.commands.filter GLCommand.isFramebufferBinding ∧
    (self.blitSlice src srcBox dstBox tempTex g slice).gl.framebufferBinding =
      g.framebufferBinding := by
  by_cases hs : tempTex = 0 → slice < self.mDepth
  · rw [(GLTextureBuffer.blitSlice_stops self src srcBox dstBox tempTex g slice).1 hs]
    have hd := GLTextureBuffer.drawSlice_filter self src srcBox dstBox tempTex
      (if tempTex = 0 then self.attachToFramebuffer GL_COLOR_ATTACHMENT0_EXT slice g else g)
      slice
    have ha : g.commands <+:
          (if tempTex = 0 then self.attachToFramebuffer GL_COLOR_ATTACHMENT0_EXT slice g
            else g).commands ∧
        (if tempTex = 0 then self.attachToFramebuffer GL_COLOR_ATTACHMENT0_EXT slice g
            else g).commands.filter GLCommand.isAttribCommand =
          g.commands.filter GLCommand.isAttribCommand ∧
        (if tempTex = 0 then self.attachToFramebuffer GL_COLOR_ATTACHMENT0_EXT slice g
            else g).commands.filter GLCommand.isMatrixCommand =
          g.commands.filter GLCommand.isMatrixCommand ∧
        (if tempTex = 0 then self.attachToFramebuffer GL_COLOR_ATTACHMENT0_EXT slice g
            else g).commands.filter GLCommand.isFilterSetting =
          g.commands.filter GLCommand.isFilterSetting ∧
        (if tempTex = 0 then self.attachToFramebuffer GL_COLOR_ATTACHMENT0_EXT slice g
            else g).commands.filter GLCommand.isFramebufferBinding =
          g.commands.filter GLCommand.isFramebufferBinding ∧
        (if tempTex = 0 then self.attachToFramebuffer GL_COLOR_ATTACHMENT0_EXT slice g
            else g).framebufferBinding = g.framebufferBinding := by
      split
      · exact GLTextureBuffer.attachToFramebuffer_filter self _ slice g
      · exact ⟨List.prefix_refl _, rfl, rfl, rfl, rfl, rfl⟩
    exact ⟨ha.1.trans hd.1, hd.2.1.trans ha.2.1, hd.2.2.1.trans ha.2.2.1,
      hd.2.2.2.1.trans ha.2.2.2.1, hd.2.2.2.2.1.trans ha.2.2.2.2.1,
      hd.2.2.2.2.2.trans ha.2.2.2.2.2⟩
  · rw [(GLTextureBuffer.blitSlice_stops self src srcBox dstBox tempTex g slice).2 hs]
    exact ⟨List.prefix_refl _, rfl, rfl, rfl, rfl, rfl⟩

/-- The loop over the slices, stopped or not, issues no attribute, matrix, filter or
framebuffer binding command. -/
theorem GLTextureBuffer.blitSlices_filter (self src : GLTextureBuffer) (srcBox dstBox : Box)
    (tempTex : GLuint) (slices : List Nat) (g : GLWorld) :
    g.commands <+: (self.blitSlices src srcBox dstBox tempTex slices g).gl.commands ∧
    (self.blitSlices src srcBox dstBox tempTex slices g).gl.commands.filter
        GLCommand.isAttribCommand = g.commands.filter GLCommand.isAttribCommand ∧
    (self.blitSlices src srcBox dstBox tempTex slices g).gl.commands.filter
        GLCommand.isMatrixCommand = g.commands.filter GLCommand.isMatrixCommand ∧
    (self.blitSlices src srcBox dstBox tempTex slices g).gl.commands.filter
        GLCommand.isFilterSetting = g.commands.filter GLCommand.isFilterSetting ∧
    (self.blitSlices src srcBox dstBox tempTex slices g).gl.commands.filter
        GLCommand.isFramebufferBinding =
      g.commands.filter GLCommand.isFramebufferBinding ∧
    (self.blitSlices src srcBox dstBox tempTex slices g).gl.framebufferBinding =
      g.framebufferBinding := by
  induction slices generalizing g with
  | nil => exact ⟨List.prefix_refl _, rfl, rfl, rfl, rfl, rfl⟩
  | cons s rest ih =>
    have h1 := GLTextureBuffer.blitSlice_filter self src srcBox dstBox tempTex g s
    unfold GLTextureBuffer.blitSlices
    by_cases hs : tempTex = 0 → s < self.mDepth
    · have hr : (self.blitSlice src srcBox dstBox tempTex g s).thrown = none := by
        rw [(GLTextureBuffer.blitSlice_stops self src srcBox dstBox tempTex g s).1 hs]
        rfl
      rw [GLResult.andThen_passes _ _ hr]
      have h2 := ih (self.blitSlice src srcBox dstBox tempTex g s).gl
      exact ⟨h1.1.trans h2.1, h2.2.1.trans h1.2.1, h2.2.2.1.trans h1.2.2.1,
        h2.2.2.2.1.trans h1.2.2.2.1, h2.2.2.2.2.1.trans h1.2.2.2.2.1,
        h2.2.2.2.2.2.trans h1.2.2.2.2.2⟩
    · have hr : (self.blitSlice src srcBox dstBox tempTex g s).thrown =
          some Failure.assertionFailed := by
        rw [(GLTextureBuffer.blitSlice_stops self src srcBox dstBox tempTex g s).2 hs]
      rw [GLResult.andThen_halts _ _ _ hr]
      exact h1

/-- The loop over the slices returns exactly when every slice bound directly is below the
depth of the buffer. -/
theorem GLTextureBuffer.blitSlices_returns (self src : GLTextureBuffer) (srcBox dstBox : Box)
    (tempTex : GLuint) (slices : List Nat) (g : GLWorld) :
    (self.blitSlices src srcBox dstBox tempTex slices g).thrown = none ↔
      (tempTex = 0 → ∀ s ∈ slices, s < self.mDepth) := by
  induction slices generalizing g with
  | nil => exact ⟨fun _ _ _ hs => absurd hs (List.not_mem_nil _), fun _ => rfl⟩
  | cons s rest ih =>
    unfold GLTextureBuffer.blitSlices
    by_cases hs : tempTex = 0 → s < self.mDepth
    · have hr : (self.blitSlice src srcBox dstBox tempTex g s).thrown = none := by
        rw [(GLTextureBuffer.blitSlice_stops self src srcBox dstBox tempTex g s).1 hs]
        rfl
      rw [GLResult.andThen_passes _ _ hr, ih]
      constructor
      · intro h ht x hx
        rcases List.mem_cons.mp hx with hx | hx
        · rw [hx]
          exact hs ht
        · exact h ht x hx
      · intro h ht x hx
        exact h ht x (List.mem_cons_of_mem _ hx)
    · have hr : (self.blitSlice src srcBox dstBox tempTex g s).thrown =
          some Failure.assertionFailed := by
        rw [(GLTextureBuffer.blitSlice_stops self src srcBox dstBox tempTex g s).2 hs]
      rw [GLResult.andThen_halts _ _ _ hr, hr]
      constructor
      · intro h
        exact absurd h (by simp)
      · intro h
        exact absurd (fun ht => h ht s (List.mem_cons_self _ _)) hs

theorem GLTextureBuffer.blitFinish_filter (self src : GLTextureBuffer)
    (tempTex oldfb : GLuint) (g : GLWorld) :
    (self.blitFinish src tempTex oldfb g).commands.filter GLCommand.isAttribCommand =
      g.commands.filter GLCommand.isAttribCommand ++ [GLCommand.glPopAttrib] ∧
    (self.blitFinish src tempTex oldfb g).commands.filter GLCommand.isMatrixCommand =
      g.commands.filter GLCommand.isMatrixCommand ++
        [GLCommand.glMatrixMode GL_TEXTURE, GLCommand.glPopMatrix,
         GLCommand.glMatrixMode GL_PROJECTION, GLCommand.glPopMatrix,
         GLCommand.glMatrixMode GL_MODELVIEW, GLCommand.glPopMatrix] ∧
    (self.blitFinish src tempTex oldfb g).commands.filter GLCommand.isFilterSetting =
      g.commands.filter GLCommand.isFilterSetting ∧
    (self.blitFinish src tempTex oldfb g).framebufferBinding = oldfb ∧
    (∃ mid, (self.blitFinish src tempTex oldfb g).commands =
        g.commands ++ mid ++ GLTextureBuffer.blitTail src tempTex oldfb ∧
      mid.filter GLCommand.isFramebufferBinding = []) := by
  unfold GLTextureBuffer.blitFinish glBindFramebufferEXT GLWorld.issue
    GLTextureBuffer.blitTail
  simp only []
  split_ifs
  · refine ⟨?_, ?_, ?_, trivial,
      ⟨[GLCommand.bindGLTexture self.mTarget self.mTextureID,
        GLCommand.glGenerateMipmapEXT self.mTarget], by simp [List.append_assoc], rfl⟩⟩ <;>
      simp [List.filter_append, List.filter_cons, GLCommand.isAttribCommand,
        GLCommand.isMatrixCommand, GLCommand.isFilterSetting, List.append_assoc]
  · refine ⟨?_, ?_, ?_, trivial, ⟨[], by simp [List.append_assoc], rfl⟩⟩ <;>
      simp [List.filter_append, List.filter_cons, GLCommand.isAttribCommand,
        GLCommand.isMatrixCommand, GLCommand.isFilterSetting, List.append_assoc]

/-- The shape of `blitFromTextureGL`: set-up, query of the binding, attachment, loop,
finish. -/
theorem GLTextureBuffer.blitFromTextureGL_shape (env : Env) (self src : GLTextureBuffer)
    (srcBox dstBox : Box) (g : GLWorld) :
    self.blitFromTextureGL env src srcBox dstBox g =
      (self.blitSlices src srcBox dstBox
        (self.blitAttach env dstBox ((GLTextureBuffer.blitSetUp env src srcBox dstBox g).issue
          (.glGetIntegerv GL_FRAMEBUFFER_BINDING_EXT))).1
        (List.range' dstBox.front (dstBox.back - dstBox.front))
        (self.blitAttach env dstBox ((GLTextureBuffer.blitSetUp env src srcBox dstBox g).issue
          (.glGetIntegerv GL_FRAMEBUFFER_BINDING_EXT))).2).andThen (fun g3 =>
        GLResult.ok (self.blitFinish src
          (self.blitAttach env dstBox
            ((GLTextureBuffer.blitSetUp env src srcBox dstBox g).issue
              (.glGetIntegerv GL_FRAMEBUFFER_BINDING_EXT))).1
          (GLTextureBuffer.blitSetUp env src srcBox dstBox g).framebufferBinding g3)) := rfl

/-- The loop of `blitFromTexture` over the slices of the destination box returns exactly
when an intermediate texture is used, the slice range is empty, or every slice is below
the depth of the buffer. -/
theorem GLTextureBuffer.blitSlices_range (env : Env) (self src : GLTextureBuffer)
    (srcBox dstBox : Box) (g0 g : GLWorld) :
    (self.blitSlices src srcBox dstBox (self.blitAttach env dstBox g0).1
        (List.range' dstBox.front (dstBox.back - dstBox.front)) g).thrown = none ↔
      (env.checkFormat self.mFormat = false ∨ dstBox.back ≤ dstBox.front ∨
        dstBox.back ≤ self.mDepth) := by
  rw [GLTextureBuffer.blitSlices_returns,
    (GLTextureBuffer.blitAttach_filter env self dstBox g0).2.2.2.2.2.2]
  constructor
  · intro h
    by_cases hc : env.checkFormat self.mFormat = true
    · by_cases he : dstBox.back ≤ dstBox.front
      · exact Or.inr (Or.inl he)
      · have := h hc (dstBox.back - 1) (by
          rw [List.mem_range'_1]
          omega)
        exact Or.inr (Or.inr (by omega))
    · exact Or.inl (by simpa using hc)
  · rintro (h | h | h) hc s hs
    · rw [h] at hc
      exact absurd hc (by simp)
    · rw [List.mem_range'_1] at hs
      omega
    · rw [List.mem_range'_1] at hs
      omega

/-- Whether it stops or not, `blitFromTexture` extends the command log by a sequence in which
the bind of the source texture is followed at once by its two filter settings, and which
holds no other filter setting. -/
theorem GLTextureBuffer.blitFromTextureGL_filters (env : Env) (self src : GLTextureBuffer)
    (srcBox dstBox : Box) (g : GLWorld) :
    ∃ pre post : List GLCommand,
      (self.blitFromTextureGL env src srcBox dstBox g).gl.commands =
        g.commands ++ pre ++
          (GLCommand.bindGLTexture src.mTarget src.mTextureID ::
            GLTextureBuffer.blitFilters src srcBox dstBox) ++ post ∧
      pre.filter GLCommand.isFilterSetting = [] ∧
      post.filter GLCommand.isFilterSetting = [] := by
  obtain ⟨pre, post1, hb, hpre, hpost1⟩ :=
    GLTextureBuffer.blitSetUp_block env src srcBox dstBox g
  rw [GLTextureBuffer.blitFromTextureGL_shape]
  generalize GLTextureBuffer.blitSetUp env src srcBox dstBox g = g1 at hb ⊢
  have hqp := GLWorld.issue_extends (.glGetIntegerv GL_FRAMEBUFFER_BINDING_EXT) g1
  have hq : (g1.issue (.glGetIntegerv GL_FRAMEBUFFER_BINDING_EXT)).commands.filter
      GLCommand.isFilterSetting = g1.commands.filter GLCommand.isFilterSetting := by
    simp [GLWorld.issue, List.filter_append, List.filter_cons, GLCommand.isFilterSetting]
  have h2 := GLTextureBuffer.blitAttach_filter env self dstBox
    (g1.issue (.glGetIntegerv GL_FRAMEBUFFER_BINDING_EXT))
  generalize g1.issue (.glGetIntegerv GL_FRAMEBUFFER_BINDING_EXT) = g2 at hqp hq h2 ⊢
  generalize self.blitAttach env dstBox g2 = a at h2 ⊢
  have h3 := GLTextureBuffer.blitSlices_filter self src srcBox dstBox a.1
    (List.range' dstBox.front (dstBox.back - dstBox.front)) a.2
  have hk := GLTextureBuffer.blitSlices_kind self src srcBox dstBox a.1
    (List.range' dstBox.front (dstBox.back - dstBox.front)) a.2
  generalize self.blitSlices src srcBox dstBox a.1
    (List.range' dstBox.front (dstBox.back - dstBox.front)) a.2 = r3 at h3 hk ⊢
  have hext : g1.commands <+: r3.gl.commands := (hqp.trans h2.1).trans h3.1
  have hfs : r3.gl.commands.filter GLCommand.isFilterSetting =
      g1.commands.filter GLCommand.isFilterSetting :=
    (h3.2.2.2.1.trans h2.2.2.2.1).trans hq
  have hall : ∃ t, ((r3.andThen (fun g3 => GLResult.ok
        (self.blitFinish src a.1 g1.framebufferBinding g3))).gl.commands = g1.commands ++ t) ∧
      t.filter GLCommand.isFilterSetting = [] := by
    rcases hk with hk | hk
    · rw [GLResult.andThen_passes _ _ hk]
      obtain ⟨-, -, h4f, -, mid, h4t, -⟩ :=
        GLTextureBuffer.blitFinish_filter self src a.1 g1.framebufferBinding r3.gl
      obtain ⟨t, ht⟩ := hext
      refine ⟨t ++ (mid ++ GLTextureBuffer.blitTail src a.1 g1.framebufferBinding), ?_, ?_⟩
      · show (self.blitFinish src a.1 g1.framebufferBinding r3.gl).commands = _
        rw [h4t, ← ht]
        simp [List.append_assoc]
      · have e := h4f
        rw [h4t, hfs, ← ht] at e
        simp only [List.filter_append, List.append_assoc] at e ⊢
        exact List.append_cancel_left (e.trans (List.append_nil _).symm)
    · rw [GLResult.andThen_halts _ _ _ hk]
      obtain ⟨t, ht⟩ := hext
      refine ⟨t, ht.symm, ?_⟩
      have e := hfs
      rw [← ht, List.filter_append] at e
      exact List.append_cancel_left (e.trans (List.append_nil _).symm)
  obtain ⟨t, ht, htf⟩ := hall
  refine ⟨pre, post1 ++ t, ?_, hpre, ?_⟩
  · rw [ht, hb]
    simp [List.append_assoc]
  · rw [List.filter_append, hpost1, htf]
    rfl

/-- When no slice assertion can fail, `blitFromTexture` returns and what it issued is
balanced: one attribute push and pop, the three matrix pushes and pops, the temporary
framebuffer bound once before the closing sequence, and the binding of entry restored. -/
theorem GLTextureBuffer.blitFromTextureGL_returns (env : Env) (self src : GLTextureBuffer)
    (srcBox dstBox : Box) (g : GLWorld)
    (hsafe : env.checkFormat self.mFormat = false ∨ dstBox.back ≤ dstBox.front ∨
      dstBox.back ≤ self.mDepth) :
    (self.blitFromTextureGL env src srcBox dstBox g).thrown = none ∧
    ∃ issued pre tempTex,
      (self.blitFromTextureGL env src srcBox dstBox g).gl.commands = g.commands ++ issued ∧
      issued = pre ++ GLTextureBuffer.blitTail src tempTex g.framebufferBinding ∧
      issued.filter GLCommand.isAttribCommand =
        [GLCommand.glPushAttrib GL_ATTRIB_BITS, GLCommand.glPopAttrib] ∧
      issued.filter GLCommand.isMatrixCommand =
        [GLCommand.glMatrixMode GL_MODELVIEW, GLCommand.glPushMatrix,
         GLCommand.glMatrixMode GL_PROJECTION, GLCommand.glPushMatrix,
         GLCommand.glMatrixMode GL_TEXTURE, GLCommand.glPushMatrix,
         GLCommand.glMatrixMode GL_TEXTURE, GLCommand.glPopMatrix,
         GLCommand.glMatrixMode GL_PROJECTION, GLCommand.glPopMatrix,
         GLCommand.glMatrixMode GL_MODELVIEW, GLCommand.glPopMatrix] ∧
      pre.filter GLCommand.isFramebufferBinding =
        [GLCommand.glBindFramebufferEXT GL_FRAMEBUFFER_EXT env.getTemporaryFBO] ∧
      (self.blitFromTextureGL env src srcBox dstBox g).gl.framebufferBinding =
        g.framebufferBinding := by
  have h1 := GLTextureBuffer.blitSetUp_filter env src srcBox dstBox g
  have h1p := GLTextureBuffer.blitSetUp_extends env src srcBox dstBox g
  rw [GLTextureBuffer.blitFromTextureGL_shape]
  generalize GLTextureBuffer.blitSetUp env src srcBox dstBox g = g1 at h1 h1p ⊢
  have hq : ∀ p : GLCommand → Bool, p (.glGetIntegerv GL_FRAMEBUFFER_BINDING_EXT) = false →
      (g1.issue (.glGetIntegerv GL_FRAMEBUFFER_BINDING_EXT)).commands.filter p =
        g1.commands.filter p := by
    intro p hp
    simp [GLWorld.issue, List.filter_append, List.filter_cons, hp]
  have hqp := GLWorld.issue_extends (.glGetIntegerv GL_FRAMEBUFFER_BINDING_EXT) g1
  have h2 := GLTextureBuffer.blitAttach_filter env self dstBox
    (g1.issue (.glGetIntegerv GL_FRAMEBUFFER_BINDING_EXT))
  have hret := (GLTextureBuffer.blitSlices_range env self src srcBox dstBox
    (g1.issue (.glGetIntegerv GL_FRAMEBUFFER_BINDING_EXT))
    (self.blitAttach env dstBox (g1.issue (.glGetIntegerv GL_FRAMEBUFFER_BINDING_EXT))).2).2
    hsafe
  generalize g1.issue (.glGetIntegerv GL_FRAMEBUFFER_BINDING_EXT) = g2 at hq hqp h2 hret ⊢
  generalize self.blitAttach env dstBox g2 = a at h2 hret ⊢
  have h3 := GLTextureBuffer.blitSlices_filter self src srcBox dstBox a.1
    (List.range' dstBox.front (dstBox.back - dstBox.front)) a.2
  generalize self.blitSlices src srcBox dstBox a.1
    (List.range' dstBox.front (dstBox.back - dstBox.front)) a.2 = r3 at h3 hret ⊢
  rw [GLResult.andThen_passes _ _ hret]
  obtain ⟨h4a, h4m, -, h4b, mid, h4t, hmid⟩ :=
    GLTextureBuffer.blitFinish_filter self src a.1 g1.framebufferBinding r3.gl
  obtain ⟨t, ht⟩ := ((h1p.trans hqp).trans h2.1).trans h3.1
  have hall : (self.blitFinish src a.1 g1.framebufferBinding r3.gl).commands =
      g.commands ++ (t ++ mid ++ GLTextureBuffer.blitTail src a.1 g.framebufferBinding) := by
    rw [h4t, ← ht, h1.2.2.2]
    simp [List.append_assoc]
  refine ⟨rfl, t ++ mid ++ GLTextureBuffer.blitTail src a.1 g.framebufferBinding, t ++ mid,
    a.1, hall, rfl, ?_, ?_, ?_, ?_⟩
  · have e := h4a
    rw [hall, h3.2.1, h2.2.1, hq _ rfl, h1.1] at e
    simpa [List.filter_append, List.append_assoc] using e
  · have e := h4m
    rw [hall, h3.2.2.1, h2.2.2.1, hq _ rfl, h1.2.1] at e
    simpa [List.filter_append, List.append_assoc] using e
  · have e : r3.gl.commands.filter GLCommand.isFramebufferBinding =
        g.commands.filter GLCommand.isFramebufferBinding ++
          [GLCommand.glBindFramebufferEXT GL_FRAMEBUFFER_EXT env.getTemporaryFBO] := by
      rw [h3.2.2.2.2.1, h2.2.2.2.2.1, hq _ rfl, h1.2.2.1]
    rw [← ht, List.filter_append] at e
    rw [List.filter_append, hmid, List.append_nil]
    exact List.append_cancel_left e
  · show (self.blitFinish src a.1 g1.framebufferBinding r3.gl).framebufferBinding = _
    rw [h4b]
    exact h1.2.2.2

/-- When a slice assertion fails, `blitFromTexture` stops in the loop: the attribute push
and the three matrix pushes have been issued, no pop has, and the temporary framebuffer is
still bound. -/
theorem GLTextureBuffer.blitFromTextureGL_aborts (env : Env) (self src : GLTextureBuffer)
    (srcBox dstBox : Box) (g : GLWorld)
    (hstop : ¬ (env.checkFormat self.mFormat = false ∨ dstBox.back ≤ dstBox.front ∨
      dstBox.back ≤ self.mDepth)) :
    (self.blitFromTextureGL env src srcBox dstBox g).thrown =
      some Failure.assertionFailed ∧
    ∃ issued,
      (self.blitFromTextureGL env src srcBox dstBox g).gl.commands = g.commands ++ issued ∧
      issued.filter GLCommand.isAttribCommand = [GLCommand.glPushAttrib GL_ATTRIB_BITS] ∧
      issued.filter GLCommand.isMatrixCommand =
        [GLCommand.glMatrixMode GL_MODELVIEW, GLCommand.glPushMatrix,
         GLCommand.glMatrixMode GL_PROJECTION, GLCommand.glPushMatrix,
         GLCommand.glMatrixMode GL_TEXTURE, GLCommand.glPushMatrix] ∧
      issued.filter GLCommand.isFramebufferBinding =
        [GLCommand.glBindFramebufferEXT GL_FRAMEBUFFER_EXT env.getTemporaryFBO] ∧
      (self.blitFromTextureGL env src srcBox dstBox g).gl.framebufferBinding =
        env.getTemporaryFBO := by
  have h1 := GLTextureBuffer.blitSetUp_filter env src srcBox dstBox g
  have h1p := GLTextureBuffer.blitSetUp_extends env src srcBox dstBox g
  rw [GLTextureBuffer.blitFromTextureGL_shape]
  generalize GLTextureBuffer.blitSetUp env src srcBox dstBox g = g1 at h1 h1p ⊢
  have hq : ∀ p : GLCommand → Bool, p (.glGetIntegerv GL_FRAMEBUFFER_BINDING_EXT) = false →
      (g1.issue (.glGetIntegerv GL_FRAMEBUFFER_BINDING_EXT)).commands.filter p =
        g1.commands.filter p := by
    intro p hp
    simp [GLWorld.issue, List.filter_append, List.filter_cons, hp]
  have hqp := GLWorld.issue_extends (.glGetIntegerv GL_FRAMEBUFFER_BINDING_EXT) g1
  have h2 := GLTextureBuffer.blitAttach_filter env self dstBox
    (g1.issue (.glGetIntegerv GL_FRAMEBUFFER_BINDING_EXT))
  have hret := GLTextureBuffer.blitSlices_range env self src srcBox dstBox
    (g1.issue (.glGetIntegerv GL_FRAMEBUFFER_BINDING_EXT))
    (self.blitAttach env dstBox (g1.issue (.glGetIntegerv GL_FRAMEBUFFER_BINDING_EXT))).2
  generalize g1.issue (.glGetIntegerv GL_FRAMEBUFFER_BINDING_EXT) = g2 at hq hqp h2 hret ⊢
  generalize self.blitAttach env dstBox g2 = a at h2 hret ⊢
  have h3 := GLTextureBuffer.blitSlices_filter self src srcBox dstBox a.1
    (List.range' dstBox.front (dstBox.back - dstBox.front)) a.2
  have hk := GLTextureBuffer.blitSlices_kind self src srcBox dstBox a.1
    (List.range' dstBox.front (dstBox.back - dstBox.front)) a.2
  generalize self.blitSlices src srcBox dstBox a.1
    (List.range' dstBox.front (dstBox.back - dstBox.front)) a.2 = r3 at h3 hk hret ⊢
  have hf : r3.thrown = some Failure.assertionFailed := by
    rcases hk with hk | hk
    · exact absurd (hret.1 hk) hstop
    · exact hk
  rw [GLResult.andThen_halts _ _ _ hf]
  obtain ⟨t, ht⟩ := ((h1p.trans hqp).trans h2.1).trans h3.1
  refine ⟨hf, t, ht.symm, ?_, ?_, ?_, ?_⟩
  · have e := h3.2.1
    rw [h2.2.1, hq _ rfl, h1.1, ← ht, List.filter_append] at e
    exact List.append_cancel_left e
  · have e := h3.2.2.1
    rw [h2.2.2.1, hq _ rfl, h1.2.1, ← ht, List.filter_append] at e
    exact List.append_cancel_left e
  · have e := h3.2.2.2.2.1
    rw [h2.2.2.2.2.1, hq _ rfl, h1.2.2.1, ← ht, List.filter_append] at e
    exact List.append_cancel_left e
  · rw [h3.2.2.2.2.2]
    exact h2.2.2.2.2.2.1

/-! ### Save and restore in the texture-to-texture blit -/

/-- C13 as stated fails.  The 4x4x1 texture buffer of `sampleEnv` is bound directly (its
format is supported) and the destination box (0,0,0)-(4,4,2) has the slices 0 and 1.  For
slice 1 the assertion `zoffset < mDepth` of `bindToFramebuffer` fails and stops the call in
the loop: the attribute push and the three matrix pushes have been issued, no pop has, and
the temporary framebuffer 7 is bound where framebuffer 0 was on entry. -/
theorem C13_balanced_save_restore_counterexample :
    (texture4x4.blitFromTexture sampleEnv texture4x4 (Box.ofCorners 0 0 0 4 4 1)
        (Box.ofCorners 0 0 0 4 4 2) emptyWorld).thrown = some Failure.assertionFailed ∧
    (texture4x4.blitFromTexture sampleEnv texture4x4 (Box.ofCorners 0 0 0 4 4 1)
        (Box.ofCorners 0 0 0 4 4 2) emptyWorld).world.gl.commands.filter
        GLCommand.isAttribCommand = [GLCommand.glPushAttrib GL_ATTRIB_BITS] ∧
    matrixEvents GL_MODELVIEW
        (texture4x4.blitFromTexture sampleEnv texture4x4 (Box.ofCorners 0 0 0 4 4 1)
          (Box.ofCorners 0 0 0 4 4 2) emptyWorld).world.gl.commands =
      [MatrixEvent.push GL_MODELVIEW, MatrixEvent.push GL_PROJECTION,
       MatrixEvent.push GL_TEXTURE] ∧
    emptyWorld.gl.framebufferBinding = 0 ∧
    (texture4x4.blitFromTexture sampleEnv texture4x4 (Box.ofCorners 0 0 0 4 4 1)
        (Box.ofCorners 0 0 0 4 4 2) emptyWorld).world.gl.framebufferBinding = 7 := by
  refine ⟨by decide, rfl, by decide, by decide, by decide⟩

/-- C13, amended.  Balanced save and restore in `GLTextureBuffer::blitFromTexture` when no
slice assertion can fail, that is when an intermediate texture is used (the format of the
buffer is not supported by the FBO manager), the slice range is empty, or every slice of
the destination box is below the depth of the buffer.  The call then returns; the command
sequence it issues contains exactly one attribute push and one attribute pop, in this
order; its matrix pushes and pops are one push on each of the modelview, projection and
texture stacks followed by one pop on each of the texture, projection and modelview stacks
(the reverse order of the pushes), whatever stack was selected on entry; the sequence ends
with the rebinding of the source texture, the reset of its base mip level to 0, the
detachment of the colour attachment, the rebinding of the framebuffer that was bound on
entry, the three matrix pops, the attribute pop and the deletion of the intermediate
texture; the only framebuffer bound before that closing sequence is the temporary
framebuffer, so the detachment acts on it; and the framebuffer bound at the end is the one
bound on entry.  In every other case the assertion of the direct bind stops the call in the
loop: the attribute push and the three matrix pushes have been issued, no pop has, and the
temporary framebuffer is still bound. -/
theorem C13_balanced_save_restore (env : Env) (self src : GLTextureBuffer)
    (srcBox dstBox : Box) (w : World) :
    ((env.checkFormat self.mFormat = false ∨ dstBox.back ≤ dstBox.front ∨
        dstBox.back ≤ self.mDepth) →
      (self.blitFromTexture env src srcBox dstBox w).thrown = none ∧
      ∃ issued pre tempTex,
        (self.blitFromTexture env src srcBox dstBox w).world.gl.commands =
          w.gl.commands ++ issued ∧
        issued.filter GLCommand.isAttribCommand =
          [GLCommand.glPushAttrib GL_ATTRIB_BITS, GLCommand.glPopAttrib] ∧
        (∀ mode, matrixEvents mode issued =
          [MatrixEvent.push GL_MODELVIEW, MatrixEvent.push GL_PROJECTION,
           MatrixEvent.push GL_TEXTURE, MatrixEvent.pop GL_TEXTURE,
           MatrixEvent.pop GL_PROJECTION, MatrixEvent.pop GL_MODELVIEW]) ∧
        issued = pre ++
          [GLCommand.bindGLTexture src.mTarget src.mTextureID,
           GLCommand.setTexParameteri src.mTarget GL_TEXTURE_BASE_LEVEL 0,
           GLCommand.glFramebufferRenderbufferEXT GL_FRAMEBUFFER_EXT
             GL_COLOR_ATTACHMENT0_EXT GL_RENDERBUFFER_EXT 0,
           GLCommand.glBindFramebufferEXT GL_FRAMEBUFFER_EXT w.gl.framebufferBinding,
           GLCommand.glMatrixMode GL_TEXTURE, GLCommand.glPopMatrix,
           GLCommand.glMatrixMode GL_PROJECTION, GLCommand.glPopMatrix,
           GLCommand.glMatrixMode GL_MODELVIEW, GLCommand.glPopMatrix,
           GLCommand.glPopAttrib,
           GLCommand.glDeleteTextures 1 tempTex] ∧
        pre.filter GLCommand.isFramebufferBinding =
          [GLCommand.glBindFramebufferEXT GL_FRAMEBUFFER_EXT env.getTemporaryFBO] ∧
        (self.blitFromTexture env src srcBox dstBox w).world.gl.framebufferBinding =
          w.gl.framebufferBinding) ∧
    (¬ (env.checkFormat self.mFormat = false ∨ dstBox.back ≤ dstBox.front ∨
        dstBox.back ≤ self.mDepth) →
      (self.blitFromTexture env src srcBox dstBox w).thrown =
        some Failure.assertionFailed ∧
      ∃ issued,
        (self.blitFromTexture env src srcBox dstBox w).world.gl.commands =
          w.gl.commands ++ issued ∧
        issued.filter GLCommand.isAttribCommand = [GLCommand.glPushAttrib GL_ATTRIB_BITS] ∧
        (∀ mode, matrixEvents mode issued =
          [MatrixEvent.push GL_MODELVIEW, MatrixEvent.push GL_PROJECTION,
           MatrixEvent.push GL_TEXTURE]) ∧
        (self.blitFromTexture env src srcBox dstBox w).world.gl.framebufferBinding =
          env.getTemporaryFBO) := by
  constructor
  · intro hsafe
    obtain ⟨hret, issued, pre, tempTex, hc, ht, ha, hm, hf, hb⟩ :=
      GLTextureBuffer.blitFromTextureGL_returns env self src srcBox dstBox w.gl hsafe
    refine ⟨hret, issued, pre, tempTex, hc, ha, ?_, ht, hf, hb⟩
    intro mode
    rw [matrixEvents_filter, hm]
    rfl
  · intro hstop
    obtain ⟨hret, issued, hc, ha, hm, -, hb⟩ :=
      GLTextureBuffer.blitFromTextureGL_aborts env self src srcBox dstBox w.gl hstop
    refine ⟨hret, issued, hc, ha, ?_, hb⟩
    intro mode
    rw [matrixEvents_filter, hm]
    rfl

/-- C13, amended, at concrete inputs: the blit of the whole 4x4x1 texture onto itself
returns with the framebuffer of entry bound and one attribute push and pop, and the blit
into the empty slice range of the box (0,0,0)-(4,4,0) returns too. -/
theorem C13_balanced_save_restore_witness :
    (texture4x4.blitFromTexture sampleEnv texture4x4 (Box.ofCorners 0 0 0 4 4 1)
        (Box.ofCorners 0 0 0 4 4 1) emptyWorld).thrown = none ∧
    (texture4x4.blitFromTexture sampleEnv texture4x4 (Box.ofCorners 0 0 0 4 4 1)
        (Box.ofCorners 0 0 0 4 4 1) emptyWorld).world.gl.framebufferBinding = 0 ∧
    (texture4x4.blitFromTexture sampleEnv texture4x4 (Box.ofCorners 0 0 0 4 4 1)
        (Box.ofCorners 0 0 0 4 4 1) emptyWorld).world.gl.commands.filter
        GLCommand.isAttribCommand =
      [GLCommand.glPushAttrib GL_ATTRIB_BITS, GLCommand.glPopAttrib] ∧
    (texture4x4.blitFromTexture sampleEnv texture4x4 (Box.ofCorners 0 0 0 4 4 1)
        (Box.ofCorners 0 0 0 4 4 0) emptyWorld).thrown = none :=
  ⟨((C13_balanced_save_restore sampleEnv texture4x4 texture4x4 (Box.ofCorners 0 0 0 4 4 1)
      (Box.ofCorners 0 0 0 4 4 1) emptyWorld).1 (Or.inr (Or.inr (by decide)))).1,
   by decide, rfl,
   ((C13_balanced_save_restore sampleEnv texture4x4 texture4x4 (Box.ofCorners 0 0 0 4 4 1)
      (Box.ofCorners 0 0 0 4 4 0) emptyWorld).1 (Or.inr (Or.inl (by decide)))).1⟩

/-- C14. Filter selection in `GLTextureBuffer::blitFromTexture`.  For every source box and
destination box the call binds the source texture and, right after, sets the minification
filter and then the magnification filter on the target of the source; it sets no other
filter.  Both are nearest if and only if the two boxes have equal width, height and depth;
otherwise the magnification filter is linear and the minification filter is
linear-mipmap-linear if the usage of the source includes automatic mipmaps and linear if
not. -/
theorem C14_filter_selection (env : Env) (self src : GLTextureBuffer)
    (srcBox dstBox : Box) (w : World) :
    ∃ (pre post : List GLCommand) (minFilter magFilter : Int),
      (self.blitFromTexture env src srcBox dstBox w).world.gl.commands =
        w.gl.commands ++ pre ++
          [GLCommand.bindGLTexture src.mTarget src.mTextureID,
           GLCommand.setTexParameteri src.mTarget GL_TEXTURE_MIN_FILTER minFilter,
           GLCommand.setTexParameteri src.mTarget GL_TEXTURE_MAG_FILTER magFilter] ++
          post ∧
      pre.filter GLCommand.isFilterSetting = [] ∧
      post.filter GLCommand.isFilterSetting = [] ∧
      ((minFilter = GL_NEAREST ∧ magFilter = GL_NEAREST) ↔
        (srcBox.getWidth = dstBox.getWidth ∧ srcBox.getHeight = dstBox.getHeight ∧
          srcBox.getDepth = dstBox.getDepth)) ∧
      (¬ (srcBox.getWidth = dstBox.getWidth ∧ srcBox.getHeight = dstBox.getHeight ∧
          srcBox.getDepth = dstBox.getDepth) →
        magFilter = GL_LINEAR ∧
        (src.mUsage &&& TU_AUTOMIPMAP ≠ 0 → minFilter = GL_LINEAR_MIPMAP_LINEAR) ∧
        (src.mUsage &&& TU_AUTOMIPMAP = 0 → minFilter = GL_LINEAR)) := by
  obtain ⟨pre, post, hc, hpre, hpost⟩ :=
    GLTextureBuffer.blitFromTextureGL_filters env self src srcBox dstBox w.gl
  have hc1 : (self.blitFromTexture env src srcBox dstBox w).world.gl.commands =
      w.gl.commands ++ pre ++
        (GLCommand.bindGLTexture src.mTarget src.mTextureID ::
          GLTextureBuffer.blitFilters src srcBox dstBox) ++ post := hc
  unfold GLTextureBuffer.blitFilters at hc1
  by_cases he : srcBox.getWidth = dstBox.getWidth ∧ srcBox.getHeight = dstBox.getHeight ∧
      srcBox.getDepth = dstBox.getDepth
  · rw [if_pos he] at hc1
    exact ⟨pre, post, GL_NEAREST, GL_NEAREST, hc1, hpre, hpost,
      ⟨fun _ => he, fun _ => ⟨rfl, rfl⟩⟩, fun hne => absurd he hne⟩
  · rw [if_neg he] at hc1
    by_cases hm : src.mUsage &&& TU_AUTOMIPMAP ≠ 0
    · rw [if_pos hm] at hc1
      refine ⟨pre, post, GL_LINEAR_MIPMAP_LINEAR, GL_LINEAR, hc1, hpre, hpost,
        ⟨fun h => ?_, fun h => absurd h he⟩,
        fun _ => ⟨rfl, fun _ => rfl, fun h0 => absurd h0 hm⟩⟩
      exact absurd h.2 (by decide)
    · rw [if_neg hm] at hc1
      refine ⟨pre, post, GL_LINEAR, GL_LINEAR, hc1, hpre, hpost,
        ⟨fun h => ?_, fun h => absurd h he⟩,
        fun _ => ⟨rfl, fun h1 => absurd h1 hm, fun _ => rfl⟩⟩
      exact absurd h.2 (by decide)

/-! ### Render targets of the slices -/

/-- The loop of the constructor over a list of slices appends one render texture to the
slice list and two calls to the log for each slice, in order. -/
theorem GLTextureBuffer.createSlice_foldl (writeGamma : Bool) (fsaa : Nat) (l : List Nat)
    (acc : List RenderTexture) (w : World) :
    l.foldl (GLTextureBuffer.createSlice writeGamma fsaa) (acc, w) =
      (acc ++ l.map (fun i =>
          ({ zoffset := i, writeGamma := writeGamma, fsaa := fsaa } : RenderTexture)),
       { w with calls := w.calls ++ l.flatMap (fun i =>
          [Call.createRenderTexture i writeGamma fsaa, Call.attachRenderTarget i]) }) := by
  induction l generalizing acc w with
  | nil => simp
  | cons i rest ih =>
    have h1 : GLTextureBuffer.createSlice writeGamma fsaa (acc, w) i =
        (acc ++ [{ zoffset := i, writeGamma := writeGamma, fsaa := fsaa }],
         (w.log (Call.createRenderTexture i writeGamma fsaa)).log
           (Call.attachRenderTarget i)) := rfl
    rw [List.foldl_cons, h1, ih]
    simp [World.log, List.append_assoc]

/-- The slice list and the call log the constructor leaves. -/
theorem GLTextureBuffer.new_slices (env : Env) (target : GLenum) (id : GLuint)
    (face level : Int) (usage : Nat) (writeGamma : Bool) (fsaa : Nat) (w : World) :
    ((usage &&& TU_RENDERTARGET ≠ 0 ∧
        (GLTextureBuffer.new env target id face level usage writeGamma fsaa w).1.mWidth ≠ 0 ∧
        (GLTextureBuffer.new env target id face level usage writeGamma fsaa w).1.mHeight ≠ 0 ∧
        (GLTextureBuffer.new env target id face level usage writeGamma fsaa w).1.mDepth ≠ 0) →
      (GLTextureBuffer.new env target id face level usage writeGamma fsaa w).2.calls =
        w.calls ++ (List.range
          (GLTextureBuffer.new env target id face level usage writeGamma fsaa w).1.mDepth).flatMap
            (fun i => [Call.createRenderTexture i writeGamma fsaa,
              Call.attachRenderTarget i]) ∧
      (GLTextureBuffer.new env target id face level usage writeGamma fsaa w).1.mSliceTRT =
        (List.range
          (GLTextureBuffer.new env target id face level usage writeGamma fsaa w).1.mDepth).map
            (fun i => ({ zoffset := i, writeGamma := writeGamma, fsaa := fsaa } :
              RenderTexture))) ∧
    ((usage &&& TU_RENDERTARGET = 0 ∨
        (GLTextureBuffer.new env target id face level usage writeGamma fsaa w).1.mWidth = 0 ∨
        (GLTextureBuffer.new env target id face level usage writeGamma fsaa w).1.mHeight = 0 ∨
        (GLTextureBuffer.new env target id face level usage writeGamma fsaa w).1.mDepth = 0) →
      (GLTextureBuffer.new env target id face level usage writeGamma fsaa w).2.calls =
        w.calls ∧
      (GLTextureBuffer.new env target id face level usage writeGamma fsaa w).1.mSliceTRT =
        []) := by
  unfold GLTextureBuffer.new
  simp only []
  constructor
  · rintro ⟨hu, hw, hh, hd⟩
    rw [if_neg (by tauto), if_pos hu, GLTextureBuffer.createSlice_foldl]
    constructor
    · simp only [World.issue]
      split_ifs <;> rfl
    · simp
  · intro h
    by_cases hz : toUInt32 (env.texLevelParameter
          (if target = GL_TEXTURE_CUBE_MAP then
            toUInt32 ((GL_TEXTURE_CUBE_MAP_POSITIVE_X : Int) + face) else target)
          level GL_TEXTURE_WIDTH) = 0 ∨
        (if target = GL_TEXTURE_1D then 1 else toUInt32 (env.texLevelParameter
          (if target = GL_TEXTURE_CUBE_MAP then
            toUInt32 ((GL_TEXTURE_CUBE_MAP_POSITIVE_X : Int) + face) else target)
          level GL_TEXTURE_HEIGHT)) = 0 ∨
        (if target ≠ GL_TEXTURE_3D ∧ target ≠ GL_TEXTURE_2D_ARRAY_EXT then 1
          else toUInt32 (env.texLevelParameter
            (if target = GL_TEXTURE_CUBE_MAP then
              toUInt32 ((GL_TEXTURE_CUBE_MAP_POSITIVE_X : Int) + face) else target)
            level GL_TEXTURE_DEPTH)) = 0
    · rw [if_pos hz]
      constructor
      · simp only [World.issue]
        split_ifs <;> rfl
      · trivial
    · rw [if_neg hz]
      have hu : ¬ usage &&& TU_RENDERTARGET ≠ 0 := by tauto
      rw [if_neg hu]
      constructor
      · simp only [World.issue]
        split_ifs <;> rfl
      · trivial

/-- C15. Render targets per slice at construction.  The constructor of `GLTextureBuffer`
reads the width from the driver, the height unless the target is 1D (then it is 1) and the
depth only for 3D and 2D-array targets (else it is 1).  If the usage includes render-target
and width, height and depth are all non-zero, the constructor creates and attaches one
render target for each of the slices `0 .. depth - 1`, in this order, and records nothing
else; the slice list holds these render targets, the i-th with zoffset i, and has length
depth.  If the usage lacks render-target or one of width, height, depth is zero, nothing is
created or attached and the slice list is empty. -/
theorem C15_render_targets_per_slice (env : Env) (target : GLenum) (id : GLuint)
    (face level : Int) (usage : Nat) (writeGamma : Bool) (fsaa : Nat) (w : World) :
    (GLTextureBuffer.new env target id face level usage writeGamma fsaa w).1.mWidth =
      toUInt32 (env.texLevelParameter
        (GLTextureBuffer.new env target id face level usage writeGamma fsaa w).1.mFaceTarget
        level GL_TEXTURE_WIDTH) ∧
    (target = GL_TEXTURE_1D →
      (GLTextureBuffer.new env target id face level usage writeGamma fsaa w).1.mHeight = 1) ∧
    (target ≠ GL_TEXTURE_1D →
      (GLTextureBuffer.new env target id face level usage writeGamma fsaa w).1.mHeight =
        toUInt32 (env.texLevelParameter
          (GLTextureBuffer.new env target id face level usage writeGamma fsaa w).1.mFaceTarget
          level GL_TEXTURE_HEIGHT)) ∧
    ((target ≠ GL_TEXTURE_3D ∧ target ≠ GL_TEXTURE_2D_ARRAY_EXT) →
      (GLTextureBuffer.new env target id face level usage writeGamma fsaa w).1.mDepth = 1) ∧
    (¬ (target ≠ GL_TEXTURE_3D ∧ target ≠ GL_TEXTURE_2D_ARRAY_EXT) →
      (GLTextureBuffer.new env target id face level usage writeGamma fsaa w).1.mDepth =
        toUInt32 (env.texLevelParameter
          (GLTextureBuffer.new env target id face level usage writeGamma fsaa w).1.mFaceTarget
          level GL_TEXTURE_DEPTH)) ∧
    ((usage &&& TU_RENDERTARGET ≠ 0 ∧
        (GLTextureBuffer.new env target id face level usage writeGamma fsaa w).1.mWidth ≠ 0 ∧
        (GLTextureBuffer.new env target id face level usage writeGamma fsaa w).1.mHeight ≠ 0 ∧
        (GLTextureBuffer.new env target id face level usage writeGamma fsaa w).1.mDepth ≠ 0) →
      (GLTextureBuffer.new env target id face level usage writeGamma fsaa w).2.calls =
        w.calls ++ (List.range
          (GLTextureBuffer.new env target id face level usage writeGamma fsaa w).1.mDepth).flatMap
            (fun i => [Call.createRenderTexture i writeGamma fsaa,
              Call.attachRenderTarget i]) ∧
      (GLTextureBuffer.new env target id face level usage writeGamma fsaa w).1.mSliceTRT =
        (List.range
          (GLTextureBuffer.new env target id face level usage writeGamma fsaa w).1.mDepth).map
            (fun i => ({ zoffset := i, writeGamma := writeGamma, fsaa := fsaa } :
              RenderTexture)) ∧
      (GLTextureBuffer.new env target id face level usage writeGamma fsaa
          w).1.mSliceTRT.length =
        (GLTextureBuffer.new env target id face level usage writeGamma fsaa w).1.mDepth) ∧
    ((usage &&& TU_RENDERTARGET = 0 ∨
        (GLTextureBuffer.new env target id face level usage writeGamma fsaa w).1.mWidth = 0 ∨
        (GLTextureBuffer.new env target id face level usage writeGamma fsaa w).1.mHeight = 0 ∨
        (GLTextureBuffer.new env target id face level usage writeGamma fsaa w).1.mDepth = 0) →
      (GLTextureBuffer.new env target id face level usage writeGamma fsaa w).2.calls =
        w.calls ∧
      (GLTextureBuffer.new env target id face level usage writeGamma fsaa w).1.mSliceTRT =
        []) := by
  have hs := GLTextureBuffer.new_slices env target id face level usage writeGamma fsaa w
  refine ⟨rfl, ?_, ?_, ?_, ?_, ?_, hs.2⟩
  · intro h
    simp [GLTextureBuffer.new, h]
  · intro h
    simp [GLTextureBuffer.new, h]
  · intro h
    simp [GLTextureBuffer.new, h]
  · intro h
    simp only [GLTextureBuffer.new]
    rw [if_neg h]
  · intro h
    obtain ⟨hc, hl⟩ := hs.1 h
    refine ⟨hc, hl, ?_⟩
    rw [hl]
    simp

/-- C15 on a 3D render-target texture of depth 4: four render targets are created and
attached, for the slices 0, 1, 2 and 3. -/
theorem C15_render_targets_per_slice_witness :
    (GLTextureBuffer.new sampleEnv GL_TEXTURE_3D 5 0 0 TU_RENDERTARGET true 2
        emptyWorld).2.calls =
      [Call.createRenderTexture 0 true 2, Call.attachRenderTarget 0,
       Call.createRenderTexture 1 true 2, Call.attachRenderTarget 1,
       Call.createRenderTexture 2 true 2, Call.attachRenderTarget 2,
       Call.createRenderTexture 3 true 2, Call.attachRenderTarget 3] ∧
    (GLTextureBuffer.new sampleEnv GL_TEXTURE_3D 5 0 0 TU_RENDERTARGET true 2
        emptyWorld).1.mSliceTRT.length = 4 := by
  have h := (C15_render_targets_per_slice sampleEnv GL_TEXTURE_3D 5 0 0 TU_RENDERTARGET true
    2 emptyWorld).2.2.2.2.2.1 (by decide)
  have hd : (GLTextureBuffer.new sampleEnv GL_TEXTURE_3D 5 0 0 TU_RENDERTARGET true 2
      emptyWorld).1.mDepth = 4 := by decide
  rw [hd] at h
  exact ⟨h.1, h.2.2⟩

/-! ### The renderbuffer -/

/-- C16. Renderbuffer storage kind.  Constructing a `GLRenderBuffer` issues exactly three
commands: the generation of one renderbuffer name, the binding of that name, and one
storage allocation at the given format, width and height, which is the multisample
allocation with the given sample count if the count is greater than zero and the
single-sample allocation otherwise.  The buffer made has the given width and height, depth
1, and the generated name. -/
theorem C16_renderbuffer_storage_kind (env : Env) (format : GLenum) (width height : Nat)
    (numSamples : Int) (g : GLWorld) :
    (GLRenderBuffer.new env format width height numSamples g).2.commands =
      g.commands ++
        [GLCommand.glGenRenderbuffersEXT 1,
         GLCommand.glBindRenderbufferEXT GL_RENDERBUFFER_EXT
           (GLRenderBuffer.new env format width height numSamples g).1.mRenderbufferID,
         if numSamples > 0 then
           GLCommand.glRenderbufferStorageMultisampleEXT GL_RENDERBUFFER_EXT numSamples
             format width height
         else GLCommand.glRenderbufferStorageEXT GL_RENDERBUFFER_EXT format width height] ∧
    (GLRenderBuffer.new env format width height numSamples g).1.mRenderbufferID =
      g.lastRenderbufferName + 1 ∧
    (GLRenderBuffer.new env format width height numSamples g).1.mWidth = width ∧
    (GLRenderBuffer.new env format width height numSamples g).1.mHeight = height ∧
    (GLRenderBuffer.new env format width height numSamples g).1.mDepth = 1 ∧
    (GLRenderBuffer.new env format width height numSamples g).1.mGLInternalFormat =
      format := by
  refine ⟨?_, rfl, rfl, rfl, rfl, rfl⟩
  unfold GLRenderBuffer.new glGenRenderbuffersEXT GLWorld.issue
  simp only []
  split_ifs <;> simp [List.append_assoc]

/-- C16 at sample count 4: the one storage allocation issued is the multisample one. -/
theorem C16_renderbuffer_storage_kind_witness :
    (GLRenderBuffer.new sampleEnv 0x8058 64 32 4 emptyGL).2.commands.filter
        GLCommand.isRenderbufferStorage =
      [GLCommand.glRenderbufferStorageMultisampleEXT GL_RENDERBUFFER_EXT 4 0x8058 64 32] ∧
    (GLRenderBuffer.new sampleEnv 0x8058 64 32 4 emptyGL).2.commands.filter
        GLCommand.isGenRenderbuffers = [GLCommand.glGenRenderbuffersEXT 1] := by
  rw [(C16_renderbuffer_storage_kind sampleEnv 0x8058 64 32 4 emptyGL).1]
  exact ⟨rfl, rfl⟩

/-! ### Source coordinates of the texture-to-texture blit -/

/-- The texture coordinates `u1`, `v1`, `u2`, `v2` of the quad of a slice are the corners of
the source box divided by the width and the height of the source, and the depth coordinate
of all four corners is `sliceCoordinate`. -/
theorem GLTextureBuffer.drawSlice_coordinates (self src : GLTextureBuffer)
    (srcBox dstBox : Box) (tempTex : GLuint) (g : GLWorld) (slice : Nat) :
    ((self.drawSlice src srcBox dstBox tempTex g slice).commands.drop
        g.commands.length).filter
        (fun c => match c with
          | .glTexCoord3f _ _ _ => true
          | _ => false) =
      [GLCommand.glTexCoord3f ((srcBox.left : ℚ) / (src.mWidth : ℚ))
          ((srcBox.top : ℚ) / (src.mHeight : ℚ)) (src.sliceCoordinate srcBox dstBox slice),
       GLCommand.glTexCoord3f ((srcBox.right : ℚ) / (src.mWidth : ℚ))
          ((srcBox.top : ℚ) / (src.mHeight : ℚ)) (src.sliceCoordinate srcBox dstBox slice),
       GLCommand.glTexCoord3f ((srcBox.right : ℚ) / (src.mWidth : ℚ))
          ((srcBox.bottom : ℚ) / (src.mHeight : ℚ))
          (src.sliceCoordinate srcBox dstBox slice),
       GLCommand.glTexCoord3f ((srcBox.left : ℚ) / (src.mWidth : ℚ))
          ((srcBox.bottom : ℚ) / (src.mHeight : ℚ))
          (src.sliceCoordinate srcBox dstBox slice)] := by
  unfold GLTextureBuffer.drawSlice GLTextureBuffer.copyTemporary GLWorld.issue
  simp only []
  split_ifs <;>
    simp [List.filter_append, List.filter_cons, List.append_assoc]

/-- With a source box that starts at slice 0 the half texel is still added after the
scaling: one source slice stretched over two destination slices gives, for the second of
them, the coordinate of the far face of the source box (`w * srcDepth = 1`). -/
theorem GLTextureBuffer.sliceCoordinate_stretched :
    texture3D.sliceCoordinate (Box.ofCorners 0 0 0 4 4 1) (Box.ofCorners 0 0 0 4 4 2) 1 *
      (texture3D.mDepth : ℚ) = ((Box.ofCorners 0 0 0 4 4 1).back : ℚ) := by
  have hd : texture3D.mDepth = 4 := by decide
  simp only [GLTextureBuffer.sliceCoordinate, hd]
  norm_num [Box.getDepth, Box.ofCorners]

/-- C17 at a failing input.  The source is the 4x4x4 texture, the source box its back half
(slices 2 and 3, contained in the source extent) and the destination box has the two
slices 0 and 1.  For the first destination slice the code computes the depth coordinate
1/8, which addresses source slice 0 (`w * srcDepth = 1/2`), below the front 2 of the source
box; for the second it computes 5/8, which addresses source slice 2 where slice 3 is
meant. -/
theorem C17_source_slice_evaluation :
    texture3D.mDepth = 4 ∧
    texture3D.mBuffer.contains (Box.ofCorners 0 0 2 4 4 4) = true ∧
    texture3D.sliceCoordinate (Box.ofCorners 0 0 2 4 4 4) (Box.ofCorners 0 0 0 4 4 2) 0 =
      1 / 8 ∧
    texture3D.sliceCoordinate (Box.ofCorners 0 0 2 4 4 4) (Box.ofCorners 0 0 0 4 4 2) 1 =
      5 / 8 ∧
    ¬ (((Box.ofCorners 0 0 2 4 4 4).front : ℚ) ≤
        texture3D.sliceCoordinate (Box.ofCorners 0 0 2 4 4 4) (Box.ofCorners 0 0 0 4 4 2) 0 *
          (texture3D.mDepth : ℚ)) := by
  have hd : texture3D.mDepth = 4 := by decide
  have h0 : texture3D.sliceCoordinate (Box.ofCorners 0 0 2 4 4 4)
      (Box.ofCorners 0 0 0 4 4 2) 0 = 1 / 8 := by
    simp only [GLTextureBuffer.sliceCoordinate, hd]
    norm_num [Box.getDepth, Box.ofCorners]
  have h1 : texture3D.sliceCoordinate (Box.ofCorners 0 0 2 4 4 4)
      (Box.ofCorners 0 0 0 4 4 2) 1 = 5 / 8 := by
    simp only [GLTextureBuffer.sliceCoordinate, hd]
    norm_num [Box.getDepth, Box.ofCorners]
  refine ⟨hd, by decide, h0, h1, ?_⟩
  rw [h0, hd]
  norm_num [Box.ofCorners]

/-! ### Access to the render target of a slice -/

/-- C18 as stated fails.  The constructor run for a 2D render-target texture whose width
the driver reports as zero returns a buffer of depth 1 with an empty slice list (it returns
before the loop that creates the render targets).  Both assertions of `getRenderTarget`
hold for zoffset 0, yet 0 is no valid index into the list. -/
theorem C18_render_target_index_counterexample :
    zeroWidthTarget.mUsage &&& TU_RENDERTARGET ≠ 0 ∧
    0 < zeroWidthTarget.mDepth ∧
    zeroWidthTarget.mWidth = 0 ∧
    zeroWidthTarget.mSliceTRT.length ≠ zeroWidthTarget.mDepth ∧
    zeroWidthTarget.getRenderTarget 0 = RenderTargetAccess.outOfRange := by
  decide

/-- C18, amended.  For every buffer the constructor makes with a non-zero width and a
non-zero height, if the two assertions of `getRenderTarget` hold (the usage includes
render-target and zoffset is less than the depth) then the slice list has as many entries as
the buffer has slices and `getRenderTarget` returns the render target of slice zoffset. -/
theorem C18_render_target_index (env : Env) (target : GLenum) (id : GLuint)
    (face level : Int) (usage : Nat) (writeGamma : Bool) (fsaa : Nat) (w : World)
    (zoffset : Nat)
    (hu : (GLTextureBuffer.new env target id face level usage writeGamma fsaa w).1.mUsage &&&
      TU_RENDERTARGET ≠ 0)
    (hz : zoffset <
      (GLTextureBuffer.new env target id face level usage writeGamma fsaa w).1.mDepth)
    (hw : (GLTextureBuffer.new env target id face level usage writeGamma fsaa w).1.mWidth ≠ 0)
    (hh : (GLTextureBuffer.new env target id face level usage writeGamma fsaa w).1.mHeight ≠
      0) :
    (GLTextureBuffer.new env target id face level usage writeGamma fsaa w).1.mSliceTRT.length =
      (GLTextureBuffer.new env target id face level usage writeGamma fsaa w).1.mDepth ∧
    (GLTextureBuffer.new env target id face level usage writeGamma fsaa w).1.getRenderTarget
        zoffset =
      RenderTargetAccess.found { zoffset := zoffset, writeGamma := writeGamma, fsaa := fsaa } := by
  have hu0 : usage &&& TU_RENDERTARGET ≠ 0 := hu
  have hl := ((GLTextureBuffer.new_slices env target id face level usage writeGamma fsaa
    w).1 ⟨hu0, hw, hh, Nat.not_eq_zero_of_lt hz⟩).2
  constructor
  · rw [hl]
    simp
  · unfold GLTextureBuffer.getRenderTarget
    rw [if_neg hu, if_neg (not_not.mpr hz), hl]
    simp [List.getElem?_map, List.getElem?_range hz]

/-- C18, amended, on the 3D render-target texture of depth 4: slice 2 is found. -/
theorem C18_render_target_index_witness :
    (GLTextureBuffer.new sampleEnv GL_TEXTURE_3D 5 0 0 TU_RENDERTARGET true 2
        emptyWorld).1.mSliceTRT.length =
      (GLTextureBuffer.new sampleEnv GL_TEXTURE_3D 5 0 0 TU_RENDERTARGET true 2
        emptyWorld).1.mDepth ∧
    (GLTextureBuffer.new sampleEnv GL_TEXTURE_3D 5 0 0 TU_RENDERTARGET true 2
        emptyWorld).1.getRenderTarget 2 =
      RenderTargetAccess.found { zoffset := 2, writeGamma := true, fsaa := 2 } :=
  C18_render_target_index sampleEnv GL_TEXTURE_3D 5 0 0 TU_RENDERTARGET true 2 emptyWorld 2
    (by decide) (by decide) (by decide) (by decide)


/-! ### The accelerated upload from memory -/

theorem GLWorld.issue_lifetime (c : GLCommand) (g : GLWorld)
    (h : c.isTextureLifetime = false) :
    (g.issue c).commands.filter GLCommand.isTextureLifetime =
      g.commands.filter GLCommand.isTextureLifetime := by
  simp [GLWorld.issue, List.filter_append, List.filter_cons, h]

theorem glPixelStorei_lifetime (pname : GLenum) (param : Nat) (g : GLWorld) :
    (glPixelStorei pname param g).commands.filter GLCommand.isTextureLifetime =
      g.commands.filter GLCommand.isTextureLifetime := by
  simp [glPixelStorei, List.filter_append, List.filter_cons, GLCommand.isTextureLifetime]

theorem GLTextureBuffer.uploadFinish_lifetime (env : Env) (self : GLTextureBuffer)
    (g : GLWorld) :
    (self.uploadFinish env g).commands.filter GLCommand.isTextureLifetime =
      g.commands.filter GLCommand.isTextureLifetime := by
  unfold GLTextureBuffer.uploadFinish
  simp only []
  split_ifs <;>
    repeat (first
      | rfl
      | refine Eq.trans (GLWorld.issue_lifetime _ _ rfl) ?_
      | refine Eq.trans (glPixelStorei_lifetime _ _ _) ?_)

theorem GLTextureBuffer.uploadCompressed_lifetime (env : Env) (self : GLTextureBuffer)
    (data : PixelBox) (dest : Box) (g : GLWorld) :
    (self.uploadCompressed env data dest g).commands.filter GLCommand.isTextureLifetime =
      g.commands.filter GLCommand.isTextureLifetime := by
  unfold GLTextureBuffer.uploadCompressed
  simp only []
  split_ifs <;>
    repeat (first
      | rfl
      | refine Eq.trans (GLWorld.issue_lifetime _ _ rfl) ?_)

theorem GLTextureBuffer.uploadUncompressed_lifetime (env : Env) (self : GLTextureBuffer)
    (data : PixelBox) (dest : Box) (g : GLWorld) :
    (self.uploadUncompressed env data dest g).commands.filter GLCommand.isTextureLifetime =
      g.commands.filter GLCommand.isTextureLifetime := by
  unfold GLTextureBuffer.uploadUncompressed
  simp only []
  split_ifs <;>
    repeat (first
      | rfl
      | refine Eq.trans (GLWorld.issue_lifetime _ _ rfl) ?_
      | refine Eq.trans (glPixelStorei_lifetime _ _ _) ?_)

/-- An upload creates and deletes no texture. -/
theorem GLTextureBuffer.upload_lifetime (env : Env) (self : GLTextureBuffer)
    (data : PixelBox) (dest : Box) (g : GLWorld) :
    (self.upload env data dest g).gl.commands.filter GLCommand.isTextureLifetime =
      g.commands.filter GLCommand.isTextureLifetime := by
  have hb : (g.issue (.bindGLTexture self.mTarget self.mTextureID)).commands.filter
      GLCommand.isTextureLifetime = g.commands.filter GLCommand.isTextureLifetime :=
    GLWorld.issue_lifetime _ _ rfl
  unfold GLTextureBuffer.upload
  simp only []
  split_ifs
  · exact hb
  · exact ((GLTextureBuffer.uploadFinish_lifetime env self _).trans
      (GLTextureBuffer.uploadCompressed_lifetime env self data dest _)).trans hb
  · exact ((GLTextureBuffer.uploadFinish_lifetime env self _).trans
      (GLTextureBuffer.uploadUncompressed_lifetime env self data dest _)).trans hb

/-- The generic `blitFromMemory` creates and deletes no texture when the upload primitive
does not. -/
theorem GLHardwarePixelBuffer.blitFromMemory_lifetime (env : Env) (vt : Primitives)
    (self : GLHardwarePixelBuffer) (src : PixelBox) (box : Box) (w : World)
    (hvt : ∀ data dest g, (vt.upload data dest g).gl.commands.filter
        GLCommand.isTextureLifetime = g.commands.filter GLCommand.isTextureLifetime) :
    (GLHardwarePixelBuffer.blitFromMemory env vt self src box
        w).world.gl.commands.filter GLCommand.isTextureLifetime =
      w.gl.commands.filter GLCommand.isTextureLifetime := by
  unfold GLHardwarePixelBuffer.blitFromMemory
  simp only []
  split_ifs
  · rfl
  · rw [(GLHardwarePixelBuffer.upload_then_free _ _ _ _).2.2.2, hvt]
    rfl
  · rw [(GLHardwarePixelBuffer.upload_then_free _ _ _ _).2.2.2, hvt]
    rfl
  · rw [(GLHardwarePixelBuffer.upload_then_free _ _ _ _).2.2.2, hvt]
    rfl

/-- The constructor of a texture buffer only extends the command log, creates and deletes
no texture, and hands out no texture name. -/
theorem GLTextureBuffer.new_commands (env : Env) (target : GLenum) (id : GLuint)
    (face level : Int) (usage : Nat) (writeGamma : Bool) (fsaa : Nat) (w : World) :
    w.gl.commands <+:
      (GLTextureBuffer.new env target id face level usage writeGamma fsaa w).2.gl.commands ∧
    (GLTextureBuffer.new env target id face level usage writeGamma fsaa
        w).2.gl.commands.filter GLCommand.isTextureLifetime =
      w.gl.commands.filter GLCommand.isTextureLifetime ∧
    (GLTextureBuffer.new env target id face level usage writeGamma fsaa w).2.gl.framebufferBinding =
      w.gl.framebufferBinding := by
  unfold GLTextureBuffer.new
  simp only [GLTextureBuffer.createSlice_foldl]
  split_ifs <;>
    simp [World.issue, GLWorld.issue, List.filter_append, List.filter_cons,
      GLCommand.isTextureLifetime, List.append_assoc]

/-- The conversion section of the fast path: the source is converted to the format of the
buffer exactly when its format has no native transfer format; no command is issued. -/
theorem GLTextureBuffer.convertSource_logs (env : Env) (self : GLTextureBuffer)
    (src_orig : PixelBox) (w : World) :
    (self.convertSource env src_orig w).1 =
      (if env.getGLOriginFormat src_orig.format = 0 then
        PixelBox.ofExtent src_orig.getWidth src_orig.getHeight src_orig.getDepth
          self.mFormat Pointer.conversion
      else src_orig) ∧
    (self.convertSource env src_orig w).2.calls =
      w.calls ++ [Call.getGLOriginFormat src_orig.format] ++
        (if env.getGLOriginFormat src_orig.format = 0 then
          [Call.newMemoryDataStream (env.getMemorySize src_orig.getWidth
             src_orig.getHeight src_orig.getDepth self.mFormat),
           Call.bulkPixelConversion src_orig (self.convertSource env src_orig w).1]
         else []) ∧
    (self.convertSource env src_orig w).2.gl.commands = w.gl.commands ∧
    (self.convertSource env src_orig w).2.gl.lastTextureName = w.gl.lastTextureName := by
  unfold GLTextureBuffer.convertSource GLPixelUtil.getGLOriginFormat
  simp only [beq_iff_eq]
  split_ifs <;> simp [PixelUtil.bulkPixelConversion, World.log]

/-- The creation section of the fast path: one texture name is generated and bound, and
storage of the rounded source extent is allocated on a 3D target if the depth of the source
is not 1 and on a 2D target if it is. -/
theorem GLTextureBuffer.createTemporary_logs (env : Env) (self : GLTextureBuffer)
    (src : PixelBox) (w : World) :
    (self.createTemporary env src w).1 = w.gl.lastTextureName + 1 ∧
    (self.createTemporary env src w).2.1 =
      (if src.getDepth ≠ 1 then GL_TEXTURE_3D else GL_TEXTURE_2D) ∧
    (self.createTemporary env src w).2.2.calls = w.calls ∧
    (self.createTemporary env src w).2.2.gl.commands =
      w.gl.commands ++
        [GLCommand.glGenTextures 1,
        GLCommand.bindGLTexture
          (if src.getDepth ≠ 1 then GL_TEXTURE_3D else GL_TEXTURE_2D)
          (w.gl.lastTextureName + 1),
        GLCommand.setTexParameteri
          (if src.getDepth ≠ 1 then GL_TEXTURE_3D else GL_TEXTURE_2D)
          GL_TEXTURE_MAX_LEVEL 1000,
        GLCommand.setTexParameteri
          (if src.getDepth ≠ 1 then GL_TEXTURE_3D else GL_TEXTURE_2D)
          GL_GENERATE_MIPMAP GL_TRUE,
        if src.getDepth ≠ 1 then
          GLCommand.glTexImage3D GL_TEXTURE_3D 0
            (env.getClosestGLInternalFormat src.format self.mHwGamma)
            (env.optionalPO2 src.getWidth) (env.optionalPO2 src.getHeight)
            (env.optionalPO2 src.getDepth) 0 GL_RGBA GL_UNSIGNED_BYTE
        else
          GLCommand.glTexImage2D GL_TEXTURE_2D 0
            (env.getClosestGLInternalFormat src.format self.mHwGamma)
            (env.optionalPO2 src.getWidth) (env.optionalPO2 src.getHeight) 0
            GL_RGBA GL_UNSIGNED_BYTE] := by
  unfold GLTextureBuffer.createTemporary glGenTextures
  simp only []
  by_cases hd : src.getDepth ≠ 1
  · simp [hd, World.issue, GLWorld.issue, List.append_assoc]
  · simp [hd, World.issue, GLWorld.issue, List.append_assoc]

/-- An upload of a source that is not of a compressed format returns. -/
theorem GLTextureBuffer.upload_uncompressed_returns (env : Env) (self : GLTextureBuffer)
    (data : PixelBox) (dest : Box) (g : GLWorld) (h : env.isCompressed data.format = false) :
    (self.upload env data dest g).thrown = none := by
  unfold GLTextureBuffer.upload
  simp [h, GLResult.ok]

/-- The fast path of `GLTextureBuffer::blitFromMemory`, as the calls and commands it leaves.
`own` are the commands of the constructor of the temporary texture buffer and of the upload
into it, `nested` those of the call of `blitFromTexture`. -/
theorem GLTextureBuffer.blitFromMemoryFast_logs (env : Env) (self : GLTextureBuffer)
    (src_orig : PixelBox) (dstBox : Box) (w : World) :
    ∃ (src : PixelBox) (own : List GLCommand),
      src = (if env.getGLOriginFormat src_orig.format = 0 then
          PixelBox.ofExtent src_orig.getWidth src_orig.getHeight src_orig.getDepth
            self.mFormat Pointer.conversion
        else src_orig) ∧
      own.filter GLCommand.isTextureLifetime = [] ∧
      (env.isCompressed src.format = false →
        (env.checkFormat self.mFormat = false ∨ dstBox.back ≤ dstBox.front ∨
          dstBox.back ≤ self.mDepth) →
        (self.blitFromMemoryFast env src_orig dstBox w).thrown = none) ∧
      (((self.blitFromMemoryFast env src_orig dstBox w).thrown = none ∧
        (self.blitFromMemoryFast env src_orig dstBox w).world.calls =
          w.calls ++ [Call.getGLOriginFormat src_orig.format] ++
            (if env.getGLOriginFormat src_orig.format = 0 then
              [Call.newMemoryDataStream (env.getMemorySize src_orig.getWidth
                 src_orig.getHeight src_orig.getDepth self.mFormat),
               Call.bulkPixelConversion src_orig src]
             else []) ++
            [Call.newTextureBuffer (if src.getDepth ≠ 1 then GL_TEXTURE_3D else GL_TEXTURE_2D)
               (w.gl.lastTextureName + 1) 0 0 (TU_AUTOMIPMAP ||| HBU_STATIC_WRITE_ONLY)
               false 0,
             Call.textureUpload (w.gl.lastTextureName + 1) src
               (Box.ofCorners 0 0 0 src.getWidth src.getHeight src.getDepth),
             Call.blitFromTexture (w.gl.lastTextureName + 1)
               (Box.ofCorners 0 0 0 src.getWidth src.getHeight src.getDepth) dstBox] ∧
        ∃ (nested : List GLCommand) (tex : GLTextureBuffer) (g : GLWorld),
          tex.mTextureID = w.gl.lastTextureName + 1 ∧
          tex.mTarget = (if src.getDepth ≠ 1 then GL_TEXTURE_3D else GL_TEXTURE_2D) ∧
          (self.blitFromTextureGL env tex
              (Box.ofCorners 0 0 0 src.getWidth src.getHeight src.getDepth) dstBox
              g).thrown = none ∧
          (self.blitFromTextureGL env tex
              (Box.ofCorners 0 0 0 src.getWidth src.getHeight src.getDepth) dstBox
              g).gl.commands = g.commands ++ nested ∧
          (self.blitFromMemoryFast env src_orig dstBox w).world.gl.commands =
            w.gl.commands ++
              [GLCommand.glGenTextures 1,
               GLCommand.bindGLTexture
                 (if src.getDepth ≠ 1 then GL_TEXTURE_3D else GL_TEXTURE_2D)
                 (w.gl.lastTextureName + 1),
               GLCommand.setTexParameteri
                 (if src.getDepth ≠ 1 then GL_TEXTURE_3D else GL_TEXTURE_2D)
                 GL_TEXTURE_MAX_LEVEL 1000,
               GLCommand.setTexParameteri
                 (if src.getDepth ≠ 1 then GL_TEXTURE_3D else GL_TEXTURE_2D)
                 GL_GENERATE_MIPMAP GL_TRUE,
               if src.getDepth ≠ 1 then
                 GLCommand.glTexImage3D GL_TEXTURE_3D 0
                   (env.getClosestGLInternalFormat src.format self.mHwGamma)
                   (env.optionalPO2 src.getWidth) (env.optionalPO2 src.getHeight)
                   (env.optionalPO2 src.getDepth) 0 GL_RGBA GL_UNSIGNED_BYTE
               else
                 GLCommand.glTexImage2D GL_TEXTURE_2D 0
                   (env.getClosestGLInternalFormat src.format self.mHwGamma)
                   (env.optionalPO2 src.getWidth) (env.optionalPO2 src.getHeight) 0
                   GL_RGBA GL_UNSIGNED_BYTE] ++
              own ++ nested ++ [GLCommand.glDeleteTextures 1 (w.gl.lastTextureName + 1)]) ∨
       ((self.blitFromMemoryFast env src_orig dstBox w).thrown =
          some (Failure.ogreExcept .ERR_INVALIDPARAMS .compressedImagesMustBeConsecutive
            .GLTextureBuffer_upload) ∧
        (self.blitFromMemoryFast env src_orig dstBox w).world.calls =
          w.calls ++ [Call.getGLOriginFormat src_orig.format] ++
            (if env.getGLOriginFormat src_orig.format = 0 then
              [Call.newMemoryDataStream (env.getMemorySize src_orig.getWidth
                 src_orig.getHeight src_orig.getDepth self.mFormat),
               Call.bulkPixelConversion src_orig src]
             else []) ++
            [Call.newTextureBuffer (if src.getDepth ≠ 1 then GL_TEXTURE_3D else GL_TEXTURE_2D)
               (w.gl.lastTextureName + 1) 0 0 (TU_AUTOMIPMAP ||| HBU_STATIC_WRITE_ONLY)
               false 0,
             Call.textureUpload (w.gl.lastTextureName + 1) src
               (Box.ofCorners 0 0 0 src.getWidth src.getHeight src.getDepth)] ∧
        (self.blitFromMemoryFast env src_orig dstBox w).world.gl.commands =
          w.gl.commands ++
              [GLCommand.glGenTextures 1,
               GLCommand.bindGLTexture
                 (if src.getDepth ≠ 1 then GL_TEXTURE_3D else GL_TEXTURE_2D)
                 (w.gl.lastTextureName + 1),
               GLCommand.setTexParameteri
                 (if src.getDepth ≠ 1 then GL_TEXTURE_3D else GL_TEXTURE_2D)
                 GL_TEXTURE_MAX_LEVEL 1000,
               GLCommand.setTexParameteri
                 (if src.getDepth ≠ 1 then GL_TEXTURE_3D else GL_TEXTURE_2D)
                 GL_GENERATE_MIPMAP GL_TRUE,
               if src.getDepth ≠ 1 then
                 GLCommand.glTexImage3D GL_TEXTURE_3D 0
                   (env.getClosestGLInternalFormat src.format self.mHwGamma)
                   (env.optionalPO2 src.getWidth) (env.optionalPO2 src.getHeight)
                   (env.optionalPO2 src.getDepth) 0 GL_RGBA GL_UNSIGNED_BYTE
               else
                 GLCommand.glTexImage2D GL_TEXTURE_2D 0
                   (env.getClosestGLInternalFormat src.format self.mHwGamma)
                   (env.optionalPO2 src.getWidth) (env.optionalPO2 src.getHeight) 0
                   GL_RGBA GL_UNSIGNED_BYTE] ++
              own) ∨
       (¬ (env.checkFormat self.mFormat = false ∨ dstBox.back ≤ dstBox.front ∨
            dstBox.back ≤ self.mDepth) ∧
        (self.blitFromMemoryFast env src_orig dstBox w).thrown = some Failure.assertionFailed ∧
        (self.blitFromMemoryFast env src_orig dstBox w).world.calls =
          w.calls ++ [Call.getGLOriginFormat src_orig.format] ++
            (if env.getGLOriginFormat src_orig.format = 0 then
              [Call.newMemoryDataStream (env.getMemorySize src_orig.getWidth
                 src_orig.getHeight src_orig.getDepth self.mFormat),
               Call.bulkPixelConversion src_orig src]
             else []) ++
            [Call.newTextureBuffer (if src.getDepth ≠ 1 then GL_TEXTURE_3D else GL_TEXTURE_2D)
               (w.gl.lastTextureName + 1) 0 0 (TU_AUTOMIPMAP ||| HBU_STATIC_WRITE_ONLY)
               false 0,
             Call.textureUpload (w.gl.lastTextureName + 1) src
               (Box.ofCorners 0 0 0 src.getWidth src.getHeight src.getDepth),
             Call.blitFromTexture (w.gl.lastTextureName + 1)
               (Box.ofCorners 0 0 0 src.getWidth src.getHeight src.getDepth) dstBox] ∧
        ∃ (nested : List GLCommand) (tex : GLTextureBuffer) (g : GLWorld),
          tex.mTextureID = w.gl.lastTextureName + 1 ∧
          tex.mTarget = (if src.getDepth ≠ 1 then GL_TEXTURE_3D else GL_TEXTURE_2D) ∧
          (self.blitFromTextureGL env tex
              (Box.ofCorners 0 0 0 src.getWidth src.getHeight src.getDepth) dstBox
              g).thrown = some Failure.assertionFailed ∧
          (self.blitFromTextureGL env tex
              (Box.ofCorners 0 0 0 src.getWidth src.getHeight src.getDepth) dstBox
              g).gl.commands = g.commands ++ nested ∧
          (self.blitFromMemoryFast env src_orig dstBox w).world.gl.commands =
            w.gl.commands ++
              [GLCommand.glGenTextures 1,
               GLCommand.bindGLTexture
                 (if src.getDepth ≠ 1 then GL_TEXTURE_3D else GL_TEXTURE_2D)
                 (w.gl.lastTextureName + 1),
               GLCommand.setTexParameteri
                 (if src.getDepth ≠ 1 then GL_TEXTURE_3D else GL_TEXTURE_2D)
                 GL_TEXTURE_MAX_LEVEL 1000,
               GLCommand.setTexParameteri
                 (if src.getDepth ≠ 1 then GL_TEXTURE_3D else GL_TEXTURE_2D)
                 GL_GENERATE_MIPMAP GL_TRUE,
               if src.getDepth ≠ 1 then
                 GLCommand.glTexImage3D GL_TEXTURE_3D 0
                   (env.getClosestGLInternalFormat src.format self.mHwGamma)
                   (env.optionalPO2 src.getWidth) (env.optionalPO2 src.getHeight)
                   (env.optionalPO2 src.getDepth) 0 GL_RGBA GL_UNSIGNED_BYTE
               else
                 GLCommand.glTexImage2D GL_TEXTURE_2D 0
                   (env.getClosestGLInternalFormat src.format self.mHwGamma)
                   (env.optionalPO2 src.getWidth) (env.optionalPO2 src.getHeight) 0
                   GL_RGBA GL_UNSIGNED_BYTE] ++
              own ++ nested)) := by
  obtain ⟨hc1, hc2, hc3, hc4⟩ := GLTextureBuffer.convertSource_logs env self src_orig w
  unfold GLTextureBuffer.blitFromMemoryFast
  simp only []
  generalize self.convertSource env src_orig w = cv at hc1 hc2 hc3 hc4 ⊢
  obtain ⟨ht1, ht2, ht3, ht4⟩ := GLTextureBuffer.createTemporary_logs env self cv.1 cv.2
  generalize self.createTemporary env cv.1 cv.2 = tmp at ht1 ht2 ht3 ht4 ⊢
  have hn := GLTextureBuffer.new_commands env tmp.2.1 tmp.1 0 0
    (TU_AUTOMIPMAP ||| HBU_STATIC_WRITE_ONLY) false 0
    (tmp.2.2.log (Call.newTextureBuffer tmp.2.1 tmp.1 0 0
      (TU_AUTOMIPMAP ||| HBU_STATIC_WRITE_ONLY) false 0))
  have hs := ((GLTextureBuffer.new_slices env tmp.2.1 tmp.1 0 0
    (TU_AUTOMIPMAP ||| HBU_STATIC_WRITE_ONLY) false 0
    (tmp.2.2.log (Call.newTextureBuffer tmp.2.1 tmp.1 0 0
      (TU_AUTOMIPMAP ||| HBU_STATIC_WRITE_ONLY) false 0))).2 (Or.inl (by decide))).1
  have hid : (GLTextureBuffer.new env tmp.2.1 tmp.1 0 0
    (TU_AUTOMIPMAP ||| HBU_STATIC_WRITE_ONLY) false 0
    (tmp.2.2.log (Call.newTextureBuffer tmp.2.1 tmp.1 0 0
      (TU_AUTOMIPMAP ||| HBU_STATIC_WRITE_ONLY) false 0))).1.mTextureID = tmp.1 := rfl
  have htg : (GLTextureBuffer.new env tmp.2.1 tmp.1 0 0
    (TU_AUTOMIPMAP ||| HBU_STATIC_WRITE_ONLY) false 0
    (tmp.2.2.log (Call.newTextureBuffer tmp.2.1 tmp.1 0 0
      (TU_AUTOMIPMAP ||| HBU_STATIC_WRITE_ONLY) false 0))).1.mTarget = tmp.2.1 := rfl
  generalize GLTextureBuffer.new env tmp.2.1 tmp.1 0 0
    (TU_AUTOMIPMAP ||| HBU_STATIC_WRITE_ONLY) false 0
    (tmp.2.2.log (Call.newTextureBuffer tmp.2.1 tmp.1 0 0
      (TU_AUTOMIPMAP ||| HBU_STATIC_WRITE_ONLY) false 0)) = made at hn hs hid htg ⊢
  have hu1 := GLTextureBuffer.upload_extends env made.1 cv.1
    (Box.ofCorners 0 0 0 cv.1.getWidth cv.1.getHeight cv.1.getDepth) made.2.gl
  have hu2 := GLTextureBuffer.upload_lifetime env made.1 cv.1
    (Box.ofCorners 0 0 0 cv.1.getWidth cv.1.getHeight cv.1.getDepth) made.2.gl
  have hu3 := GLTextureBuffer.upload_failure_kind env made.1 cv.1
    (Box.ofCorners 0 0 0 cv.1.getWidth cv.1.getHeight cv.1.getDepth) made.2.gl
  have hu4 := GLTextureBuffer.upload_uncompressed_returns env made.1 cv.1
    (Box.ofCorners 0 0 0 cv.1.getWidth cv.1.getHeight cv.1.getDepth) made.2.gl
  simp only [World.runGL, World.log]
  generalize made.1.upload env cv.1
    (Box.ofCorners 0 0 0 cv.1.getWidth cv.1.getHeight cv.1.getDepth) made.2.gl = up
    at hu1 hu2 hu3 hu4 ⊢
  obtain ⟨q, hq⟩ := hn.1
  obtain ⟨u, hu⟩ := hu1
  have hq1 : tmp.2.2.gl.commands ++ q = made.2.gl.commands := hq
  have hcmd : up.gl.commands = tmp.2.2.gl.commands ++ (q ++ u) := by
    rw [← hu, ← hq1, List.append_assoc]
  have hown : (q ++ u).filter GLCommand.isTextureLifetime = [] := by
    have e : (tmp.2.2.gl.commands ++ (q ++ u)).filter GLCommand.isTextureLifetime =
        tmp.2.2.gl.commands.filter GLCommand.isTextureLifetime ++ [] := by
      rw [← hcmd, hu2, hn.2.1, List.append_nil]
      rfl
    rw [List.filter_append] at e
    exact List.append_cancel_left e
  have hcalls : made.2.calls = cv.2.calls ++ [Call.newTextureBuffer tmp.2.1 tmp.1 0 0
      (TU_AUTOMIPMAP ||| HBU_STATIC_WRITE_ONLY) false 0] := by
    rw [hs, ← ht3]
    rfl
  -- the nested call of `blitFromTexture`
  have hkind := GLTextureBuffer.blitFromTextureGL_kind env self made.1
    (Box.ofCorners 0 0 0 cv.1.getWidth cv.1.getHeight cv.1.getDepth) dstBox up.gl
  have hsafe := GLTextureBuffer.blitFromTextureGL_returns env self made.1
    (Box.ofCorners 0 0 0 cv.1.getWidth cv.1.getHeight cv.1.getDepth) dstBox up.gl
  have hstop := GLTextureBuffer.blitFromTextureGL_aborts env self made.1
    (Box.ofCorners 0 0 0 cv.1.getWidth cv.1.getHeight cv.1.getDepth) dstBox up.gl
  obtain ⟨npre, npost, hnest, -, -⟩ := GLTextureBuffer.blitFromTextureGL_filters env self
    made.1 (Box.ofCorners 0 0 0 cv.1.getWidth cv.1.getHeight cv.1.getDepth) dstBox up.gl
  rw [List.append_assoc, List.append_assoc] at hnest
  rcases hu3 with h0 | hf
  · simp only [Result.andThen, h0, GLTextureBuffer.blitFromTexture, World.runGL, World.log]
    generalize hnb : self.blitFromTextureGL env made.1
      (Box.ofCorners 0 0 0 cv.1.getWidth cv.1.getHeight cv.1.getDepth) dstBox up.gl = nb
      at hkind hsafe hstop hnest ⊢
    by_cases hin : env.checkFormat self.mFormat = false ∨ dstBox.back ≤ dstBox.front ∨
        dstBox.back ≤ self.mDepth
    · have hk := (hsafe hin).1
      simp only [hk]
      refine ⟨cv.1, q ++ u, hc1, hown, fun _ _ => rfl, Or.inl ⟨rfl, ?_, _, made.1, up.gl,
        ?_, ?_, by rw [hnb]; exact hk, by rw [hnb]; exact hnest, ?_⟩⟩
      · simp only [Result.ok, World.issue, hcalls, hc2, ht1, ht2, hc4, hid,
          List.append_assoc, List.cons_append, List.nil_append]
      · rw [hid, ht1, hc4]
      · rw [htg, ht2]
      · simp only [Result.ok, World.issue, GLWorld.issue]
        rw [hnest, hcmd, ht4, hc3, hc4, ht1, hc4]
    · have hk := (hstop hin).1
      simp only [hk]
      refine ⟨cv.1, q ++ u, hc1, hown, fun _ h => absurd h hin, Or.inr (Or.inr ⟨hin, trivial,
        ?_, _, made.1, up.gl, ?_, ?_, by rw [hnb]; exact hk, by rw [hnb]; exact hnest, ?_⟩)⟩
      · simp only [hcalls, hc2, ht1, ht2, hc4, hid, List.append_assoc, List.cons_append,
          List.nil_append]
      · rw [hid, ht1, hc4]
      · rw [htg, ht2]
      · rw [hnest, hcmd, ht4, hc3, hc4]
  · simp only [Result.andThen, hf]
    refine ⟨cv.1, q ++ u, hc1, hown, fun h _ => ?_, Or.inr (Or.inl ⟨trivial, ?_, ?_⟩)⟩
    · rw [hu4 h] at hf
      exact absurd hf (by simp)
    · simp only [hcalls, hc2, ht1, ht2, hc4, List.append_assoc, List.cons_append,
        List.nil_append]
    · rw [hcmd, ht4, hc3, hc4]

/-- The generic `blitFromMemory` only extends the call log. -/
theorem GLHardwarePixelBuffer.blitFromMemory_calls (env : Env) (vt : Primitives)
    (self : GLHardwarePixelBuffer) (src : PixelBox) (box : Box) (w : World) :
    w.calls <+: (GLHardwarePixelBuffer.blitFromMemory env vt self src box w).world.calls := by
  unfold GLHardwarePixelBuffer.blitFromMemory
  simp only []
  split_ifs
  · exact List.prefix_refl _
  · rw [(GLHardwarePixelBuffer.upload_then_free _ _ _ _).2.1]
    simp [Image.scale, GLHardwarePixelBuffer.allocateBuffer, List.append_assoc]
  · rw [(GLHardwarePixelBuffer.upload_then_free _ _ _ _).2.1]
    simp [PixelUtil.bulkPixelConversion, GLHardwarePixelBuffer.allocateBuffer,
      GLPixelUtil.getGLOriginFormat, World.log, List.append_assoc]
  · rw [(GLHardwarePixelBuffer.upload_then_free _ _ _ _).2.1]
    simp [GLHardwarePixelBuffer.allocateBuffer, GLPixelUtil.getGLOriginFormat, World.log,
      List.append_assoc]

/-- The fallback condition of `GLTextureBuffer::blitFromMemory`, as a proposition. -/
theorem GLTextureBuffer.blitFromMemory_condition (env : Env) (self : GLTextureBuffer)
    (src_orig : PixelBox) (dstBox : Box) :
    (!env.GLEW_EXT_framebuffer_object ||
      env.isLuminance src_orig.format ||
      env.isLuminance self.mFormat ||
      (src_orig.getWidth == dstBox.getWidth &&
       src_orig.getHeight == dstBox.getHeight &&
       src_orig.getDepth == dstBox.getDepth)) = true ↔
    (env.GLEW_EXT_framebuffer_object = false ∨ env.isLuminance src_orig.format = true ∨
      env.isLuminance self.mFormat = true ∨
      (src_orig.getWidth = dstBox.getWidth ∧ src_orig.getHeight = dstBox.getHeight ∧
        src_orig.getDepth = dstBox.getDepth)) := by
  simp only [Bool.or_eq_true, Bool.and_eq_true, beq_iff_eq, Bool.not_eq_true', or_assoc,
    and_assoc]

/-- C12 as stated fails.  In `compressedEnv` the FBO extension is advertised and no format
is luminance.  The destination is the 4x4x1 compressed texture buffer, the source an 8x8x1
box of the compressed format `3` (which has a native transfer format, so nothing is
converted) whose row pitch is 16, and the destination box (0,0,0)-(4,4,1) is contained and
differs from the source in extent.  The call takes the fast path, creates the temporary
texture and starts the upload, which raises InvalidParameters because the source is not
consecutive: `blitFromTexture` is never called and the temporary texture is never
deleted. -/
theorem C12_blitFromMemory_fast_path_counterexample :
    compressedEnv.GLEW_EXT_framebuffer_object = true ∧
    compressedEnv.isLuminance 3 = false ∧
    compressedTexture2D.mFormat = 3 ∧
    ({ clientBox 8 8 1 3 with rowPitch := 16 } : PixelBox).getWidth ≠
      (Box.ofCorners 0 0 0 4 4 1).getWidth ∧
    (compressedTexture2D.buffer emptyWorld).contains (Box.ofCorners 0 0 0 4 4 1) = true ∧
    (compressedTexture2D.blitFromMemory compressedEnv { clientBox 8 8 1 3 with rowPitch := 16 }
        (Box.ofCorners 0 0 0 4 4 1) emptyWorld).thrown =
      some (Failure.ogreExcept .ERR_INVALIDPARAMS .compressedImagesMustBeConsecutive
        .GLTextureBuffer_upload) ∧
    (compressedTexture2D.blitFromMemory compressedEnv { clientBox 8 8 1 3 with rowPitch := 16 }
        (Box.ofCorners 0 0 0 4 4 1) emptyWorld).world.calls =
      [Call.getGLOriginFormat 3,
       Call.newTextureBuffer GL_TEXTURE_2D 1 0 0 (TU_AUTOMIPMAP ||| HBU_STATIC_WRITE_ONLY)
         false 0,
       Call.textureUpload 1 { clientBox 8 8 1 3 with rowPitch := 16 }
         (Box.ofCorners 0 0 0 8 8 1)] ∧
    (compressedTexture2D.blitFromMemory compressedEnv { clientBox 8 8 1 3 with rowPitch := 16 }
        (Box.ofCorners 0 0 0 4 4 1) emptyWorld).world.gl.commands.filter
        GLCommand.isTextureLifetime = [GLCommand.glGenTextures 1] := by
  refine ⟨by decide, by decide, by decide, by decide, by decide, by decide, by decide, rfl⟩

/-- The shadow box of a buffer made by the constructor has the depth of the buffer. -/
theorem GLTextureBuffer.new_shadow_depth (env : Env) (target : GLenum) (id : GLuint)
    (face level : Int) (usage : Nat) (writeGamma : Bool) (fsaa : Nat) (w : World) :
    (GLTextureBuffer.new env target id face level usage writeGamma fsaa w).1.mBuffer.back =
      (GLTextureBuffer.new env target id face level usage writeGamma fsaa w).1.mDepth := rfl

/-- C12, amended.  `GLTextureBuffer::blitFromMemory` delegates to the generic
`GLHardwarePixelBuffer::blitFromMemory` if and only if FBO support is absent, or the format
of the source is luminance, or the format of the buffer is luminance, or the source has the
width, height and depth of the destination box; the delegating call creates and deletes no
texture.  Otherwise a destination box that is not contained raises the range error, and
for a contained destination box the call probes the format of the source, converts the
source to the format of the buffer exactly when the probe finds no native transfer format,
generates one texture name, binds it on a 3D target if the depth of the source is not 1
and on a 2D target if it is, allocates storage of the rounded source extent, constructs a
texture buffer for it and uploads the source at the box (0,0,0)-(w,h,d).  When that upload
returns (it does whenever the source uploaded is not of a compressed format) the call
calls `blitFromTexture` once from that box to the destination box, which returns, and then
deletes the texture it generated.  When the upload raises its error the error leaves the
call: `blitFromTexture` is not called, and no texture is deleted.  The shadow box of the
buffer has the depth of the buffer, as it has for every buffer the constructor makes, so
that no slice of the contained destination box fails the assertion of the direct bind. -/
theorem C12_blitFromMemory_fast_path (env : Env) (self : GLTextureBuffer)
    (src_orig : PixelBox) (dstBox : Box) (w : World) :
    ((∃ rest, (self.blitFromMemory env src_orig dstBox w).world.calls =
          w.calls ++ Call.genericBlitFromMemory src_orig dstBox :: rest) ↔
      (env.GLEW_EXT_framebuffer_object = false ∨ env.isLuminance src_orig.format = true ∨
        env.isLuminance self.mFormat = true ∨
        (src_orig.getWidth = dstBox.getWidth ∧ src_orig.getHeight = dstBox.getHeight ∧
          src_orig.getDepth = dstBox.getDepth))) ∧
    ((env.GLEW_EXT_framebuffer_object = false ∨ env.isLuminance src_orig.format = true ∨
        env.isLuminance self.mFormat = true ∨
        (src_orig.getWidth = dstBox.getWidth ∧ src_orig.getHeight = dstBox.getHeight ∧
          src_orig.getDepth = dstBox.getDepth)) →
      self.blitFromMemory env src_orig dstBox w =
        GLHardwarePixelBuffer.blitFromMemory env (self.primitives env)
          self.toGLHardwarePixelBuffer src_orig dstBox
          (w.log (Call.genericBlitFromMemory src_orig dstBox)) ∧
      (self.blitFromMemory env src_orig dstBox w).world.gl.commands.filter
          GLCommand.isTextureLifetime =
        w.gl.commands.filter GLCommand.isTextureLifetime) ∧
    (¬ (env.GLEW_EXT_framebuffer_object = false ∨ env.isLuminance src_orig.format = true ∨
        env.isLuminance self.mFormat = true ∨
        (src_orig.getWidth = dstBox.getWidth ∧ src_orig.getHeight = dstBox.getHeight ∧
          src_orig.getDepth = dstBox.getDepth)) →
      (self.buffer w).contains dstBox = false →
      self.blitFromMemory env src_orig dstBox w =
        OGRE_EXCEPT .ERR_INVALIDPARAMS .destinationBoxOutOfRange
          .GLTextureBuffer_blitFromMemory w) ∧
    (¬ (env.GLEW_EXT_framebuffer_object = false ∨ env.isLuminance src_orig.format = true ∨
        env.isLuminance self.mFormat = true ∨
        (src_orig.getWidth = dstBox.getWidth ∧ src_orig.getHeight = dstBox.getHeight ∧
          src_orig.getDepth = dstBox.getDepth)) →
      (self.buffer w).contains dstBox = true →
      self.mBuffer.back ≤ self.mDepth →
      ∃ (src : PixelBox) (own : List GLCommand),
        src = (if env.getGLOriginFormat src_orig.format = 0 then
            PixelBox.ofExtent src_orig.getWidth src_orig.getHeight src_orig.getDepth
              self.mFormat Pointer.conversion
          else src_orig) ∧
        own.filter GLCommand.isTextureLifetime = [] ∧
        (env.isCompressed src.format = false →
          (self.blitFromMemory env src_orig dstBox w).thrown = none) ∧
        (((self.blitFromMemory env src_orig dstBox w).thrown = none ∧
          (self.blitFromMemory env src_orig dstBox w).world.calls =
            w.calls ++ [Call.getGLOriginFormat src_orig.format] ++
              (if env.getGLOriginFormat src_orig.format = 0 then
                [Call.newMemoryDataStream (env.getMemorySize src_orig.getWidth
                   src_orig.getHeight src_orig.getDepth self.mFormat),
                 Call.bulkPixelConversion src_orig src]
               else []) ++
              [Call.newTextureBuffer (if src.getDepth ≠ 1 then GL_TEXTURE_3D else GL_TEXTURE_2D)
                 (w.gl.lastTextureName + 1) 0 0 (TU_AUTOMIPMAP ||| HBU_STATIC_WRITE_ONLY)
                 false 0,
               Call.textureUpload (w.gl.lastTextureName + 1) src
                 (Box.ofCorners 0 0 0 src.getWidth src.getHeight src.getDepth),
               Call.blitFromTexture (w.gl.lastTextureName + 1)
                 (Box.ofCorners 0 0 0 src.getWidth src.getHeight src.getDepth) dstBox] ∧
          ∃ (nested : List GLCommand) (tex : GLTextureBuffer) (g : GLWorld),
            tex.mTextureID = w.gl.lastTextureName + 1 ∧
            tex.mTarget = (if src.getDepth ≠ 1 then GL_TEXTURE_3D else GL_TEXTURE_2D) ∧
            (self.blitFromTextureGL env tex
                (Box.ofCorners 0 0 0 src.getWidth src.getHeight src.getDepth) dstBox
                g).thrown = none ∧
            (self.blitFromTextureGL env tex
                (Box.ofCorners 0 0 0 src.getWidth src.getHeight src.getDepth) dstBox
                g).gl.commands = g.commands ++ nested ∧
            (self.blitFromMemory env src_orig dstBox w).world.gl.commands =
              w.gl.commands ++
                [GLCommand.glGenTextures 1,
                 GLCommand.bindGLTexture
                   (if src.getDepth ≠ 1 then GL_TEXTURE_3D else GL_TEXTURE_2D)
                   (w.gl.lastTextureName + 1),
                 GLCommand.setTexParameteri
                   (if src.getDepth ≠ 1 then GL_TEXTURE_3D else GL_TEXTURE_2D)
                   GL_TEXTURE_MAX_LEVEL 1000,
                 GLCommand.setTexParameteri
                   (if src.getDepth ≠ 1 then GL_TEXTURE_3D else GL_TEXTURE_2D)
                   GL_GENERATE_MIPMAP GL_TRUE,
                 if src.getDepth ≠ 1 then
                   GLCommand.glTexImage3D GL_TEXTURE_3D 0
                     (env.getClosestGLInternalFormat src.format self.mHwGamma)
                     (env.optionalPO2 src.getWidth) (env.optionalPO2 src.getHeight)
                     (env.optionalPO2 src.getDepth) 0 GL_RGBA GL_UNSIGNED_BYTE
                 else
                   GLCommand.glTexImage2D GL_TEXTURE_2D 0
                     (env.getClosestGLInternalFormat src.format self.mHwGamma)
                     (env.optionalPO2 src.getWidth) (env.optionalPO2 src.getHeight) 0
                     GL_RGBA GL_UNSIGNED_BYTE] ++
                own ++ nested ++ [GLCommand.glDeleteTextures 1 (w.gl.lastTextureName + 1)]) ∨
         ((self.blitFromMemory env src_orig dstBox w).thrown =
            some (Failure.ogreExcept .ERR_INVALIDPARAMS .compressedImagesMustBeConsecutive
              .GLTextureBuffer_upload) ∧
          (self.blitFromMemory env src_orig dstBox w).world.calls =
            w.calls ++ [Call.getGLOriginFormat src_orig.format] ++
              (if env.getGLOriginFormat src_orig.format = 0 then
                [Call.newMemoryDataStream (env.getMemorySize src_orig.getWidth
                   src_orig.getHeight src_orig.getDepth self.mFormat),
                 Call.bulkPixelConversion src_orig src]
               else []) ++
              [Call.newTextureBuffer (if src.getDepth ≠ 1 then GL_TEXTURE_3D else GL_TEXTURE_2D)
                 (w.gl.lastTextureName + 1) 0 0 (TU_AUTOMIPMAP ||| HBU_STATIC_WRITE_ONLY)
                 false 0,
               Call.textureUpload (w.gl.lastTextureName + 1) src
                 (Box.ofCorners 0 0 0 src.getWidth src.getHeight src.getDepth)] ∧
          (self.blitFromMemory env src_orig dstBox w).world.gl.commands =
            w.gl.commands ++
                [GLCommand.glGenTextures 1,
                 GLCommand.bindGLTexture
                   (if src.getDepth ≠ 1 then GL_TEXTURE_3D else GL_TEXTURE_2D)
                   (w.gl.lastTextureName + 1),
                 GLCommand.setTexParameteri
                   (if src.getDepth ≠ 1 then GL_TEXTURE_3D else GL_TEXTURE_2D)
                   GL_TEXTURE_MAX_LEVEL 1000,
                 GLCommand.setTexParameteri
                   (if src.getDepth ≠ 1 then GL_TEXTURE_3D else GL_TEXTURE_2D)
                   GL_GENERATE_MIPMAP GL_TRUE,
                 if src.getDepth ≠ 1 then
                   GLCommand.glTexImage3D GL_TEXTURE_3D 0
                     (env.getClosestGLInternalFormat src.format self.mHwGamma)
                     (env.optionalPO2 src.getWidth) (env.optionalPO2 src.getHeight)
                     (env.optionalPO2 src.getDepth) 0 GL_RGBA GL_UNSIGNED_BYTE
                 else
                   GLCommand.glTexImage2D GL_TEXTURE_2D 0
                     (env.getClosestGLInternalFormat src.format self.mHwGamma)
                     (env.optionalPO2 src.getWidth) (env.optionalPO2 src.getHeight) 0
                     GL_RGBA GL_UNSIGNED_BYTE] ++
                own))) := by
  have hcond := GLTextureBuffer.blitFromMemory_condition env self src_orig dstBox
  have hslow : (env.GLEW_EXT_framebuffer_object = false ∨ env.isLuminance src_orig.format = true ∨
        env.isLuminance self.mFormat = true ∨
        (src_orig.getWidth = dstBox.getWidth ∧ src_orig.getHeight = dstBox.getHeight ∧
          src_orig.getDepth = dstBox.getDepth)) →
      self.blitFromMemory env src_orig dstBox w =
        GLHardwarePixelBuffer.blitFromMemory env (self.primitives env)
          self.toGLHardwarePixelBuffer src_orig dstBox
          (w.log (Call.genericBlitFromMemory src_orig dstBox)) := by
    intro h
    unfold GLTextureBuffer.blitFromMemory
    rw [if_pos (hcond.2 h)]
  have hrange : ¬ (env.GLEW_EXT_framebuffer_object = false ∨ env.isLuminance src_orig.format = true ∨
        env.isLuminance self.mFormat = true ∨
        (src_orig.getWidth = dstBox.getWidth ∧ src_orig.getHeight = dstBox.getHeight ∧
          src_orig.getDepth = dstBox.getDepth)) →
      (self.buffer w).contains dstBox = false →
      self.blitFromMemory env src_orig dstBox w =
        OGRE_EXCEPT .ERR_INVALIDPARAMS .destinationBoxOutOfRange
          .GLTextureBuffer_blitFromMemory w := by
    intro h hb
    unfold GLTextureBuffer.blitFromMemory
    rw [if_neg (fun hc => h (hcond.1 hc)), hb]
    rfl
  have hfast : ¬ (env.GLEW_EXT_framebuffer_object = false ∨ env.isLuminance src_orig.format = true ∨
        env.isLuminance self.mFormat = true ∨
        (src_orig.getWidth = dstBox.getWidth ∧ src_orig.getHeight = dstBox.getHeight ∧
          src_orig.getDepth = dstBox.getDepth)) →
      (self.buffer w).contains dstBox = true →
      self.blitFromMemory env src_orig dstBox w =
        self.blitFromMemoryFast env src_orig dstBox w := by
    intro h hb
    unfold GLTextureBuffer.blitFromMemory
    rw [if_neg (fun hc => h (hcond.1 hc)), hb]
    rfl
  refine ⟨⟨?_, ?_⟩, ?_, hrange, ?_⟩
  · rintro ⟨rest, hrest⟩
    by_contra hn
    cases hb : (self.buffer w).contains dstBox with
    | false =>
      rw [hrange hn hb] at hrest
      have hl := congrArg List.length hrest
      simp [OGRE_EXCEPT] at hl
    | true =>
      rw [hfast hn hb] at hrest
      obtain ⟨src, own, _, _, _, hcase⟩ :=
        GLTextureBuffer.blitFromMemoryFast_logs env self src_orig dstBox w
      rcases hcase with ⟨_, hcalls, _⟩ | ⟨_, hcalls, _⟩ | ⟨_, _, hcalls, _⟩
      · rw [hcalls] at hrest
        simp [List.append_assoc] at hrest
      · rw [hcalls] at hrest
        simp [List.append_assoc] at hrest
      · rw [hcalls] at hrest
        simp [List.append_assoc] at hrest
  · intro h
    obtain ⟨t, ht⟩ := GLHardwarePixelBuffer.blitFromMemory_calls env (self.primitives env)
      self.toGLHardwarePixelBuffer src_orig dstBox
      (w.log (Call.genericBlitFromMemory src_orig dstBox))
    refine ⟨t, ?_⟩
    rw [hslow h, ← ht]
    simp [World.log, List.append_assoc]
  · intro h
    refine ⟨hslow h, ?_⟩
    rw [hslow h]
    exact GLHardwarePixelBuffer.blitFromMemory_lifetime env (self.primitives env)
      self.toGLHardwarePixelBuffer src_orig dstBox _
      (fun data dest g => GLTextureBuffer.upload_lifetime env self data dest g)
  · intro h hb hwf
    have hback : dstBox.back ≤ self.mDepth := by
      have hb1 : self.mBuffer.contains dstBox = true := hb
      simp only [PixelBox.contains, Box.contains, Bool.and_eq_true, decide_eq_true_eq]
        at hb1
      exact le_trans hb1.2 hwf
    have hin : env.checkFormat self.mFormat = false ∨ dstBox.back ≤ dstBox.front ∨
        dstBox.back ≤ self.mDepth := Or.inr (Or.inr hback)
    rw [hfast h hb]
    obtain ⟨src, own, hsrc, hown, hret, hcase⟩ :=
      GLTextureBuffer.blitFromMemoryFast_logs env self src_orig dstBox w
    refine ⟨src, own, hsrc, hown, fun hc => hret hc hin, ?_⟩
    rcases hcase with hA | hB | hC
    · exact Or.inl hA
    · exact Or.inr hB
    · exact absurd hin hC.1

/-- C12, amended, on the 4x4x1 texture buffer of `sampleEnv`: an 8x8x1 source of the native
format `1` goes through a temporary 2D texture and the call returns.  The texture named 1
is generated and, at the end, deleted; the deletion of the name 0 before it is the one
`blitFromTexture` issues for its intermediate texture, of which there is none here. -/
theorem C12_blitFromMemory_fast_path_witness :
    (texture4x4.blitFromMemory sampleEnv (clientBox 8 8 1 1) (Box.ofCorners 0 0 0 4 4 1)
        emptyWorld).thrown = none ∧
    (texture4x4.blitFromMemory sampleEnv (clientBox 8 8 1 1) (Box.ofCorners 0 0 0 4 4 1)
        emptyWorld).world.calls =
      [Call.getGLOriginFormat 1,
       Call.newTextureBuffer GL_TEXTURE_2D 1 0 0 (TU_AUTOMIPMAP ||| HBU_STATIC_WRITE_ONLY)
         false 0,
       Call.textureUpload 1 (clientBox 8 8 1 1) (Box.ofCorners 0 0 0 8 8 1),
       Call.blitFromTexture 1 (Box.ofCorners 0 0 0 8 8 1) (Box.ofCorners 0 0 0 4 4 1)] ∧
    (texture4x4.blitFromMemory sampleEnv (clientBox 8 8 1 1) (Box.ofCorners 0 0 0 4 4 1)
        emptyWorld).world.gl.commands.filter GLCommand.isTextureLifetime =
      [GLCommand.glGenTextures 1, GLCommand.glDeleteTextures 1 0,
       GLCommand.glDeleteTextures 1 1] := by
  obtain ⟨src, own, hsrc, _, hret, _⟩ :=
    (C12_blitFromMemory_fast_path sampleEnv texture4x4 (clientBox 8 8 1 1)
      (Box.ofCorners 0 0 0 4 4 1) emptyWorld).2.2.2 (by decide) (by decide)
      (le_of_eq (GLTextureBuffer.new_shadow_depth sampleEnv GL_TEXTURE_2D 1 0 0 HBU_STATIC
        false 0 emptyWorld))
  refine ⟨hret ?_, by decide, rfl⟩
  rw [hsrc]
  decide

end Ogre
